import Mathlib

/-!
Verification development for the MidiExtract repository.

Shallow embedding of the core components described in the specification:
the content-addressed deduplicator (`midi_deduplicator.py`), the silence
trimmer (`midi_trimmer.py`), the track segmenter / duration computation
(`midi_extractor.py`), the filename metadata parser (`file_metadata.py`)
and the Krumhansl-Schmuckler key estimator (`scale_detector.py`).

Modelling conventions:
* Python machine integers are modelled as `Nat`/`Int` (MIDI tick times are
  non-negative in the format, so event times are `Nat`).
* Python float arithmetic in the key estimator is idealised: all
  intermediate statistics are exact rationals and the final correlation
  (which involves a square root) lives in `ℝ`.
* Fallible file access is an `Option`-valued file system.
* Regular-expression searches from `file_metadata.py` are hand-compiled
  to explicit scanning functions with the same leftmost-match and
  alternation/greediness priorities as the source patterns.
-/

/-! ## Content-addressed deduplicator (`midi_deduplicator.py`) -/

namespace MidiDeduplicator

/-- File contents as a byte list. -/
abbrev Bytes : Type := List Nat

/-- A file system: maps a path to its content, `none` when the file does not
exist or cannot be read. -/
abbrev FS : Type := String → Option Bytes

/-- Modelled from the spec: `hashlib.sha256(...).hexdigest()` is an external
collaborator computing a fixed-size cryptographic content digest.  It is
modelled as an injective, never-empty textual encoding of the content; the
claims about `register_file` are stated at digest level, so only
functionality (equal content gives equal digest) is used in proofs. -/
def sha256_hexdigest (b : Bytes) : String :=
  "sha256-" ++ String.intercalate "-" (b.map toString)

/-- Mutable state of a `MidiDeduplicator` instance: the dict
`file_hashes : hash -> canonical_path` (insertion-ordered association list;
keys are unique because insertion only happens on a miss), plus the two
counters. -/
structure DedupState where
  file_hashes : List (String × String)
  duplicates_found : Nat
  bytes_saved : Nat
deriving DecidableEq

/-- The empty state built by `MidiDeduplicator.__init__`. -/
def initState : DedupState := ⟨[], 0, 0⟩

/-- `compute_file_hash`: `None` when the file is missing/unreadable,
otherwise the digest of its full content. -/
def compute_file_hash (fs : FS) (file_path : String) : Option String :=
  (fs file_path).map sha256_hexdigest

/-- Python truthiness of the optional digest string used by
`if not file_hash:` (false for `None` and for the empty string). -/
def truthyHash : Option String → Bool
  | none => false
  | some s => !(s == "")

/-- `os.path.getsize`, modelled as the byte length of the content (the
source wraps it in `try ... except: pass`, defaulting to adding nothing). -/
def getsize (fs : FS) (file_path : String) : Nat :=
  ((fs file_path).map List.length).getD 0

/-- `MidiDeduplicator.register_file`: returns
`((is_duplicate, canonical_path), new state)`. -/
def register_file (fs : FS) (st : DedupState) (file_path : String) :
    (Bool × Option String) × DedupState :=
  let file_hash := compute_file_hash fs file_path
  if truthyHash file_hash then
    match file_hash with
    | none => ((false, none), st)
    | some d =>
      match List.lookup d st.file_hashes with
      | some canonical_path =>
        ((true, some canonical_path),
          { st with duplicates_found := st.duplicates_found + 1,
                    bytes_saved := st.bytes_saved + getsize fs file_path })
      | none =>
        ((false, none), { st with file_hashes := st.file_hashes ++ [(d, file_path)] })
  else ((false, none), st)

end MidiDeduplicator

/-! ## Silence trimmer (`midi_trimmer.py`), over the symusic score model -/

namespace MIDITrimmer

/-- A note event (symusic `Note`): start tick, duration in ticks, pitch,
velocity.  The trimmer only rewrites `time`. -/
structure Note where
  time : Nat
  duration : Nat
  pitch : Nat
  velocity : Nat
deriving DecidableEq

/-- A control-change event (symusic `ControlChange`). -/
structure Control where
  time : Nat
  number : Nat
  value : Nat
deriving DecidableEq

/-- A pitch-bend event (symusic `PitchBend`). -/
structure PitchBend where
  time : Nat
  value : Int
deriving DecidableEq

/-- A sustain-pedal event (symusic `Pedal`): onset tick and held duration. -/
structure Pedal where
  time : Nat
  duration : Nat
deriving DecidableEq

/-- A lyric event (symusic `TextMeta`). -/
structure Lyric where
  time : Nat
  text : String
deriving DecidableEq

/-- A tempo change (symusic `Tempo`), microseconds per quarter note. -/
structure Tempo where
  time : Nat
  mspq : Nat
deriving DecidableEq

/-- A time-signature change (symusic `TimeSignature`). -/
structure TimeSig where
  time : Nat
  numerator : Nat
  denominator : Nat
deriving DecidableEq

/-- A key-signature change (symusic `KeySignature`). -/
structure KeySig where
  time : Nat
  key : Int
deriving DecidableEq

/-- One track of a symusic `Score`.  symusic tracks always expose a
`lyrics` list, so the `hasattr(track, 'lyrics')` guard in `shift_events`
is always true in this model. -/
structure MTrack where
  notes : List Note
  controls : List Control
  pitch_bends : List PitchBend
  pedals : List Pedal
  lyrics : List Lyric
deriving DecidableEq

/-- A symusic `Score`: resolution, tracks, and the score-level event lists. -/
structure Score where
  ticks_per_quarter : Nat
  tracks : List MTrack
  tempos : List Tempo
  time_signatures : List TimeSig
  key_signatures : List KeySig
deriving DecidableEq

/-- All notes of the score, in track order (the nested loop of
`find_note_boundaries`; tracks with empty `notes` contribute nothing, which
is exactly the `if not track.notes: continue` shortcut). -/
def allNotes (s : Score) : List Note :=
  (s.tracks.map MTrack.notes).flatten

/-- Running minimum with an optional accumulator, mirroring the
`if first_note_time is None or note_start < first_note_time` update. -/
def listMinO (l : List Nat) : Option Nat :=
  l.foldl (fun acc x =>
    match acc with
    | none => some x
    | some m => some (min m x)) none

/-- Running maximum with an optional accumulator, mirroring the
`if last_note_time is None or note_end > last_note_time` update. -/
def listMaxO (l : List Nat) : Option Nat :=
  l.foldl (fun acc x =>
    match acc with
    | none => some x
    | some m => some (max m x)) none

/-- `MIDITrimmer.find_note_boundaries`: `(first_note_time, last_note_time)`,
`(none, none)` when the score has no notes. -/
def find_note_boundaries (s : Score) : Option Nat × Option Nat :=
  (listMinO ((allNotes s).map Note.time),
   listMaxO ((allNotes s).map (fun n => n.time + n.duration)))

/-- `MIDITrimmer.count_notes`. -/
def count_notes (s : Score) : Nat :=
  (s.tracks.map (fun t => t.notes.length)).sum

/-- One timestamp update of `shift_events`:
`event.time = max(0, event.time - shift_ticks)` (tick times are `Nat`,
`shift_ticks` is a Python int). -/
def shiftTime (shift_ticks : Int) (t : Nat) : Nat :=
  (max 0 ((t : Int) - shift_ticks)).toNat

/-- `MIDITrimmer.shift_events`: rewrite every timed entity of the score
(notes, control changes, pitch bends, pedals and lyrics per track; tempos,
time signatures and key signatures at score level).  The source mutates in
place and returns early on a zero shift; the model returns the new score. -/
def shift_events (s : Score) (shift_ticks : Int) : Score :=
  if shift_ticks = 0 then s
  else
    { s with
      tracks := s.tracks.map (fun tr =>
        { tr with
          notes := tr.notes.map (fun n => { n with time := shiftTime shift_ticks n.time }),
          controls := tr.controls.map (fun c => { c with time := shiftTime shift_ticks c.time }),
          pitch_bends := tr.pitch_bends.map (fun p => { p with time := shiftTime shift_ticks p.time }),
          pedals := tr.pedals.map (fun p => { p with time := shiftTime shift_ticks p.time }),
          lyrics := tr.lyrics.map (fun m => { m with time := shiftTime shift_ticks m.time }) }),
      tempos := s.tempos.map (fun e => { e with time := shiftTime shift_ticks e.time }),
      time_signatures := s.time_signatures.map (fun e => { e with time := shiftTime shift_ticks e.time }),
      key_signatures := s.key_signatures.map (fun e => { e with time := shiftTime shift_ticks e.time }) }

/-- Modelled from the spec: symusic `Score.end()` is an external
collaborator returning the clip's terminal tick — the maximum end time over
all events (notes and pedals end at `time + duration`, the other events at
`time`), `0` for an empty clip. -/
def score_end (s : Score) : Nat :=
  (((s.tracks.map (fun tr =>
      tr.notes.map (fun n => n.time + n.duration) ++
      tr.controls.map Control.time ++
      tr.pitch_bends.map PitchBend.time ++
      tr.pedals.map (fun p => p.time + p.duration) ++
      tr.lyrics.map Lyric.time)).flatten ++
    s.tempos.map Tempo.time ++
    s.time_signatures.map TimeSig.time ++
    s.key_signatures.map KeySig.time).foldr max 0)

/-- Per-file statistics record (`TrimStatistics`); `file_path` is omitted
because the model has no file system. -/
structure TrimStatistics where
  original_duration_ticks : Nat
  trimmed_start_ticks : Nat
  trimmed_end_ticks : Int
  new_duration_ticks : Nat
  note_count : Nat
  first_note_time : Nat
  last_note_time : Nat
  tempo_count : Nat
  time_sig_count : Nat
  success : Bool
  error_message : Option String
deriving DecidableEq

/-- `MIDITrimmer.trim_file` on an already-loaded score: returns the
(possibly shifted) score together with its `TrimStatistics`.  File loading
and saving are external I/O and are not modelled. -/
def trim_file (min_trim_ticks : Int) (trim_trailing : Bool) (s : Score) :
    Score × TrimStatistics :=
  let original_duration := score_end s
  let note_count := count_notes s
  match find_note_boundaries s with
  | (some first_note_time, some last_note_time) =>
    let trim_start : Nat :=
      if (first_note_time : Int) ≥ min_trim_ticks then first_note_time else 0
    let trailing_space : Int := (original_duration : Int) - (last_note_time : Int)
    let trim_end : Int :=
      if trim_trailing ∧ trailing_space ≥ min_trim_ticks then trailing_space else 0
    let s' := if trim_start > 0 then shift_events s (trim_start : Int) else s
    (s',
      { original_duration_ticks := original_duration,
        trimmed_start_ticks := trim_start,
        trimmed_end_ticks := trim_end,
        new_duration_ticks := score_end s',
        note_count := note_count,
        first_note_time := first_note_time,
        last_note_time := last_note_time,
        tempo_count := s'.tempos.length,
        time_sig_count := s'.time_signatures.length,
        success := true,
        error_message := none })
  | _ =>
    (s,
      { original_duration_ticks := original_duration,
        trimmed_start_ticks := 0,
        trimmed_end_ticks := 0,
        new_duration_ticks := original_duration,
        note_count := 0,
        first_note_time := 0,
        last_note_time := 0,
        tempo_count := s.tempos.length,
        time_sig_count := s.time_signatures.length,
        success := false,
        error_message := some "No notes found in file" })

end MIDITrimmer

/-! ## Track segmenter / classifier (`midi_extractor.py`) -/

namespace MidiExtractor

/-- A mido message, with its delta `time` in ticks.  Channel-voice messages
carry a `channel`; meta messages do not (`hasattr(msg, 'channel')` is
false for them). -/
inductive Msg where
  | note_on (channel note velocity : Nat) (time : Nat)
  | note_off (channel note velocity : Nat) (time : Nat)
  | program_change (channel program : Nat) (time : Nat)
  | control_change (channel control value : Nat) (time : Nat)
  | track_name (name : String) (time : Nat)
  | set_tempo (tempo : Nat) (time : Nat)
  | end_of_track (time : Nat)
deriving DecidableEq

/-- Delta time of a message. -/
def Msg.time : Msg → Nat
  | .note_on _ _ _ t => t
  | .note_off _ _ _ t => t
  | .program_change _ _ t => t
  | .control_change _ _ _ t => t
  | .track_name _ t => t
  | .set_tempo _ t => t
  | .end_of_track t => t

/-- `msg.channel` when the message has one (`hasattr(msg, 'channel')`). -/
def Msg.channelO : Msg → Option Nat
  | .note_on c _ _ _ => some c
  | .note_off c _ _ _ => some c
  | .program_change c _ _ => some c
  | .control_change c _ _ _ => some c
  | _ => none

/-- `msg.type in ('note_on', 'note_off')`. -/
def Msg.isNote : Msg → Bool
  | .note_on _ _ _ _ => true
  | .note_off _ _ _ _ => true
  | _ => false

/-- A mido `MidiFile`: resolution plus tracks of messages. -/
structure MFile where
  ticks_per_beat : Nat
  tracks : List (List Msg)
deriving DecidableEq

/-- The fixed 128-entry General MIDI name table `GM_INSTRUMENTS`. -/
def gm_instruments : Nat → Option String
  | 0 => some "Acoustic Piano"
  | 1 => some "Bright Piano"
  | 2 => some "Electric Piano 1"
  | 3 => some "Electric Piano 2"
  | 4 => some "Honky Tonk Piano"
  | 5 => some "Electric Piano"
  | 6 => some "Harpsichord"
  | 7 => some "Clavier"
  | 8 => some "Celesta"
  | 9 => some "Glockenspiel"
  | 10 => some "Music Box"
  | 11 => some "Vibraphone"
  | 12 => some "Marimba"
  | 13 => some "Xylophone"
  | 14 => some "Tubular Bells"
  | 15 => some "Dulcimer"
  | 16 => some "Drawbar Organ"
  | 17 => some "Percussive Organ"
  | 18 => some "Rock Organ"
  | 19 => some "Church Organ"
  | 20 => some "Reed Organ"
  | 21 => some "Accordion"
  | 22 => some "Harmonica"
  | 23 => some "Tango Accordion"
  | 24 => some "Acoustic Nylon Guitar"
  | 25 => some "Acoustic Steel Guitar"
  | 26 => some "Electric Jazz Guitar"
  | 27 => some "Electric Clean Guitar"
  | 28 => some "Electric Muted Guitar"
  | 29 => some "Overdriven Guitar"
  | 30 => some "Distortion Guitar"
  | 31 => some "Guitar Harmonics"
  | 32 => some "Acoustic Bass"
  | 33 => some "Electric Finger Bass"
  | 34 => some "Electric Pick Bass"
  | 35 => some "Fretless Bass"
  | 36 => some "Slap Bass 1"
  | 37 => some "Slap Bass 2"
  | 38 => some "Synth Bass 1"
  | 39 => some "Synth Bass 2"
  | 40 => some "Violin"
  | 41 => some "Viola"
  | 42 => some "Cello"
  | 43 => some "Contrabass"
  | 44 => some "Tremolo Strings"
  | 45 => some "Pizzicato Strings"
  | 46 => some "Orchestral Harp"
  | 47 => some "Timpani"
  | 48 => some "String Ensemble 1"
  | 49 => some "String Ensemble 2"
  | 50 => some "Synth Strings 1"
  | 51 => some "Synth Strings 2"
  | 52 => some "Choir Aahs"
  | 53 => some "Choir Oohs"
  | 54 => some "Synth Voice"
  | 55 => some "Orchestra Hit"
  | 56 => some "Trumpet"
  | 57 => some "Trombone"
  | 58 => some "Tuba"
  | 59 => some "Muted Trumpet"
  | 60 => some "French Horn"
  | 61 => some "Brass Section"
  | 62 => some "Synth Brass 1"
  | 63 => some "Synth Brass 2"
  | 64 => some "Soprano Sax"
  | 65 => some "Alto Sax"
  | 66 => some "Tenor Sax"
  | 67 => some "Baritone Sax"
  | 68 => some "Oboe"
  | 69 => some "English Horn"
  | 70 => some "Bassoon"
  | 71 => some "Clarinet"
  | 72 => some "Piccolo"
  | 73 => some "Flute"
  | 74 => some "Recorder"
  | 75 => some "Pan Flute"
  | 76 => some "Bottle Blow"
  | 77 => some "Shakuhachi"
  | 78 => some "Whistle"
  | 79 => some "Ocarina"
  | 80 => some "Lead Synth Square"
  | 81 => some "Lead Synth Sawtooth"
  | 82 => some "Lead Synth Calliope"
  | 83 => some "Lead Synth Chiff"
  | 84 => some "Lead Synth Charang"
  | 85 => some "Lead Synth Voice"
  | 86 => some "Lead Synth Fifths"
  | 87 => some "Lead Synth Bass + Lead"
  | 88 => some "Pad Synth New Age"
  | 89 => some "Pad Synth Warm"
  | 90 => some "Pad Synth Polysynth"
  | 91 => some "Pad Synth Choir"
  | 92 => some "Pad Synth Bowed"
  | 93 => some "Pad Synth Metallic"
  | 94 => some "Pad Synth Halo"
  | 95 => some "Pad Synth Sweep"
  | 96 => some "Fx Synth Rain"
  | 97 => some "Fx Synth Soundtrack"
  | 98 => some "Fx Synth Crystal"
  | 99 => some "Fx Synth Atmosphere"
  | 100 => some "Fx Synth Brightness"
  | 101 => some "Fx Synth Goblins"
  | 102 => some "Fx Synth Echoes"
  | 103 => some "Fx Synth Sci Fi"
  | 104 => some "Sitar"
  | 105 => some "Banjo"
  | 106 => some "Shamisen"
  | 107 => some "Koto"
  | 108 => some "Kalimba"
  | 109 => some "Bagpipe"
  | 110 => some "Fiddle"
  | 111 => some "Shanai"
  | 112 => some "Tinkle Bell"
  | 113 => some "Agogo"
  | 114 => some "Steel Drums"
  | 115 => some "Woodblock"
  | 116 => some "Taiko Drum"
  | 117 => some "Melodic Tom"
  | 118 => some "Synth Drum"
  | 119 => some "Reverse Cymbal"
  | 120 => some "Guitar Fret Noise"
  | 121 => some "Breath Noise"
  | 122 => some "Seashore"
  | 123 => some "Bird Tweet"
  | 124 => some "Telephone Ring"
  | 125 => some "Helicopter"
  | 126 => some "Applause"
  | 127 => some "Gunshot"
  | _ => none

/-- The single-pass scan state of `_extract_track_data`. -/
structure ScanState where
  has_notes : Bool
  track_name : String
  instrument_name : String
  program_change : Option Nat
  is_percussion : Bool
  found_track_name : Bool
  found_program_change : Bool
deriving DecidableEq

/-- Initial scan state. -/
def initScan : ScanState :=
  { has_notes := false, track_name := "", instrument_name := "Unknown",
    program_change := none, is_percussion := false,
    found_track_name := false, found_program_change := false }

/-- The per-message updates of the single-pass loop, in source order. -/
def scanStep (st : ScanState) (msg : Msg) : ScanState :=
  let st := if !st.has_notes && msg.isNote then { st with has_notes := true } else st
  let st :=
    match msg with
    | .track_name nm _ =>
      if !st.found_track_name then
        { st with track_name := nm, found_track_name := true }
      else st
    | _ => st
  let st :=
    match msg with
    | .program_change _ program _ =>
      if !st.found_program_change then
        { st with program_change := some program,
                  instrument_name := (gm_instruments program).getD ("Instrument " ++ toString program),
                  found_program_change := true }
      else st
    | _ => st
  let st :=
    if !st.is_percussion && (msg.channelO == some 9) then
      { st with is_percussion := true }
    else st
  st

/-- The scanning loop with its early exit
(`if has_notes and found_track_name and found_program_change: break`). -/
def scanTrack : List Msg → ScanState → ScanState
  | [], st => st
  | msg :: rest, st =>
    let st := scanStep st msg
    if st.has_notes && st.found_track_name && st.found_program_change then st
    else scanTrack rest st

/-- Python truthiness of `program_change` in
`if not program_change and is_percussion:` — false for `None` and for
program number `0`. -/
def truthyProgram : Option Nat → Bool
  | none => false
  | some n => !(n == 0)

/-- The per-track record built by `_extract_track_data`. -/
structure TrackData where
  track_index : Nat
  track_name : String
  instrument : String
  program_change : Option Nat
  midi_data : List Msg
deriving DecidableEq

/-- `MidiExtractor._extract_track_data`: `none` when the track has no note
events, otherwise the extracted record. -/
def extract_track_data (track : List Msg) (track_idx : Nat) : Option TrackData :=
  let st := scanTrack track initScan
  if !st.has_notes then none
  else
    let instrument_name :=
      if !truthyProgram st.program_change && st.is_percussion then "Percussion"
      else st.instrument_name
    some { track_index := track_idx, track_name := st.track_name,
           instrument := instrument_name, program_change := st.program_change,
           midi_data := track }

/-- Python `round` (banker's rounding, half to even) on an exact rational,
idealising the float rounding of the source. -/
def pyRound (q : ℚ) : ℤ :=
  let f := ⌊q⌋
  if q - f < 1 / 2 then f
  else if 1 / 2 < q - f then f + 1
  else if f % 2 = 0 then f else f + 1

/-- `MidiExtractor.get_duration_seconds` on an already-loaded file: per
track, accumulate the delta times to the final event's cumulative tick;
`total_ticks` is the maximum across tracks; with a known (non-zero)
`ticks_per_beat` and positive `total_ticks`, seconds are
`max(1, round(total_ticks / ticks_per_beat * (500000 / 1_000_000)))`
(the fixed 120 BPM assumption), otherwise `0`. -/
def get_duration_seconds (m : MFile) : ℤ :=
  let total_ticks : Nat :=
    m.tracks.foldl (fun total track =>
      max total (track.foldl (fun ticks msg => ticks + msg.time) 0)) 0
  if m.ticks_per_beat ≠ 0 ∧ total_ticks > 0 then
    max 1 (pyRound ((total_ticks : ℚ) / (m.ticks_per_beat : ℚ) * (500000 / 1000000)))
  else 0

end MidiExtractor

/-! ## Filename metadata parsing (`file_metadata.py`)

The two source regexes relevant to the claims are hand-compiled to scanning
functions: `re.search` tries every start position left to right, and at a
given position alternatives are tried in the pattern's priority order
(greedy quantifiers first).  `\s` is the Python whitespace class, `(?i)`
makes everything case-insensitive. -/

namespace FileMetadata

/-- Python regex `\s` (ASCII whitespace characters). -/
def isWs (c : Char) : Bool :=
  c == ' ' || c == '\t' || c == '\n' || c == '\r' || c == '\x0b' || c == '\x0c'

/-- Numeric value of a decimal digit character. -/
def digitVal (c : Char) : Nat := c.toNat - '0'.toNat

/-- Case-insensitive `[A-G]`. -/
def isLetterAG (c : Char) : Bool :=
  ('a' ≤ c.toLower) && (c.toLower ≤ 'g')

/-- The tail `\s*BPM` of `BPM_REGEX`, case-insensitively (the `\s*` is
maximal-munch, which is equivalent here because `B` is not whitespace). -/
def bpmTail (l : List Char) : Bool :=
  match l.dropWhile isWs with
  | b :: p :: m :: _ => b.toLower == 'b' && p.toLower == 'p' && m.toLower == 'm'
  | _ => false

/-- `BPM_REGEX = (?i)(\d{2,3})\s*BPM` anchored at the current position:
the greedy `\d{2,3}` tries three digits first, then backtracks to two. -/
def bpmAt (l : List Char) : Option Nat :=
  match l with
  | c1 :: c2 :: rest =>
    if c1.isDigit && c2.isDigit then
      match rest with
      | c3 :: rest3 =>
        if c3.isDigit && bpmTail rest3 then
          some (digitVal c1 * 100 + digitVal c2 * 10 + digitVal c3)
        else if bpmTail rest then some (digitVal c1 * 10 + digitVal c2)
        else none
      | [] => none
    else none
  | _ => none

/-- `re.search`: try the anchored matcher at every position, left to right. -/
def searchWith {α : Type} (f : List Char → Option α) : List Char → Option α
  | [] => f []
  | l@(_ :: rest) =>
    match f l with
    | some r => some r
    | none => searchWith f rest

/-- The separator `\s*[- ]?\s*` of the first two key regexes, by maximal
munch (equivalent to the backtracking semantics because the mode
alternatives never start with whitespace or a dash). -/
def sepDrop (l : List Char) : List Char :=
  let l1 := l.dropWhile isWs
  let l2 :=
    match l1 with
    | c :: rest => if c == '-' || c == ' ' then rest else l1
    | [] => []
  l2.dropWhile isWs

/-- Case-insensitive literal prefix test. -/
def ciPrefix (pat : List Char) (l : List Char) : Bool :=
  pat.isPrefixOf (l.map Char.toLower)

/-- The alternation `(maj(?:or)?|dur)` of the first key regex; returns the
raw matched slice (the capture group text).  Priority: greedy `(?:or)?`
first, so `major` before `maj`, then `dur`. -/
def modeMaj (l : List Char) : Option (List Char) :=
  if ciPrefix ['m', 'a', 'j', 'o', 'r'] l then some (l.take 5)
  else if ciPrefix ['m', 'a', 'j'] l then some (l.take 3)
  else if ciPrefix ['d', 'u', 'r'] l then some (l.take 3)
  else none

/-- The alternation `(min(?:or)?|m)` of the second key regex: `minor`,
then `min`, then `m`. -/
def modeMin (l : List Char) : Option (List Char) :=
  if ciPrefix ['m', 'i', 'n', 'o', 'r'] l then some (l.take 5)
  else if ciPrefix ['m', 'i', 'n'] l then some (l.take 3)
  else if ciPrefix ['m'] l then some (l.take 1)
  else none

/-- Python regex `\w` (word character, ASCII). -/
def isWordChar (c : Char) : Bool := c.isAlphanum || c == '_'

/-- Word boundary `\b` after a word character: next char absent or non-word. -/
def boundaryAt (l : List Char) : Bool :=
  match l with
  | [] => true
  | c :: _ => !isWordChar c

/-- The alternation `(maj|min|m)\b` of the compact key regex. -/
def modeCompact (l : List Char) : Option (List Char) :=
  if ciPrefix ['m', 'a', 'j'] l && boundaryAt (l.drop 3) then some (l.take 3)
  else if ciPrefix ['m', 'i', 'n'] l && boundaryAt (l.drop 3) then some (l.take 3)
  else if ciPrefix ['m'] l && boundaryAt (l.drop 1) then some (l.take 1)
  else none

/-- `([A-G](?:#|b)?)` followed by `sep` and a mode alternation, anchored at
the current position.  The optional accidental (`#`, `b`, `B` under `(?i)`)
is greedy: the variant consuming it is tried first, the variant without it
on failure.  Returns `(group 1, group 2)` as raw slices. -/
def tonalAt (modeParse : List Char → Option (List Char)) (sep : List Char → List Char)
    (l : List Char) : Option (List Char × List Char) :=
  match l with
  | [] => none
  | c :: rest =>
    if !isLetterAG c then none
    else
      match rest with
      | a :: rest2 =>
        if a == '#' || a == 'b' || a == 'B' then
          match modeParse (sep rest2) with
          | some tok => some ([c, a], tok)
          | none => (modeParse (sep rest)).map (fun tok => ([c], tok))
        else (modeParse (sep rest)).map (fun tok => ([c], tok))
      | [] => (modeParse (sep rest)).map (fun tok => ([c], tok))

/-- Tonic/mode normalization, lines 46-62 of `file_metadata.py`. -/
def normalizeKey (g1 g2 : List Char) : String :=
  match g1 with
  | [] => ""
  | t :: rest =>
    let base := String.singleton t.toUpper
    let tonic :=
      match rest with
      | a :: _ =>
        if a == '#' || a == '♯' then base ++ "#"
        else if a == 'b' || a == '♭' || a == 'B' then base ++ "b"
        else base
      | [] => base
    let mode_raw := g2.map Char.toLower
    if ciPrefix ['m', 'a', 'j'] mode_raw || mode_raw == ['d', 'u', 'r'] then
      tonic ++ " major"
    else if ciPrefix ['m', 'i', 'n'] mode_raw || mode_raw == ['m'] then
      tonic ++ " minor"
    else tonic

/-- `filename.rsplit('.', 1)[0]`: strip everything from the last dot on
(the whole name when there is no dot). -/
def stripExt (l : List Char) : List Char :=
  if '.' ∈ l then (((l.reverse.dropWhile (fun c => c != '.')).drop 1).reverse)
  else l

/-- `parse_filename_metadata`: `(bpm, scale_string)`. -/
def parse_filename_metadata (filename : String) : Option Nat × Option String :=
  let name := stripExt filename.data
  let bpm := searchWith bpmAt name
  let scale :=
    match searchWith (tonalAt modeMaj sepDrop) name with
    | some (g1, g2) => some (normalizeKey g1 g2)
    | none =>
      match searchWith (tonalAt modeMin sepDrop) name with
      | some (g1, g2) => some (normalizeKey g1 g2)
      | none =>
        match searchWith (tonalAt modeCompact (fun l => l)) name with
        | some (g1, g2) => some (normalizeKey g1 g2)
        | none => none
  (bpm, scale)

end FileMetadata

/-! ## Key estimator (`scale_detector.py`)

The pitch-class histogram entries and all intermediate statistics of
`_pearson_correlation` are exact rationals; only the final division by the
square root of the product of the centred sums of squares lives in `ℝ`.
Comparisons on correlations therefore use classical decidability and the
definitions of this section are noncomputable, reflecting the float
arithmetic of the source. -/

namespace ScaleDetector

open scoped Classical

/-- The Krumhansl-Kessler major profile `MAJOR_PROFILE`. -/
def MAJOR_PROFILE : List ℚ :=
  [6.35, 2.23, 3.48, 2.33, 4.38, 4.09, 2.52, 5.19, 2.39, 3.66, 2.29, 2.88]

/-- The Krumhansl-Kessler minor profile `MINOR_PROFILE`. -/
def MINOR_PROFILE : List ℚ :=
  [6.33, 2.68, 3.52, 5.38, 2.60, 3.53, 2.54, 4.75, 3.98, 2.69, 3.34, 3.17]

/-- `NOTE_NAMES` (flats preferred for black keys except C#/F#). -/
def NOTE_NAMES : List String :=
  ["C", "C#", "D", "Eb", "E", "F", "F#", "G", "Ab", "A", "Bb", "B"]

/-- The numerator `sum((x[i]-mean_x)*(y[i]-mean_y) for i in range(n))` of
`_pearson_correlation`, with `n = len(x)` and both means divided by `n`
exactly as in the source (the source indexes `y` over `range(n)`, i.e.
over `y.take x.length`; all call sites pass two 12-element lists). -/
def pNum (x y : List ℚ) : ℚ :=
  let n : ℚ := x.length
  let mean_x := x.sum / n
  let mean_y := y.sum / n
  ((x.zip (y.take x.length)).map (fun p => (p.1 - mean_x) * (p.2 - mean_y))).sum

/-- `sum_sq_x = sum((x[i]-mean_x)**2 for i in range(n))`. -/
def pSqX (x : List ℚ) : ℚ :=
  let n : ℚ := x.length
  let mean_x := x.sum / n
  (x.map (fun a => (a - mean_x) ^ 2)).sum

/-- `sum_sq_y = sum((y[i]-mean_y)**2 for i in range(n))`, with
`n = len(x)` and `mean_y = sum(y)/n` as in the source. -/
def pSqY (x y : List ℚ) : ℚ :=
  let n : ℚ := x.length
  let mean_y := y.sum / n
  ((y.take x.length).map (fun b => (b - mean_y) ^ 2)).sum

/-- `ScaleDetector._pearson_correlation`: `0` for empty input, `0` when the
denominator `(sum_sq_x * sum_sq_y) ** 0.5` is zero (either vector has zero
variance), otherwise the quotient. -/
noncomputable def pearson_correlation (x y : List ℚ) : ℝ :=
  if x.length = 0 then 0
  else if pSqX x * pSqY x y = 0 then 0
  else (pNum x y : ℝ) / Real.sqrt ((pSqX x : ℝ) * (pSqY x y : ℝ))

/-- `rotated_histogram = histogram[root:] + histogram[:root]`. -/
def rotateHist (h : List ℚ) (root : Nat) : List ℚ :=
  h.drop root ++ h.take root

/-- The major candidate tried for a given root:
`(note name, mode, correlation)`. -/
noncomputable def majorCand (h : List ℚ) (root : Nat) : (String × String) × ℝ :=
  ((NOTE_NAMES.getD root "unknown", "Major"),
    pearson_correlation (rotateHist h root) MAJOR_PROFILE)

/-- The minor candidate tried for a given root. -/
noncomputable def minorCand (h : List ℚ) (root : Nat) : (String × String) × ℝ :=
  ((NOTE_NAMES.getD root "unknown", "Minor"),
    pearson_correlation (rotateHist h root) MINOR_PROFILE)

/-- One `if correlation > best_correlation:` update of `_find_best_key`;
the state is `(best_correlation, (best_key, best_mode))`. -/
noncomputable def kcStep (st : ℝ × String × String) (cand : (String × String) × ℝ) :
    ℝ × String × String :=
  if cand.2 > st.1 then (cand.2, cand.1.1, cand.1.2) else st

/-- The candidates in evaluation order: for each root `0..11`, major then
minor. -/
noncomputable def keyCandidates (h : List ℚ) : List ((String × String) × ℝ) :=
  (List.range 12).flatMap (fun root => [majorCand h root, minorCand h root])

/-- Default candidate for out-of-range indexing via `List.getD`. -/
noncomputable def cdflt : (String × String) × ℝ := (("unknown", "unknown"), 0)

/-- `ScaleDetector._find_best_key`: the double loop over roots and modes
starting from `best_correlation = -1.0, best_key = "unknown",
best_mode = "Major"`, then the label `f"{best_key} {best_mode}"` and the
confidence `max(0.0, min(1.0, (best_correlation + 1.0) / 2.0))`. -/
noncomputable def find_best_key (h : List ℚ) : String × ℝ :=
  let final :=
    (List.range 12).foldl
      (fun st root => kcStep (kcStep st (majorCand h root)) (minorCand h root))
      (-1, "unknown", "Major")
  (final.2.1 ++ " " ++ final.2.2, max 0 (min 1 ((final.1 + 1) / 2)))

/-- The final value of `best_correlation`: the running maximum of the
candidate correlations, started at `-1`. -/
noncomputable def maxCorr (h : List ℚ) : ℝ :=
  ((keyCandidates h).map (fun c => c.2)).foldl max (-1)

/-- The reference profile selected by a mode flag (`true` = major). -/
def profileOf (m : Bool) : List ℚ :=
  if m then MAJOR_PROFILE else MINOR_PROFILE

/-- The mode label of a mode flag. -/
def modeNameOf (m : Bool) : String :=
  if m then "Major" else "Minor"

end ScaleDetector

/-! ## Theorems -/

/-! ### Deduplicator lemmas -/

/-- The modelled digest is never the empty string, so the Python falsiness
check `if not file_hash:` only fires for `None`. -/
theorem sha256_hexdigest_ne_empty (b : MidiDeduplicator.Bytes) :
    MidiDeduplicator.sha256_hexdigest b ≠ "" := by
  intro h
  have hl := congrArg String.length h
  simp [MidiDeduplicator.sha256_hexdigest, String.length_append] at hl
  exact absurd hl.1 (by decide)

/-- Equation lemma: registering a readable file whose digest is unseen
returns `(False, None)` and appends the binding to the index. -/
theorem register_file_eq_fresh (fs : MidiDeduplicator.FS)
    (st : MidiDeduplicator.DedupState) (p : String) (c : MidiDeduplicator.Bytes)
    (hc : fs p = some c)
    (hfresh : List.lookup (MidiDeduplicator.sha256_hexdigest c) st.file_hashes = none) :
    MidiDeduplicator.register_file fs st p =
      ((false, none),
        { st with file_hashes :=
            st.file_hashes ++ [(MidiDeduplicator.sha256_hexdigest c, p)] }) := by
  have hne := sha256_hexdigest_ne_empty c
  simp only [MidiDeduplicator.register_file, MidiDeduplicator.compute_file_hash, hc,
    Option.map_some', MidiDeduplicator.truthyHash, hfresh]
  simp [hne]

/-- Equation lemma: registering a readable file whose digest is already
indexed returns `(True, canonical)` and leaves the index unchanged. -/
theorem register_file_eq_dup (fs : MidiDeduplicator.FS)
    (st : MidiDeduplicator.DedupState) (p q : String) (c : MidiDeduplicator.Bytes)
    (hc : fs p = some c)
    (hdup : List.lookup (MidiDeduplicator.sha256_hexdigest c) st.file_hashes = some q) :
    MidiDeduplicator.register_file fs st p =
      ((true, some q),
        { st with duplicates_found := st.duplicates_found + 1,
                  bytes_saved := st.bytes_saved + MidiDeduplicator.getsize fs p }) := by
  have hne := sha256_hexdigest_ne_empty c
  simp only [MidiDeduplicator.register_file, MidiDeduplicator.compute_file_hash, hc,
    Option.map_some', MidiDeduplicator.truthyHash, hdup]
  simp [hne]

/-- Equation lemma: a hash failure (missing/unreadable file) returns
`(False, None)` and leaves the state untouched. -/
theorem register_file_eq_bad (fs : MidiDeduplicator.FS)
    (st : MidiDeduplicator.DedupState) (p : String) (hc : fs p = none) :
    MidiDeduplicator.register_file fs st p = ((false, none), st) := by
  simp [MidiDeduplicator.register_file, MidiDeduplicator.compute_file_hash, hc,
    MidiDeduplicator.truthyHash]

/-- C1: within one run, registering byte-identical content twice returns
"not a duplicate" on the first call and "duplicate" with the first call's
path as canonical on the second; an unseen digest is never reported as a
duplicate, and the index maps the digest to the first registered path while
keeping every previously seen digest bound to its original first path. -/
theorem register_file_duplicate_detection (fs : MidiDeduplicator.FS)
    (st : MidiDeduplicator.DedupState) (p₁ p₂ : String) (c : MidiDeduplicator.Bytes)
    (h₁ : fs p₁ = some c) (h₂ : fs p₂ = some c)
    (hfresh : List.lookup (MidiDeduplicator.sha256_hexdigest c) st.file_hashes = none) :
    (MidiDeduplicator.register_file fs st p₁).1 = (false, none) ∧
    (MidiDeduplicator.register_file fs
        (MidiDeduplicator.register_file fs st p₁).2 p₂).1 = (true, some p₁) ∧
    List.lookup (MidiDeduplicator.sha256_hexdigest c)
      (MidiDeduplicator.register_file fs
        (MidiDeduplicator.register_file fs st p₁).2 p₂).2.file_hashes = some p₁ ∧
    (∀ d q, List.lookup d st.file_hashes = some q →
      List.lookup d
        (MidiDeduplicator.register_file fs
          (MidiDeduplicator.register_file fs st p₁).2 p₂).2.file_hashes = some q) := by
  have e₁ := register_file_eq_fresh fs st p₁ c h₁ hfresh
  have hlook : List.lookup (MidiDeduplicator.sha256_hexdigest c)
      ((MidiDeduplicator.register_file fs st p₁).2).file_hashes = some p₁ := by
    rw [e₁]
    simp [List.lookup_append, hfresh]
  have e₂ := register_file_eq_dup fs (MidiDeduplicator.register_file fs st p₁).2 p₂ p₁ c h₂ hlook
  refine ⟨by rw [e₁], by rw [e₂], ?_, ?_⟩
  · rw [e₂]
    exact hlook
  · intro d q hq
    rw [e₂, e₁]
    simp [List.lookup_append, hq]

/-- Witness for C1 at a concrete two-path file system. -/
theorem register_file_duplicate_detection_witness :
    ((fun p => if p = "a" then some [1, 2] else if p = "b" then some [1, 2] else none) :
        MidiDeduplicator.FS) "a" = some [1, 2] ∧
    ((fun p => if p = "a" then some [1, 2] else if p = "b" then some [1, 2] else none) :
        MidiDeduplicator.FS) "b" = some [1, 2] ∧
    List.lookup (MidiDeduplicator.sha256_hexdigest [1, 2])
      MidiDeduplicator.initState.file_hashes = none ∧
    ((MidiDeduplicator.register_file
      (fun p => if p = "a" then some [1, 2] else if p = "b" then some [1, 2] else none)
      MidiDeduplicator.initState "a").1 = (false, none) ∧
     (MidiDeduplicator.register_file
        (fun p => if p = "a" then some [1, 2] else if p = "b" then some [1, 2] else none)
        (MidiDeduplicator.register_file
          (fun p => if p = "a" then some [1, 2] else if p = "b" then some [1, 2] else none)
          MidiDeduplicator.initState "a").2 "b").1 = (true, some "a") ∧
     List.lookup (MidiDeduplicator.sha256_hexdigest [1, 2])
      (MidiDeduplicator.register_file
        (fun p => if p = "a" then some [1, 2] else if p = "b" then some [1, 2] else none)
        (MidiDeduplicator.register_file
          (fun p => if p = "a" then some [1, 2] else if p = "b" then some [1, 2] else none)
          MidiDeduplicator.initState "a").2 "b").2.file_hashes = some "a" ∧
     (∀ d q, List.lookup d MidiDeduplicator.initState.file_hashes = some q →
      List.lookup d
        (MidiDeduplicator.register_file
          (fun p => if p = "a" then some [1, 2] else if p = "b" then some [1, 2] else none)
          (MidiDeduplicator.register_file
            (fun p => if p = "a" then some [1, 2] else if p = "b" then some [1, 2] else none)
            MidiDeduplicator.initState "a").2 "b").2.file_hashes = some q)) :=
  ⟨rfl, rfl, rfl,
    register_file_duplicate_detection _ MidiDeduplicator.initState "a" "b" [1, 2] rfl rfl rfl⟩

/-- C10: `register_file` returns `(False, None)` both for a first-seen
readable candidate and for a candidate whose digest could not be computed,
so the two outcomes are indistinguishable from the return value; on a
first registration the canonical reference is `None` (not the registered
path), and a hash-failure candidate leaves the digest index untouched. -/
theorem register_file_failure_indistinguishable (fs : MidiDeduplicator.FS)
    (st : MidiDeduplicator.DedupState) (p q : String) (c : MidiDeduplicator.Bytes)
    (hp : fs p = none) (hq : fs q = some c)
    (hfresh : List.lookup (MidiDeduplicator.sha256_hexdigest c) st.file_hashes = none) :
    (MidiDeduplicator.register_file fs st p).1 = (false, none) ∧
    (MidiDeduplicator.register_file fs st p).2 = st ∧
    (MidiDeduplicator.register_file fs st q).1 = (false, none) ∧
    (MidiDeduplicator.register_file fs st p).1 = (MidiDeduplicator.register_file fs st q).1 := by
  have ep := register_file_eq_bad fs st p hp
  have eq' := register_file_eq_fresh fs st q c hq hfresh
  refine ⟨by rw [ep], by rw [ep], by rw [eq'], by rw [ep, eq']⟩

/-- Witness for C10 at a concrete file system with one unreadable path. -/
theorem register_file_failure_indistinguishable_witness :
    ((fun p => if p = "b" then some [7] else none) : MidiDeduplicator.FS) "a" = none ∧
    ((fun p => if p = "b" then some [7] else none) : MidiDeduplicator.FS) "b" = some [7] ∧
    List.lookup (MidiDeduplicator.sha256_hexdigest [7])
      MidiDeduplicator.initState.file_hashes = none ∧
    ((MidiDeduplicator.register_file (fun p => if p = "b" then some [7] else none)
        MidiDeduplicator.initState "a").1 = (false, none) ∧
     (MidiDeduplicator.register_file (fun p => if p = "b" then some [7] else none)
        MidiDeduplicator.initState "a").2 = MidiDeduplicator.initState ∧
     (MidiDeduplicator.register_file (fun p => if p = "b" then some [7] else none)
        MidiDeduplicator.initState "b").1 = (false, none) ∧
     (MidiDeduplicator.register_file (fun p => if p = "b" then some [7] else none)
        MidiDeduplicator.initState "a").1 =
       (MidiDeduplicator.register_file (fun p => if p = "b" then some [7] else none)
        MidiDeduplicator.initState "b").1) :=
  ⟨rfl, rfl, rfl,
    register_file_failure_indistinguishable _ MidiDeduplicator.initState "a" "b" [7]
      rfl rfl rfl⟩

/-! ### Filename metadata parsing -/

/-- C8: the two reference filenames parse to the specified BPM and scale. -/
theorem parse_filename_metadata_examples :
    FileMetadata.parse_filename_metadata "Cymatics - Infinite - 194 BPM D Min.mid" =
      (some 194, some "D minor") ∧
    FileMetadata.parse_filename_metadata "140bpm F#m Track.mid" =
      (some 140, some "F# minor") := by
  exact ⟨by decide, by decide⟩

/-! ### Instrument label resolution -/

/-- C6 (code bug): on a track whose first program-change selects program 0
("Acoustic Piano") on the percussion channel, `_extract_track_data` labels
the track "Percussion" instead of the General-MIDI name of program 0,
because `if not program_change` treats program number `0` as falsy — in
contradiction with the source's own comment
"If no program change found, check if percussion was detected". -/
theorem extract_track_data_program_zero_percussion :
    (MidiExtractor.extract_track_data
        [MidiExtractor.Msg.program_change 9 0 0, MidiExtractor.Msg.note_on 9 36 100 0]
        0).map MidiExtractor.TrackData.instrument = some "Percussion" ∧
    MidiExtractor.gm_instruments 0 = some "Acoustic Piano" ∧
    (MidiExtractor.extract_track_data
        [MidiExtractor.Msg.program_change 9 0 0, MidiExtractor.Msg.note_on 9 36 100 0]
        0).map MidiExtractor.TrackData.instrument ≠ MidiExtractor.gm_instruments 0 := by
  exact ⟨by decide, by decide, by decide⟩

/-! ### Trimmer lemmas -/

/-- A score all of whose tracks have empty note lists has no notes. -/
theorem allNotes_eq_nil (s : MIDITrimmer.Score)
    (h : ∀ tr ∈ s.tracks, tr.notes = []) : MIDITrimmer.allNotes s = [] := by
  have aux : ∀ L : List MIDITrimmer.MTrack, (∀ tr ∈ L, tr.notes = []) →
      (L.map MIDITrimmer.MTrack.notes).flatten = [] := by
    intro L
    induction L with
    | nil => intro _; rfl
    | cons a l ih =>
      intro hh
      simp only [List.map_cons, List.flatten_cons, hh a (by simp),
        List.nil_append]
      exact ih (fun tr htr => hh tr (by simp [htr]))
  exact aux s.tracks h

/-- The running minimum of a nonempty list is the fold of `min`. -/
theorem listMinO_cons (x : Nat) (xs : List Nat) :
    MIDITrimmer.listMinO (x :: xs) = some (xs.foldl min x) := by
  have aux : ∀ (l : List Nat) (m : Nat),
      l.foldl (fun acc y =>
        match acc with
        | none => some y
        | some a => some (min a y)) (some m) = some (l.foldl min m) := by
    intro l
    induction l with
    | nil => intro m; rfl
    | cons y ys ih => intro m; exact ih (min m y)
  exact aux xs x

/-- The running maximum of a nonempty list is the fold of `max`. -/
theorem listMaxO_cons (x : Nat) (xs : List Nat) :
    MIDITrimmer.listMaxO (x :: xs) = some (xs.foldl max x) := by
  have aux : ∀ (l : List Nat) (m : Nat),
      l.foldl (fun acc y =>
        match acc with
        | none => some y
        | some a => some (max a y)) (some m) = some (l.foldl max m) := by
    intro l
    induction l with
    | nil => intro m; rfl
    | cons y ys ih => intro m; exact ih (max m y)
  exact aux xs x

/-- The notes of a shifted score are the shifted notes of the score. -/
theorem allNotes_shift_events (s : MIDITrimmer.Score) (c : Int) (hc : c ≠ 0) :
    MIDITrimmer.allNotes (MIDITrimmer.shift_events s c) =
      (MIDITrimmer.allNotes s).map
        (fun n => { n with time := MIDITrimmer.shiftTime c n.time }) := by
  have aux : ∀ L : List MIDITrimmer.MTrack,
      ((L.map (fun tr => { tr with
          notes := tr.notes.map
            (fun n => { n with time := MIDITrimmer.shiftTime c n.time }),
          controls := tr.controls.map
            (fun x => { x with time := MIDITrimmer.shiftTime c x.time }),
          pitch_bends := tr.pitch_bends.map
            (fun p => { p with time := MIDITrimmer.shiftTime c p.time }),
          pedals := tr.pedals.map
            (fun p => { p with time := MIDITrimmer.shiftTime c p.time }),
          lyrics := tr.lyrics.map
            (fun m => { m with time := MIDITrimmer.shiftTime c m.time }) })).map
        MIDITrimmer.MTrack.notes).flatten
        = ((L.map MIDITrimmer.MTrack.notes).flatten).map
            (fun n => { n with time := MIDITrimmer.shiftTime c n.time }) := by
    intro L
    induction L with
    | nil => rfl
    | cons a l ih =>
      simp only [List.map_cons, List.flatten_cons, List.map_append]
      rw [ih]
  simp only [MIDITrimmer.allNotes, MIDITrimmer.shift_events, if_neg hc]
  exact aux s.tracks

/-- `listMinO` commutes with mapping by a `min`-preserving function. -/
theorem listMinO_map (f : Nat → Nat) (hf : ∀ a b, min (f a) (f b) = f (min a b))
    (l : List Nat) :
    MIDITrimmer.listMinO (l.map f) = (MIDITrimmer.listMinO l).map f := by
  have aux : ∀ (l : List Nat) (acc : Option Nat),
      (l.map f).foldl (fun acc y =>
        match acc with
        | none => some y
        | some a => some (min a y)) (acc.map f)
      = (l.foldl (fun acc y =>
        match acc with
        | none => some y
        | some a => some (min a y)) acc).map f := by
    intro l
    induction l with
    | nil => intro acc; rfl
    | cons y ys ih =>
      intro acc
      cases acc with
      | none => exact ih (some y)
      | some m =>
        have : min (f m) (f y) = f (min m y) := hf m y
        simp only [List.map_cons, List.foldl_cons, Option.map_some', this]
        exact ih (some (min m y))
  exact aux l none

/-- After shifting by the first note time (itself positive), the new first
note time is `0`. -/
theorem first_note_after_shift (s : MIDITrimmer.Score) (f : Nat)
    (hf : MIDITrimmer.listMinO ((MIDITrimmer.allNotes s).map MIDITrimmer.Note.time) = some f)
    (hfpos : 0 < f) :
    MIDITrimmer.listMinO
      ((MIDITrimmer.allNotes (MIDITrimmer.shift_events s (f : Int))).map
        MIDITrimmer.Note.time) = some 0 := by
  have hc : (f : Int) ≠ 0 := by omega
  rw [allNotes_shift_events s (f : Int) hc, List.map_map]
  have hcomp :
      (MIDITrimmer.Note.time ∘ fun n => { n with time := MIDITrimmer.shiftTime (f : Int) n.time })
        = (MIDITrimmer.shiftTime (f : Int)) ∘ MIDITrimmer.Note.time := rfl
  rw [hcomp, ← List.map_map]
  rw [listMinO_map (MIDITrimmer.shiftTime (f : Int))
    (by intro a b; simp only [MIDITrimmer.shiftTime]; omega)]
  rw [hf]
  simp only [Option.map_some']
  have : MIDITrimmer.shiftTime (f : Int) f = 0 := by
    simp only [MIDITrimmer.shiftTime]; omega
  rw [this]

/-- C9: on a clip with no notes, `trim_file` fails with the "no notes"
error: the statistics carry `success = false` and the error message, no
shift is applied (the clip is returned unmodified), the reported new
duration equals the original duration, and nothing is trimmed. -/
theorem trim_file_no_notes (t : Int) (tt : Bool) (s : MIDITrimmer.Score)
    (h : ∀ tr ∈ s.tracks, tr.notes = []) :
    (MIDITrimmer.trim_file t tt s).1 = s ∧
    (MIDITrimmer.trim_file t tt s).2.success = false ∧
    (MIDITrimmer.trim_file t tt s).2.error_message = some "No notes found in file" ∧
    (MIDITrimmer.trim_file t tt s).2.new_duration_ticks =
      (MIDITrimmer.trim_file t tt s).2.original_duration_ticks ∧
    (MIDITrimmer.trim_file t tt s).2.trimmed_start_ticks = 0 ∧
    (MIDITrimmer.trim_file t tt s).2.trimmed_end_ticks = 0 := by
  have hb : MIDITrimmer.find_note_boundaries s = (none, none) := by
    simp [MIDITrimmer.find_note_boundaries, allNotes_eq_nil s h,
      MIDITrimmer.listMinO, MIDITrimmer.listMaxO]
  refine ⟨?_, ?_, ?_, ?_, ?_, ?_⟩ <;> simp [MIDITrimmer.trim_file, hb]

/-- Witness for C9: a clip with a control change but no notes. -/
theorem trim_file_no_notes_witness :
    (∀ tr ∈ (MIDITrimmer.Score.mk 480 [⟨[], [⟨0, 64, 127⟩], [], [], []⟩] [] [] []).tracks,
      tr.notes = []) ∧
    ((MIDITrimmer.trim_file 480 true
        (MIDITrimmer.Score.mk 480 [⟨[], [⟨0, 64, 127⟩], [], [], []⟩] [] [] [])).1 =
        MIDITrimmer.Score.mk 480 [⟨[], [⟨0, 64, 127⟩], [], [], []⟩] [] [] [] ∧
     (MIDITrimmer.trim_file 480 true
        (MIDITrimmer.Score.mk 480 [⟨[], [⟨0, 64, 127⟩], [], [], []⟩] [] [] [])).2.success = false ∧
     (MIDITrimmer.trim_file 480 true
        (MIDITrimmer.Score.mk 480 [⟨[], [⟨0, 64, 127⟩], [], [], []⟩] [] [] [])).2.error_message =
       some "No notes found in file" ∧
     (MIDITrimmer.trim_file 480 true
        (MIDITrimmer.Score.mk 480 [⟨[], [⟨0, 64, 127⟩], [], [], []⟩] [] [] [])).2.new_duration_ticks =
       (MIDITrimmer.trim_file 480 true
        (MIDITrimmer.Score.mk 480 [⟨[], [⟨0, 64, 127⟩], [], [], []⟩] [] [] [])).2.original_duration_ticks ∧
     (MIDITrimmer.trim_file 480 true
        (MIDITrimmer.Score.mk 480 [⟨[], [⟨0, 64, 127⟩], [], [], []⟩] [] [] [])).2.trimmed_start_ticks = 0 ∧
     (MIDITrimmer.trim_file 480 true
        (MIDITrimmer.Score.mk 480 [⟨[], [⟨0, 64, 127⟩], [], [], []⟩] [] [] [])).2.trimmed_end_ticks = 0) :=
  ⟨by decide, trim_file_no_notes 480 true _ (by decide)⟩

/-- C3: with at least one note, `trim_file` sets `trim_start` to
`first_note_time` exactly when `first_note_time >= min_trim_ticks` (else
`0`), and when the shift applies, every timed entity of every track (notes,
control changes, pitch bends, pedals, lyrics) and every score-level tempo,
time-signature and key-signature event has its tick time rewritten by
`shiftTime`, which subtracts exactly the trim amount floored at `0`, so no
event time is ever negative. -/
theorem trim_file_shift_spec (t : Int) (tt : Bool) (s : MIDITrimmer.Score)
    (f lv : Nat)
    (hfb : MIDITrimmer.find_note_boundaries s = (some f, some lv)) :
    (MIDITrimmer.trim_file t tt s).2.trimmed_start_ticks =
      (if (f : Int) ≥ t then f else 0) ∧
    ((f : Int) ≥ t → 0 < f →
      ((MIDITrimmer.trim_file t tt s).1.tracks = s.tracks.map (fun tr =>
        { tr with
          notes := tr.notes.map
            (fun n => { n with time := MIDITrimmer.shiftTime (f : Int) n.time }),
          controls := tr.controls.map
            (fun x => { x with time := MIDITrimmer.shiftTime (f : Int) x.time }),
          pitch_bends := tr.pitch_bends.map
            (fun p => { p with time := MIDITrimmer.shiftTime (f : Int) p.time }),
          pedals := tr.pedals.map
            (fun p => { p with time := MIDITrimmer.shiftTime (f : Int) p.time }),
          lyrics := tr.lyrics.map
            (fun m => { m with time := MIDITrimmer.shiftTime (f : Int) m.time }) }) ∧
       (MIDITrimmer.trim_file t tt s).1.tempos = s.tempos.map
         (fun e => { e with time := MIDITrimmer.shiftTime (f : Int) e.time }) ∧
       (MIDITrimmer.trim_file t tt s).1.time_signatures = s.time_signatures.map
         (fun e => { e with time := MIDITrimmer.shiftTime (f : Int) e.time }) ∧
       (MIDITrimmer.trim_file t tt s).1.key_signatures = s.key_signatures.map
         (fun e => { e with time := MIDITrimmer.shiftTime (f : Int) e.time }))) ∧
    (∀ (c : Int) (a : Nat),
      0 ≤ ((MIDITrimmer.shiftTime c a : Nat) : Int) ∧
      ((MIDITrimmer.shiftTime c a : Nat) : Int) = max 0 ((a : Int) - c)) := by
  refine ⟨?_, ?_, ?_⟩
  · simp [MIDITrimmer.trim_file, hfb]
  · intro h1 h2
    have hc : (f : Int) ≠ 0 := by omega
    have e1 : (MIDITrimmer.trim_file t tt s).1 =
        MIDITrimmer.shift_events s (f : Int) := by
      simp only [MIDITrimmer.trim_file, hfb]
      rw [if_pos h1, if_pos h2]
    rw [e1]
    simp only [MIDITrimmer.shift_events, if_neg hc]
    exact ⟨trivial, trivial, trivial, trivial⟩
  · intro c a
    constructor
    · omega
    · simp only [MIDITrimmer.shiftTime]; omega

/-- Witness for C3: a clip with a single note starting at tick 960 and the
default 480-tick threshold. -/
theorem trim_file_shift_spec_witness :
    MIDITrimmer.find_note_boundaries
      (MIDITrimmer.Score.mk 480 [⟨[⟨960, 480, 60, 100⟩], [], [], [], []⟩] [] [] []) =
      (some 960, some 1440) ∧
    ((MIDITrimmer.trim_file 480 true
        (MIDITrimmer.Score.mk 480 [⟨[⟨960, 480, 60, 100⟩], [], [], [], []⟩] [] [] [])).2.trimmed_start_ticks =
      (if ((960 : Nat) : Int) ≥ 480 then 960 else 0) ∧
     (((960 : Nat) : Int) ≥ 480 → 0 < 960 →
      ((MIDITrimmer.trim_file 480 true
          (MIDITrimmer.Score.mk 480 [⟨[⟨960, 480, 60, 100⟩], [], [], [], []⟩] [] [] [])).1.tracks =
        (MIDITrimmer.Score.mk 480 [⟨[⟨960, 480, 60, 100⟩], [], [], [], []⟩] [] [] []).tracks.map (fun tr =>
        { tr with
          notes := tr.notes.map
            (fun n => { n with time := MIDITrimmer.shiftTime ((960 : Nat) : Int) n.time }),
          controls := tr.controls.map
            (fun x => { x with time := MIDITrimmer.shiftTime ((960 : Nat) : Int) x.time }),
          pitch_bends := tr.pitch_bends.map
            (fun p => { p with time := MIDITrimmer.shiftTime ((960 : Nat) : Int) p.time }),
          pedals := tr.pedals.map
            (fun p => { p with time := MIDITrimmer.shiftTime ((960 : Nat) : Int) p.time }),
          lyrics := tr.lyrics.map
            (fun m => { m with time := MIDITrimmer.shiftTime ((960 : Nat) : Int) m.time }) }) ∧
       (MIDITrimmer.trim_file 480 true
          (MIDITrimmer.Score.mk 480 [⟨[⟨960, 480, 60, 100⟩], [], [], [], []⟩] [] [] [])).1.tempos =
         (MIDITrimmer.Score.mk 480 [⟨[⟨960, 480, 60, 100⟩], [], [], [], []⟩] [] [] []).tempos.map
           (fun e => { e with time := MIDITrimmer.shiftTime ((960 : Nat) : Int) e.time }) ∧
       (MIDITrimmer.trim_file 480 true
          (MIDITrimmer.Score.mk 480 [⟨[⟨960, 480, 60, 100⟩], [], [], [], []⟩] [] [] [])).1.time_signatures =
         (MIDITrimmer.Score.mk 480 [⟨[⟨960, 480, 60, 100⟩], [], [], [], []⟩] [] [] []).time_signatures.map
           (fun e => { e with time := MIDITrimmer.shiftTime ((960 : Nat) : Int) e.time }) ∧
       (MIDITrimmer.trim_file 480 true
          (MIDITrimmer.Score.mk 480 [⟨[⟨960, 480, 60, 100⟩], [], [], [], []⟩] [] [] [])).1.key_signatures =
         (MIDITrimmer.Score.mk 480 [⟨[⟨960, 480, 60, 100⟩], [], [], [], []⟩] [] [] []).key_signatures.map
           (fun e => { e with time := MIDITrimmer.shiftTime ((960 : Nat) : Int) e.time }))) ∧
     (∀ (c : Int) (a : Nat),
      0 ≤ ((MIDITrimmer.shiftTime c a : Nat) : Int) ∧
      ((MIDITrimmer.shiftTime c a : Nat) : Int) = max 0 ((a : Int) - c))) :=
  ⟨by decide, trim_file_shift_spec 480 true _ 960 1440 (by decide)⟩

/-- C2: trimming is idempotent — re-trimming an already-trimmed clip with
the same `min_trim_ticks` (and trailing trim enabled) computes
`trim_start = 0`, so the second application shifts nothing and returns the
clip produced by the first application unchanged. -/
theorem trim_file_idempotent (t : Int) (s : MIDITrimmer.Score) :
    (MIDITrimmer.trim_file t true ((MIDITrimmer.trim_file t true s).1)).2.trimmed_start_ticks = 0 ∧
    (MIDITrimmer.trim_file t true ((MIDITrimmer.trim_file t true s).1)).1 =
      (MIDITrimmer.trim_file t true s).1 := by
  rcases hA : MIDITrimmer.allNotes s with _ | ⟨n, ns⟩
  · have hb : MIDITrimmer.find_note_boundaries s = (none, none) := by
      simp [MIDITrimmer.find_note_boundaries, hA, MIDITrimmer.listMinO, MIDITrimmer.listMaxO]
    have e1 : (MIDITrimmer.trim_file t true s).1 = s := by
      simp [MIDITrimmer.trim_file, hb]
    rw [e1]
    exact ⟨by simp [MIDITrimmer.trim_file, hb], by simp [MIDITrimmer.trim_file, hb]⟩
  · obtain ⟨f, hf⟩ : ∃ fv,
        MIDITrimmer.listMinO ((MIDITrimmer.allNotes s).map MIDITrimmer.Note.time) = some fv := by
      rw [hA]; exact ⟨_, listMinO_cons _ _⟩
    obtain ⟨lv, hl⟩ : ∃ lv,
        MIDITrimmer.listMaxO ((MIDITrimmer.allNotes s).map (fun n => n.time + n.duration)) = some lv := by
      rw [hA]; exact ⟨_, listMaxO_cons _ _⟩
    have hb : MIDITrimmer.find_note_boundaries s = (some f, some lv) := by
      rw [MIDITrimmer.find_note_boundaries, hf, hl]
    by_cases hpos : 0 < f
    · by_cases hge : (f : Int) ≥ t
      · -- the first application shifts by f
        have hc : (f : Int) ≠ 0 := by omega
        have e1 : (MIDITrimmer.trim_file t true s).1 =
            MIDITrimmer.shift_events s (f : Int) := by
          simp only [MIDITrimmer.trim_file, hb]
          rw [if_pos hge, if_pos hpos]
        have hf1 := first_note_after_shift s f hf hpos
        obtain ⟨lv1, hl1⟩ : ∃ lv1,
            MIDITrimmer.listMaxO
              ((MIDITrimmer.allNotes (MIDITrimmer.shift_events s (f : Int))).map
                (fun n => n.time + n.duration)) = some lv1 := by
          rw [allNotes_shift_events s _ hc, hA]
          exact ⟨_, listMaxO_cons _ _⟩
        have hb1 : MIDITrimmer.find_note_boundaries (MIDITrimmer.shift_events s (f : Int)) =
            (some 0, some lv1) := by
          rw [MIDITrimmer.find_note_boundaries, hf1, hl1]
        rw [e1]
        exact ⟨by simp [MIDITrimmer.trim_file, hb1], by simp [MIDITrimmer.trim_file, hb1]⟩
      · -- below threshold: no shift on either application
        have e1 : (MIDITrimmer.trim_file t true s).1 = s := by
          simp only [MIDITrimmer.trim_file, hb]
          rw [if_neg hge]
          simp
        rw [e1]
        constructor
        · simp only [MIDITrimmer.trim_file, hb]
          rw [if_neg hge]
        · simp only [MIDITrimmer.trim_file, hb]
          rw [if_neg hge]
          simp
    · -- first note already at tick 0: trim_start = 0 either way
      have hf0 : f = 0 := by omega
      have e1 : (MIDITrimmer.trim_file t true s).1 = s := by
        simp [MIDITrimmer.trim_file, hb, hf0]
      rw [e1]
      exact ⟨by simp [MIDITrimmer.trim_file, hb, hf0], by simp [MIDITrimmer.trim_file, hb, hf0]⟩

/-! ### Duration computation -/

/-- The per-track accumulation loop of `get_duration_seconds` computes the
sum of the delta times (the cumulative tick position of the final event). -/
theorem foldl_add_eq_sum (tr : List MidiExtractor.Msg) :
    tr.foldl (fun ticks msg => ticks + msg.time) 0 =
      (tr.map MidiExtractor.Msg.time).sum := by
  have aux : ∀ (l : List MidiExtractor.Msg) (a : Nat),
      l.foldl (fun ticks msg => ticks + msg.time) a =
        a + (l.map MidiExtractor.Msg.time).sum := by
    intro l
    induction l with
    | nil => intro a; simp
    | cons x xs ih =>
      intro a
      simp only [List.foldl_cons, List.map_cons, List.sum_cons, ih]
      omega
  simpa using aux tr 0

/-- The `total_ticks = max(total_ticks, ticks)` loop computes the maximum
over tracks. -/
theorem foldl_max_eq_foldr_max {α : Type} (g : α → Nat) (L : List α) :
    L.foldl (fun t x => max t (g x)) 0 = (L.map g).foldr max 0 := by
  have aux : ∀ (L : List α) (a : Nat),
      L.foldl (fun t x => max t (g x)) a = max a ((L.map g).foldr max 0) := by
    intro L
    induction L with
    | nil => intro a; simp
    | cons x xs ih =>
      intro a
      simp only [List.foldl_cons, List.map_cons, List.foldr_cons, ih]
      omega
  simpa using aux L 0

/-- C7: `get_duration_seconds` takes, per track, the cumulative tick
position of its final event, maximises across tracks, and returns
`round(total_ticks / ticks_per_beat * 0.5)` floored at `1` whenever
`ticks_per_beat` is known (non-zero) and `total_ticks > 0`, and `0`
otherwise — the fixed 120 BPM assumption. -/
theorem get_duration_seconds_spec (m : MidiExtractor.MFile) :
    MidiExtractor.get_duration_seconds m =
      if m.ticks_per_beat ≠ 0 ∧
          0 < (m.tracks.map (fun tr => (tr.map MidiExtractor.Msg.time).sum)).foldr max 0 then
        max 1 (MidiExtractor.pyRound
          ((((m.tracks.map (fun tr => (tr.map MidiExtractor.Msg.time).sum)).foldr max 0 : Nat) : ℚ) /
            (m.ticks_per_beat : ℚ) * (1 / 2)))
      else 0 := by
  have hc : (500000 / 1000000 : ℚ) = 1 / 2 := by norm_num
  have hT : m.tracks.foldl
      (fun total track => max total (track.foldl (fun ticks msg => ticks + msg.time) 0)) 0 =
      (m.tracks.map (fun tr => (tr.map MidiExtractor.Msg.time).sum)).foldr max 0 := by
    simp only [foldl_add_eq_sum]
    exact foldl_max_eq_foldr_max _ m.tracks
  simp only [MidiExtractor.get_duration_seconds, hT, hc, gt_iff_lt]

/-! ### Key estimator lemmas -/

/-- The candidate list always has 24 entries (12 roots × 2 modes). -/
theorem keyCandidates_length (h : List ℚ) :
    (ScaleDetector.keyCandidates h).length = 24 := rfl

/-- An indexed entry of a list is a member. -/
theorem getD_mem_of_lt {α : Type} (l : List α) (i : Nat) (hi : i < l.length) (d : α) :
    l.getD i d ∈ l := by
  rw [List.getD_eq_getElem l d hi]
  exact l.getElem_mem hi

/-- The initial accumulator bounds a `max`-fold from below. -/
theorem le_foldl_max (l : List ℝ) : ∀ b : ℝ, b ≤ l.foldl max b := by
  induction l with
  | nil => intro b; exact le_refl b
  | cons x xs ih => intro b; exact le_trans (le_max_left b x) (ih (max b x))

/-- A `max`-fold is bounded by any common upper bound. -/
theorem foldl_max_le (l : List ℝ) :
    ∀ b c : ℝ, b ≤ c → (∀ x ∈ l, x ≤ c) → l.foldl max b ≤ c := by
  induction l with
  | nil => intro b c hb _; exact hb
  | cons x xs ih =>
    intro b c hb hx
    exact ih (max b x) c (max_le hb (hx x (by simp)))
      (fun y hy => hx y (by simp [hy]))

/-- Every member bounds a `max`-fold from below. -/
theorem mem_le_foldl_max (l : List ℝ) : ∀ (b x : ℝ), x ∈ l → x ≤ l.foldl max b := by
  induction l with
  | nil => intro b x hx; simp at hx
  | cons y ys ih =>
    intro b x hx
    rcases List.mem_cons.mp hx with h | h
    · subst h; exact le_trans (le_max_right b x) (le_foldl_max ys (max b x))
    · exact ih (max b y) x h

/-- The running best correlation of the `_find_best_key` loop is the
`max`-fold of the candidate correlations. -/
theorem kcStep_foldl_fst (L : List ((String × String) × ℝ)) :
    ∀ (b : ℝ) (k m : String),
      (L.foldl ScaleDetector.kcStep (b, k, m)).1 = (L.map (fun c => c.2)).foldl max b := by
  induction L with
  | nil => intro b k m; rfl
  | cons c cs ih =>
    intro b k m
    simp only [List.foldl_cons, List.map_cons]
    by_cases hc : c.2 > b
    · rw [show ScaleDetector.kcStep (b, k, m) c = (c.2, c.1.1, c.1.2) from if_pos hc]
      rw [ih, max_eq_right (le_of_lt hc)]
    · rw [show ScaleDetector.kcStep (b, k, m) c = (b, k, m) from if_neg hc]
      rw [ih, max_eq_left (le_of_not_lt hc)]

/-- If no candidate strictly beats the initial best, the label never
changes. -/
theorem kcStep_foldl_stay (L : List ((String × String) × ℝ)) :
    ∀ (b : ℝ) (k m : String),
      ¬ ((L.map (fun c => c.2)).foldl max b > b) →
      (L.foldl ScaleDetector.kcStep (b, k, m)).2 = (k, m) := by
  induction L with
  | nil => intro b k m _; rfl
  | cons c cs ih =>
    intro b k m hM
    simp only [List.map_cons, List.foldl_cons] at hM ⊢
    have hcb : ¬ c.2 > b := by
      intro hc
      exact hM (lt_of_lt_of_le hc
        (le_trans (le_max_right b c.2) (le_foldl_max _ (max b c.2))))
    rw [show ScaleDetector.kcStep (b, k, m) c = (b, k, m) from if_neg hcb]
    apply ih
    rwa [max_eq_left (le_of_not_lt hcb)] at hM

/-- First-wins argmax characterisation of the `_find_best_key` fold: when
some candidate strictly beats the initial best, the selected label is that
of the first candidate attaining the maximum, and all earlier candidates
are strictly below it. -/
theorem kcStep_foldl_argmax (L : List ((String × String) × ℝ)) :
    ∀ (b : ℝ) (k m : String),
      (L.map (fun c => c.2)).foldl max b > b →
      ∃ i, i < L.length ∧
        (L.getD i ScaleDetector.cdflt).2 = (L.map (fun c => c.2)).foldl max b ∧
        (∀ j, j < i →
          (L.getD j ScaleDetector.cdflt).2 < (L.map (fun c => c.2)).foldl max b) ∧
        (L.foldl ScaleDetector.kcStep (b, k, m)).2 = (L.getD i ScaleDetector.cdflt).1 := by
  induction L with
  | nil => intro b k m hM; simp at hM
  | cons c cs ih =>
    intro b k m hM
    simp only [List.map_cons, List.foldl_cons] at hM ⊢
    by_cases hc : c.2 > b
    · rw [max_eq_right (le_of_lt hc)] at hM ⊢
      rw [show ScaleDetector.kcStep (b, k, m) c = (c.2, c.1.1, c.1.2) from if_pos hc]
      by_cases hM2 : (cs.map (fun c => c.2)).foldl max c.2 > c.2
      · obtain ⟨i, hi, hval, hbef, hres⟩ := ih c.2 c.1.1 c.1.2 hM2
        refine ⟨i + 1, by simpa using Nat.succ_lt_succ hi, ?_, ?_, ?_⟩
        · simpa [List.getD_cons_succ] using hval
        · intro j hj
          cases j with
          | zero => simpa [List.getD_cons_zero] using hM2
          | succ j' => simpa [List.getD_cons_succ] using hbef j' (by omega)
        · simpa [List.getD_cons_succ] using hres
      · have hle : (cs.map (fun c => c.2)).foldl max c.2 = c.2 :=
          le_antisymm (le_of_not_lt hM2) (le_foldl_max _ c.2)
        refine ⟨0, by simp, ?_, ?_, ?_⟩
        · simpa [List.getD_cons_zero] using hle.symm
        · intro j hj; omega
        · rw [kcStep_foldl_stay cs c.2 c.1.1 c.1.2 (by rw [hle]; exact lt_irrefl c.2)]
          simp [List.getD_cons_zero]
    · rw [max_eq_left (le_of_not_lt hc)] at hM ⊢
      rw [show ScaleDetector.kcStep (b, k, m) c = (b, k, m) from if_neg hc]
      obtain ⟨i, hi, hval, hbef, hres⟩ := ih b k m hM
      refine ⟨i + 1, by simpa using Nat.succ_lt_succ hi, ?_, ?_, ?_⟩
      · simpa [List.getD_cons_succ] using hval
      · intro j hj
        cases j with
        | zero =>
          simp only [List.getD_cons_zero]
          exact lt_of_le_of_lt (le_of_not_lt hc) hM
        | succ j' => simpa [List.getD_cons_succ] using hbef j' (by omega)
      · simpa [List.getD_cons_succ] using hres

/-- The nested root loop of `_find_best_key` is the fold of `kcStep` over
the flattened candidate list. -/
theorem foldl_pairs_eq (h : List ℚ) :
    ∀ (L : List Nat) (st : ℝ × String × String),
      L.foldl (fun st root =>
        ScaleDetector.kcStep
          (ScaleDetector.kcStep st (ScaleDetector.majorCand h root))
          (ScaleDetector.minorCand h root)) st
      = (L.flatMap (fun root =>
          [ScaleDetector.majorCand h root, ScaleDetector.minorCand h root])).foldl
            ScaleDetector.kcStep st := by
  intro L
  induction L with
  | nil => intro st; rfl
  | cons a l ih =>
    intro st
    simp only [List.foldl_cons, List.flatMap_cons, List.foldl_append]
    exact ih _

/-- `find_best_key` as the `kcStep` fold over the candidate list. -/
theorem find_best_key_eq (h : List ℚ) :
    ScaleDetector.find_best_key h =
      (((ScaleDetector.keyCandidates h).foldl ScaleDetector.kcStep
          (-1, "unknown", "Major")).2.1 ++ " " ++
        ((ScaleDetector.keyCandidates h).foldl ScaleDetector.kcStep
          (-1, "unknown", "Major")).2.2,
       max 0 (min 1
        ((((ScaleDetector.keyCandidates h).foldl ScaleDetector.kcStep
          (-1, "unknown", "Major")).1 + 1) / 2))) := by
  simp only [ScaleDetector.find_best_key, ScaleDetector.keyCandidates]
  rw [foldl_pairs_eq h (List.range 12) (-1, "unknown", "Major")]

/-- The centred sum of squares of the first vector is non-negative. -/
theorem pSqX_nonneg (x : List ℚ) : 0 ≤ ScaleDetector.pSqX x := by
  refine List.sum_nonneg ?_
  intro y hy
  simp only [ScaleDetector.pSqX, List.mem_map] at hy
  obtain ⟨a, _, rfl⟩ := hy
  positivity

/-- The centred sum of squares of the second vector is non-negative. -/
theorem pSqY_nonneg (x y : List ℚ) : 0 ≤ ScaleDetector.pSqY x y := by
  refine List.sum_nonneg ?_
  intro z hz
  simp only [ScaleDetector.pSqY, List.mem_map] at hz
  obtain ⟨a, _, rfl⟩ := hz
  positivity

/-- On identical vectors `sum_sq_y` coincides with `sum_sq_x`. -/
theorem pSqY_self (x : List ℚ) : ScaleDetector.pSqY x x = ScaleDetector.pSqX x := by
  simp only [ScaleDetector.pSqY, ScaleDetector.pSqX, List.take_length]

/-- On identical vectors the numerator coincides with `sum_sq_x`. -/
theorem pNum_self (x : List ℚ) : ScaleDetector.pNum x x = ScaleDetector.pSqX x := by
  simp only [ScaleDetector.pNum, ScaleDetector.pSqX, List.take_length]
  have aux : ∀ (l : List ℚ) (m : ℚ),
      ((l.zip l).map (fun p => (p.1 - m) * (p.2 - m))).sum =
        (l.map (fun a => (a - m) ^ 2)).sum := by
    intro l m
    induction l with
    | nil => rfl
    | cons a as ih =>
      simp only [List.zip_cons_cons, List.map_cons, List.sum_cons, ih]
      ring
  exact aux x _

/-- A strict-below-one criterion for the correlation, decidable in exact
rational arithmetic: either the numerator is non-positive, or its square is
strictly below the product of the centred sums of squares. -/
theorem pearson_lt_one (x y : List ℚ)
    (hcrit : ScaleDetector.pNum x y ≤ 0 ∨
      ScaleDetector.pNum x y ^ 2 < ScaleDetector.pSqX x * ScaleDetector.pSqY x y) :
    ScaleDetector.pearson_correlation x y < 1 := by
  unfold ScaleDetector.pearson_correlation
  split
  · norm_num
  · split
    · norm_num
    · rename_i hD
      have hsx := pSqX_nonneg x
      have hsy := pSqY_nonneg x y
      have hprod : (0 : ℚ) < ScaleDetector.pSqX x * ScaleDetector.pSqY x y :=
        lt_of_le_of_ne (mul_nonneg hsx hsy) (Ne.symm hD)
      have hprodR : (0 : ℝ) < (ScaleDetector.pSqX x : ℝ) * (ScaleDetector.pSqY x y : ℝ) := by
        exact_mod_cast hprod
      have hsqrt : 0 < Real.sqrt ((ScaleDetector.pSqX x : ℝ) * (ScaleDetector.pSqY x y : ℝ)) :=
        Real.sqrt_pos.mpr hprodR
      by_cases hn : ScaleDetector.pNum x y ≤ 0
      · have hnR : ((ScaleDetector.pNum x y : ℚ) : ℝ) ≤ 0 := by exact_mod_cast hn
        have hq := div_nonpos_of_nonpos_of_nonneg hnR hsqrt.le
        linarith
      · push_neg at hn
        rcases hcrit with hcase | hlt
        · exact absurd hcase (not_le.mpr hn)
        · have hnR : (0 : ℝ) < ((ScaleDetector.pNum x y : ℚ) : ℝ) := by exact_mod_cast hn
          have hltR : ((ScaleDetector.pNum x y : ℚ) : ℝ) ^ 2 <
              (ScaleDetector.pSqX x : ℝ) * (ScaleDetector.pSqY x y : ℝ) := by
            exact_mod_cast hlt
          have hroot : ((ScaleDetector.pNum x y : ℚ) : ℝ) <
              Real.sqrt ((ScaleDetector.pSqX x : ℝ) * (ScaleDetector.pSqY x y : ℝ)) :=
            (Real.lt_sqrt hnR.le).mpr hltR
          exact (div_lt_one hsqrt).mpr hroot

/-- The correlation of a vector with (a copy of) itself with non-zero
variance is exactly `1`. -/
theorem pearson_eq_one (x y : List ℚ) (hxy : x = y) (hne : ¬ x.length = 0)
    (hs : ¬ ScaleDetector.pSqX x = 0) :
    ScaleDetector.pearson_correlation x y = 1 := by
  subst hxy
  have hpos : (0 : ℚ) < ScaleDetector.pSqX x :=
    lt_of_le_of_ne (pSqX_nonneg x) (Ne.symm hs)
  unfold ScaleDetector.pearson_correlation
  rw [if_neg hne, pSqY_self, pNum_self, if_neg (mul_ne_zero hs hs)]
  have hSR : (0 : ℝ) < ((ScaleDetector.pSqX x : ℚ) : ℝ) := by exact_mod_cast hpos
  rw [Real.sqrt_mul_self hSR.le]
  exact div_self (ne_of_gt hSR)

/-- Members of the candidate correlation list obey a pointwise `getD`
bound. -/
theorem map_snd_mem_le (L : List ((String × String) × ℝ)) (c : ℝ)
    (hall : ∀ j, j < L.length → (L.getD j ScaleDetector.cdflt).2 ≤ c) :
    ∀ x ∈ L.map (fun p => p.2), x ≤ c := by
  intro x hx
  obtain ⟨p, hp, rfl⟩ := List.mem_map.mp hx
  obtain ⟨⟨i, hi⟩, hEq⟩ := List.mem_iff_get.mp hp
  have := hall i hi
  rw [List.getD_eq_get L ScaleDetector.cdflt hi, hEq] at this
  exact this

/-- Selection lemma: if candidate `i` has correlation exactly `1`, every
candidate is at most `1`, and every candidate before `i` is strictly below
`1`, then `_find_best_key` returns candidate `i`'s label with
confidence `1`. -/
theorem find_best_key_of_uniqueMax (h : List ℚ) (i : Nat) (hi : i < 24)
    (hval : ((ScaleDetector.keyCandidates h).getD i ScaleDetector.cdflt).2 = 1)
    (hall : ∀ j, j < 24 →
      ((ScaleDetector.keyCandidates h).getD j ScaleDetector.cdflt).2 ≤ 1)
    (hbef : ∀ j, j < i →
      ((ScaleDetector.keyCandidates h).getD j ScaleDetector.cdflt).2 < 1) :
    ScaleDetector.find_best_key h =
      (((ScaleDetector.keyCandidates h).getD i ScaleDetector.cdflt).1.1 ++ " " ++
        ((ScaleDetector.keyCandidates h).getD i ScaleDetector.cdflt).1.2, 1) := by
  have hlen : (ScaleDetector.keyCandidates h).length = 24 := keyCandidates_length h
  have hMle : ((ScaleDetector.keyCandidates h).map (fun c => c.2)).foldl max (-1) ≤ 1 := by
    refine foldl_max_le _ _ _ (by norm_num) ?_
    exact map_snd_mem_le _ 1 (fun j hj => hall j (by omega))
  have hMge : (1 : ℝ) ≤ ((ScaleDetector.keyCandidates h).map (fun c => c.2)).foldl max (-1) := by
    have hmem : ((ScaleDetector.keyCandidates h).getD i ScaleDetector.cdflt).2 ∈
        (ScaleDetector.keyCandidates h).map (fun c => c.2) :=
      List.mem_map_of_mem _ (getD_mem_of_lt _ i (by omega) _)
    rw [hval] at hmem
    exact mem_le_foldl_max _ (-1) 1 hmem
  have hM : ((ScaleDetector.keyCandidates h).map (fun c => c.2)).foldl max (-1) = 1 :=
    le_antisymm hMle hMge
  have hMgt : ((ScaleDetector.keyCandidates h).map (fun c => c.2)).foldl max (-1) > -1 := by
    rw [hM]; norm_num
  obtain ⟨i', hi', hval', hbef', hres⟩ :=
    kcStep_foldl_argmax (ScaleDetector.keyCandidates h) (-1) "unknown" "Major" hMgt
  have hii : i' = i := by
    rcases lt_trichotomy i' i with hlt | heq | hgt
    · exfalso
      have h1 := hbef i' hlt
      rw [hval', hM] at h1
      exact lt_irrefl 1 h1
    · exact heq
    · exfalso
      have h2 := hbef' i hgt
      rw [hval, hM] at h2
      exact lt_irrefl 1 h2
  subst hii
  have hfst := kcStep_foldl_fst (ScaleDetector.keyCandidates h) (-1) "unknown" "Major"
  rw [find_best_key_eq h, hres, hfst, hM]
  norm_num

/-- C4: for every non-zero 12-bin histogram (with a best correlation
strictly above the `-1` sentinel), `_find_best_key` selects the candidate
with the maximum Pearson correlation against the rotated major/minor
profiles, ties resolving to the candidate evaluated first in
root-major-minor order (all earlier candidates are strictly below the
maximum), and reports confidence `clamp((r + 1) / 2, 0, 1)` for the
selected correlation `r`. -/
theorem find_best_key_max_spec (h : List ℚ) (hlen : h.length = 12)
    (hnz : ∃ a ∈ h, a ≠ 0) (hmax : ScaleDetector.maxCorr h > -1) :
    ∃ i, i < 24 ∧
      ((ScaleDetector.keyCandidates h).getD i ScaleDetector.cdflt).2 =
        ScaleDetector.maxCorr h ∧
      (∀ j, j < i →
        ((ScaleDetector.keyCandidates h).getD j ScaleDetector.cdflt).2 <
          ScaleDetector.maxCorr h) ∧
      ScaleDetector.find_best_key h =
        (((ScaleDetector.keyCandidates h).getD i ScaleDetector.cdflt).1.1 ++ " " ++
          ((ScaleDetector.keyCandidates h).getD i ScaleDetector.cdflt).1.2,
         max 0 (min 1 ((ScaleDetector.maxCorr h + 1) / 2))) := by
  have hMgt : ((ScaleDetector.keyCandidates h).map (fun c => c.2)).foldl max (-1) > -1 := by
    simpa [ScaleDetector.maxCorr] using hmax
  obtain ⟨i, hi, hval, hbef, hres⟩ :=
    kcStep_foldl_argmax (ScaleDetector.keyCandidates h) (-1) "unknown" "Major" hMgt
  refine ⟨i, by simpa [keyCandidates_length] using hi, ?_, ?_, ?_⟩
  · simpa [ScaleDetector.maxCorr] using hval
  · intro j hj
    simpa [ScaleDetector.maxCorr] using hbef j hj
  · have hfst := kcStep_foldl_fst (ScaleDetector.keyCandidates h) (-1) "unknown" "Major"
    rw [find_best_key_eq h, hres, hfst]
    rfl

/-- Correlation of the major profile with itself is `1`. -/
theorem pearson_major_self :
    ScaleDetector.pearson_correlation
      (ScaleDetector.rotateHist ScaleDetector.MAJOR_PROFILE 0)
      ScaleDetector.MAJOR_PROFILE = 1 :=
  pearson_eq_one _ _ (by simp [ScaleDetector.rotateHist]) (by decide)
    (by norm_num [ScaleDetector.pSqX, ScaleDetector.rotateHist, ScaleDetector.MAJOR_PROFILE])

/-- The best correlation on the major profile itself beats the sentinel. -/
theorem maxCorr_major_gt : ScaleDetector.maxCorr ScaleDetector.MAJOR_PROFILE > -1 := by
  have hmem : ScaleDetector.majorCand ScaleDetector.MAJOR_PROFILE 0 ∈
      ScaleDetector.keyCandidates ScaleDetector.MAJOR_PROFILE := by
    simp only [ScaleDetector.keyCandidates, List.mem_flatMap]
    exact ⟨0, by simp, by simp⟩
  have hmem2 : (ScaleDetector.majorCand ScaleDetector.MAJOR_PROFILE 0).2 ∈
      (ScaleDetector.keyCandidates ScaleDetector.MAJOR_PROFILE).map (fun c => c.2) :=
    List.mem_map_of_mem _ hmem
  have h1 : (ScaleDetector.majorCand ScaleDetector.MAJOR_PROFILE 0).2 = 1 :=
    pearson_major_self
  rw [h1] at hmem2
  have hle := mem_le_foldl_max _ (-1) 1 hmem2
  have : (-1 : ℝ) < 1 := by norm_num
  simpa [ScaleDetector.maxCorr] using lt_of_lt_of_le this hle

/-- Witness for C4 at the major profile itself. -/
theorem find_best_key_max_spec_witness :
    ScaleDetector.MAJOR_PROFILE.length = 12 ∧
    (∃ a ∈ ScaleDetector.MAJOR_PROFILE, a ≠ 0) ∧
    ScaleDetector.maxCorr ScaleDetector.MAJOR_PROFILE > -1 ∧
    (∃ i, i < 24 ∧
      ((ScaleDetector.keyCandidates ScaleDetector.MAJOR_PROFILE).getD i
          ScaleDetector.cdflt).2 = ScaleDetector.maxCorr ScaleDetector.MAJOR_PROFILE ∧
      (∀ j, j < i →
        ((ScaleDetector.keyCandidates ScaleDetector.MAJOR_PROFILE).getD j
          ScaleDetector.cdflt).2 < ScaleDetector.maxCorr ScaleDetector.MAJOR_PROFILE) ∧
      ScaleDetector.find_best_key ScaleDetector.MAJOR_PROFILE =
        (((ScaleDetector.keyCandidates ScaleDetector.MAJOR_PROFILE).getD i
            ScaleDetector.cdflt).1.1 ++ " " ++
          ((ScaleDetector.keyCandidates ScaleDetector.MAJOR_PROFILE).getD i
            ScaleDetector.cdflt).1.2,
         max 0 (min 1 ((ScaleDetector.maxCorr ScaleDetector.MAJOR_PROFILE + 1) / 2)))) :=
  ⟨by decide,
    ⟨6.35, by simp [ScaleDetector.MAJOR_PROFILE], by norm_num⟩,
    maxCorr_major_gt,
    find_best_key_max_spec ScaleDetector.MAJOR_PROFILE (by decide)
      ⟨6.35, by simp [ScaleDetector.MAJOR_PROFILE], by norm_num⟩
      maxCorr_major_gt⟩

/-- Correlation of the minor profile with itself is `1`. -/
theorem pearson_minor_self :
    ScaleDetector.pearson_correlation
      (ScaleDetector.rotateHist ScaleDetector.MINOR_PROFILE 0)
      ScaleDetector.MINOR_PROFILE = 1 :=
  pearson_eq_one _ _ (by simp [ScaleDetector.rotateHist]) (by decide)
    (by norm_num [ScaleDetector.pSqX, ScaleDetector.rotateHist, ScaleDetector.MINOR_PROFILE])

set_option maxHeartbeats 2000000 in
/-- The 46 cross correlations: any rotation/mode combination other than the
exact match has Pearson correlation strictly below `1` against the
reference profiles (checked in exact rational arithmetic through the
squared Cauchy-Schwarz criterion). -/
theorem pearson_cross_lt_one :
    ∀ k, k < 12 → ∀ m mq : Bool, (k ≠ 0 ∨ m ≠ mq) →
      ScaleDetector.pearson_correlation
        (ScaleDetector.rotateHist (ScaleDetector.profileOf m) k)
        (ScaleDetector.profileOf mq) < 1 := by
  intro k hk m mq hne
  interval_cases k <;> cases m <;> cases mq
  · simp at hne
  · exact pearson_lt_one _ _ (Or.inr (by norm_num [ScaleDetector.pNum, ScaleDetector.pSqX, ScaleDetector.pSqY, ScaleDetector.rotateHist, ScaleDetector.profileOf, ScaleDetector.MAJOR_PROFILE, ScaleDetector.MINOR_PROFILE]))
  · exact pearson_lt_one _ _ (Or.inr (by norm_num [ScaleDetector.pNum, ScaleDetector.pSqX, ScaleDetector.pSqY, ScaleDetector.rotateHist, ScaleDetector.profileOf, ScaleDetector.MAJOR_PROFILE, ScaleDetector.MINOR_PROFILE]))
  · simp at hne
  · exact pearson_lt_one _ _ (Or.inr (by norm_num [ScaleDetector.pNum, ScaleDetector.pSqX, ScaleDetector.pSqY, ScaleDetector.rotateHist, ScaleDetector.profileOf, ScaleDetector.MAJOR_PROFILE, ScaleDetector.MINOR_PROFILE]))
  · exact pearson_lt_one _ _ (Or.inr (by norm_num [ScaleDetector.pNum, ScaleDetector.pSqX, ScaleDetector.pSqY, ScaleDetector.rotateHist, ScaleDetector.profileOf, ScaleDetector.MAJOR_PROFILE, ScaleDetector.MINOR_PROFILE]))
  · exact pearson_lt_one _ _ (Or.inr (by norm_num [ScaleDetector.pNum, ScaleDetector.pSqX, ScaleDetector.pSqY, ScaleDetector.rotateHist, ScaleDetector.profileOf, ScaleDetector.MAJOR_PROFILE, ScaleDetector.MINOR_PROFILE]))
  · exact pearson_lt_one _ _ (Or.inr (by norm_num [ScaleDetector.pNum, ScaleDetector.pSqX, ScaleDetector.pSqY, ScaleDetector.rotateHist, ScaleDetector.profileOf, ScaleDetector.MAJOR_PROFILE, ScaleDetector.MINOR_PROFILE]))
  · exact pearson_lt_one _ _ (Or.inr (by norm_num [ScaleDetector.pNum, ScaleDetector.pSqX, ScaleDetector.pSqY, ScaleDetector.rotateHist, ScaleDetector.profileOf, ScaleDetector.MAJOR_PROFILE, ScaleDetector.MINOR_PROFILE]))
  · exact pearson_lt_one _ _ (Or.inr (by norm_num [ScaleDetector.pNum, ScaleDetector.pSqX, ScaleDetector.pSqY, ScaleDetector.rotateHist, ScaleDetector.profileOf, ScaleDetector.MAJOR_PROFILE, ScaleDetector.MINOR_PROFILE]))
  · exact pearson_lt_one _ _ (Or.inr (by norm_num [ScaleDetector.pNum, ScaleDetector.pSqX, ScaleDetector.pSqY, ScaleDetector.rotateHist, ScaleDetector.profileOf, ScaleDetector.MAJOR_PROFILE, ScaleDetector.MINOR_PROFILE]))
  · exact pearson_lt_one _ _ (Or.inr (by norm_num [ScaleDetector.pNum, ScaleDetector.pSqX, ScaleDetector.pSqY, ScaleDetector.rotateHist, ScaleDetector.profileOf, ScaleDetector.MAJOR_PROFILE, ScaleDetector.MINOR_PROFILE]))
  · exact pearson_lt_one _ _ (Or.inr (by norm_num [ScaleDetector.pNum, ScaleDetector.pSqX, ScaleDetector.pSqY, ScaleDetector.rotateHist, ScaleDetector.profileOf, ScaleDetector.MAJOR_PROFILE, ScaleDetector.MINOR_PROFILE]))
  · exact pearson_lt_one _ _ (Or.inr (by norm_num [ScaleDetector.pNum, ScaleDetector.pSqX, ScaleDetector.pSqY, ScaleDetector.rotateHist, ScaleDetector.profileOf, ScaleDetector.MAJOR_PROFILE, ScaleDetector.MINOR_PROFILE]))
  · exact pearson_lt_one _ _ (Or.inr (by norm_num [ScaleDetector.pNum, ScaleDetector.pSqX, ScaleDetector.pSqY, ScaleDetector.rotateHist, ScaleDetector.profileOf, ScaleDetector.MAJOR_PROFILE, ScaleDetector.MINOR_PROFILE]))
  · exact pearson_lt_one _ _ (Or.inr (by norm_num [ScaleDetector.pNum, ScaleDetector.pSqX, ScaleDetector.pSqY, ScaleDetector.rotateHist, ScaleDetector.profileOf, ScaleDetector.MAJOR_PROFILE, ScaleDetector.MINOR_PROFILE]))
  · exact pearson_lt_one _ _ (Or.inr (by norm_num [ScaleDetector.pNum, ScaleDetector.pSqX, ScaleDetector.pSqY, ScaleDetector.rotateHist, ScaleDetector.profileOf, ScaleDetector.MAJOR_PROFILE, ScaleDetector.MINOR_PROFILE]))
  · exact pearson_lt_one _ _ (Or.inr (by norm_num [ScaleDetector.pNum, ScaleDetector.pSqX, ScaleDetector.pSqY, ScaleDetector.rotateHist, ScaleDetector.profileOf, ScaleDetector.MAJOR_PROFILE, ScaleDetector.MINOR_PROFILE]))
  · exact pearson_lt_one _ _ (Or.inr (by norm_num [ScaleDetector.pNum, ScaleDetector.pSqX, ScaleDetector.pSqY, ScaleDetector.rotateHist, ScaleDetector.profileOf, ScaleDetector.MAJOR_PROFILE, ScaleDetector.MINOR_PROFILE]))
  · exact pearson_lt_one _ _ (Or.inr (by norm_num [ScaleDetector.pNum, ScaleDetector.pSqX, ScaleDetector.pSqY, ScaleDetector.rotateHist, ScaleDetector.profileOf, ScaleDetector.MAJOR_PROFILE, ScaleDetector.MINOR_PROFILE]))
  · exact pearson_lt_one _ _ (Or.inr (by norm_num [ScaleDetector.pNum, ScaleDetector.pSqX, ScaleDetector.pSqY, ScaleDetector.rotateHist, ScaleDetector.profileOf, ScaleDetector.MAJOR_PROFILE, ScaleDetector.MINOR_PROFILE]))
  · exact pearson_lt_one _ _ (Or.inr (by norm_num [ScaleDetector.pNum, ScaleDetector.pSqX, ScaleDetector.pSqY, ScaleDetector.rotateHist, ScaleDetector.profileOf, ScaleDetector.MAJOR_PROFILE, ScaleDetector.MINOR_PROFILE]))
  · exact pearson_lt_one _ _ (Or.inr (by norm_num [ScaleDetector.pNum, ScaleDetector.pSqX, ScaleDetector.pSqY, ScaleDetector.rotateHist, ScaleDetector.profileOf, ScaleDetector.MAJOR_PROFILE, ScaleDetector.MINOR_PROFILE]))
  · exact pearson_lt_one _ _ (Or.inr (by norm_num [ScaleDetector.pNum, ScaleDetector.pSqX, ScaleDetector.pSqY, ScaleDetector.rotateHist, ScaleDetector.profileOf, ScaleDetector.MAJOR_PROFILE, ScaleDetector.MINOR_PROFILE]))
  · exact pearson_lt_one _ _ (Or.inr (by norm_num [ScaleDetector.pNum, ScaleDetector.pSqX, ScaleDetector.pSqY, ScaleDetector.rotateHist, ScaleDetector.profileOf, ScaleDetector.MAJOR_PROFILE, ScaleDetector.MINOR_PROFILE]))
  · exact pearson_lt_one _ _ (Or.inr (by norm_num [ScaleDetector.pNum, ScaleDetector.pSqX, ScaleDetector.pSqY, ScaleDetector.rotateHist, ScaleDetector.profileOf, ScaleDetector.MAJOR_PROFILE, ScaleDetector.MINOR_PROFILE]))
  · exact pearson_lt_one _ _ (Or.inr (by norm_num [ScaleDetector.pNum, ScaleDetector.pSqX, ScaleDetector.pSqY, ScaleDetector.rotateHist, ScaleDetector.profileOf, ScaleDetector.MAJOR_PROFILE, ScaleDetector.MINOR_PROFILE]))
  · exact pearson_lt_one _ _ (Or.inr (by norm_num [ScaleDetector.pNum, ScaleDetector.pSqX, ScaleDetector.pSqY, ScaleDetector.rotateHist, ScaleDetector.profileOf, ScaleDetector.MAJOR_PROFILE, ScaleDetector.MINOR_PROFILE]))
  · exact pearson_lt_one _ _ (Or.inr (by norm_num [ScaleDetector.pNum, ScaleDetector.pSqX, ScaleDetector.pSqY, ScaleDetector.rotateHist, ScaleDetector.profileOf, ScaleDetector.MAJOR_PROFILE, ScaleDetector.MINOR_PROFILE]))
  · exact pearson_lt_one _ _ (Or.inr (by norm_num [ScaleDetector.pNum, ScaleDetector.pSqX, ScaleDetector.pSqY, ScaleDetector.rotateHist, ScaleDetector.profileOf, ScaleDetector.MAJOR_PROFILE, ScaleDetector.MINOR_PROFILE]))
  · exact pearson_lt_one _ _ (Or.inr (by norm_num [ScaleDetector.pNum, ScaleDetector.pSqX, ScaleDetector.pSqY, ScaleDetector.rotateHist, ScaleDetector.profileOf, ScaleDetector.MAJOR_PROFILE, ScaleDetector.MINOR_PROFILE]))
  · exact pearson_lt_one _ _ (Or.inr (by norm_num [ScaleDetector.pNum, ScaleDetector.pSqX, ScaleDetector.pSqY, ScaleDetector.rotateHist, ScaleDetector.profileOf, ScaleDetector.MAJOR_PROFILE, ScaleDetector.MINOR_PROFILE]))
  · exact pearson_lt_one _ _ (Or.inr (by norm_num [ScaleDetector.pNum, ScaleDetector.pSqX, ScaleDetector.pSqY, ScaleDetector.rotateHist, ScaleDetector.profileOf, ScaleDetector.MAJOR_PROFILE, ScaleDetector.MINOR_PROFILE]))
  · exact pearson_lt_one _ _ (Or.inr (by norm_num [ScaleDetector.pNum, ScaleDetector.pSqX, ScaleDetector.pSqY, ScaleDetector.rotateHist, ScaleDetector.profileOf, ScaleDetector.MAJOR_PROFILE, ScaleDetector.MINOR_PROFILE]))
  · exact pearson_lt_one _ _ (Or.inr (by norm_num [ScaleDetector.pNum, ScaleDetector.pSqX, ScaleDetector.pSqY, ScaleDetector.rotateHist, ScaleDetector.profileOf, ScaleDetector.MAJOR_PROFILE, ScaleDetector.MINOR_PROFILE]))
  · exact pearson_lt_one _ _ (Or.inr (by norm_num [ScaleDetector.pNum, ScaleDetector.pSqX, ScaleDetector.pSqY, ScaleDetector.rotateHist, ScaleDetector.profileOf, ScaleDetector.MAJOR_PROFILE, ScaleDetector.MINOR_PROFILE]))
  · exact pearson_lt_one _ _ (Or.inr (by norm_num [ScaleDetector.pNum, ScaleDetector.pSqX, ScaleDetector.pSqY, ScaleDetector.rotateHist, ScaleDetector.profileOf, ScaleDetector.MAJOR_PROFILE, ScaleDetector.MINOR_PROFILE]))
  · exact pearson_lt_one _ _ (Or.inr (by norm_num [ScaleDetector.pNum, ScaleDetector.pSqX, ScaleDetector.pSqY, ScaleDetector.rotateHist, ScaleDetector.profileOf, ScaleDetector.MAJOR_PROFILE, ScaleDetector.MINOR_PROFILE]))
  · exact pearson_lt_one _ _ (Or.inr (by norm_num [ScaleDetector.pNum, ScaleDetector.pSqX, ScaleDetector.pSqY, ScaleDetector.rotateHist, ScaleDetector.profileOf, ScaleDetector.MAJOR_PROFILE, ScaleDetector.MINOR_PROFILE]))
  · exact pearson_lt_one _ _ (Or.inr (by norm_num [ScaleDetector.pNum, ScaleDetector.pSqX, ScaleDetector.pSqY, ScaleDetector.rotateHist, ScaleDetector.profileOf, ScaleDetector.MAJOR_PROFILE, ScaleDetector.MINOR_PROFILE]))
  · exact pearson_lt_one _ _ (Or.inr (by norm_num [ScaleDetector.pNum, ScaleDetector.pSqX, ScaleDetector.pSqY, ScaleDetector.rotateHist, ScaleDetector.profileOf, ScaleDetector.MAJOR_PROFILE, ScaleDetector.MINOR_PROFILE]))
  · exact pearson_lt_one _ _ (Or.inr (by norm_num [ScaleDetector.pNum, ScaleDetector.pSqX, ScaleDetector.pSqY, ScaleDetector.rotateHist, ScaleDetector.profileOf, ScaleDetector.MAJOR_PROFILE, ScaleDetector.MINOR_PROFILE]))
  · exact pearson_lt_one _ _ (Or.inr (by norm_num [ScaleDetector.pNum, ScaleDetector.pSqX, ScaleDetector.pSqY, ScaleDetector.rotateHist, ScaleDetector.profileOf, ScaleDetector.MAJOR_PROFILE, ScaleDetector.MINOR_PROFILE]))
  · exact pearson_lt_one _ _ (Or.inr (by norm_num [ScaleDetector.pNum, ScaleDetector.pSqX, ScaleDetector.pSqY, ScaleDetector.rotateHist, ScaleDetector.profileOf, ScaleDetector.MAJOR_PROFILE, ScaleDetector.MINOR_PROFILE]))
  · exact pearson_lt_one _ _ (Or.inr (by norm_num [ScaleDetector.pNum, ScaleDetector.pSqX, ScaleDetector.pSqY, ScaleDetector.rotateHist, ScaleDetector.profileOf, ScaleDetector.MAJOR_PROFILE, ScaleDetector.MINOR_PROFILE]))
  · exact pearson_lt_one _ _ (Or.inr (by norm_num [ScaleDetector.pNum, ScaleDetector.pSqX, ScaleDetector.pSqY, ScaleDetector.rotateHist, ScaleDetector.profileOf, ScaleDetector.MAJOR_PROFILE, ScaleDetector.MINOR_PROFILE]))
  · exact pearson_lt_one _ _ (Or.inr (by norm_num [ScaleDetector.pNum, ScaleDetector.pSqX, ScaleDetector.pSqY, ScaleDetector.rotateHist, ScaleDetector.profileOf, ScaleDetector.MAJOR_PROFILE, ScaleDetector.MINOR_PROFILE]))
  · exact pearson_lt_one _ _ (Or.inr (by norm_num [ScaleDetector.pNum, ScaleDetector.pSqX, ScaleDetector.pSqY, ScaleDetector.rotateHist, ScaleDetector.profileOf, ScaleDetector.MAJOR_PROFILE, ScaleDetector.MINOR_PROFILE]))

set_option maxHeartbeats 2000000 in
/-- C5: for every histogram that is a reference profile rotated so that its
weights sit at root `r`'s pitch classes (for any root `r` and mode), key
estimation returns exactly that root and mode as the label, with
confidence at least `0.9` (in fact exactly `1`). -/
theorem find_best_key_on_profiles (r : Nat) (hr : r < 12) (m : Bool) :
    (ScaleDetector.find_best_key
        (ScaleDetector.rotateHist (ScaleDetector.profileOf m) ((12 - r) % 12))).1 =
      ScaleDetector.NOTE_NAMES.getD r "unknown" ++ " " ++ ScaleDetector.modeNameOf m ∧
    (ScaleDetector.find_best_key
        (ScaleDetector.rotateHist (ScaleDetector.profileOf m) ((12 - r) % 12))).2 ≥ 0.9 := by
  interval_cases r <;> cases m
  · -- root 0, minor
    have hall : ∀ j, j < 24 →
        ((ScaleDetector.keyCandidates (ScaleDetector.rotateHist (ScaleDetector.profileOf false) ((12 - 0) % 12))).getD j ScaleDetector.cdflt).2 ≤ 1 := by
      intro j hj
      interval_cases j
      · exact le_of_lt (pearson_cross_lt_one 0 (by decide) false true (Or.inr (by decide)))
      · exact le_of_eq (by exact pearson_minor_self)
      · exact le_of_lt (pearson_cross_lt_one 1 (by decide) false true (Or.inl (by decide)))
      · exact le_of_lt (pearson_cross_lt_one 1 (by decide) false false (Or.inl (by decide)))
      · exact le_of_lt (pearson_cross_lt_one 2 (by decide) false true (Or.inl (by decide)))
      · exact le_of_lt (pearson_cross_lt_one 2 (by decide) false false (Or.inl (by decide)))
      · exact le_of_lt (pearson_cross_lt_one 3 (by decide) false true (Or.inl (by decide)))
      · exact le_of_lt (pearson_cross_lt_one 3 (by decide) false false (Or.inl (by decide)))
      · exact le_of_lt (pearson_cross_lt_one 4 (by decide) false true (Or.inl (by decide)))
      · exact le_of_lt (pearson_cross_lt_one 4 (by decide) false false (Or.inl (by decide)))
      · exact le_of_lt (pearson_cross_lt_one 5 (by decide) false true (Or.inl (by decide)))
      · exact le_of_lt (pearson_cross_lt_one 5 (by decide) false false (Or.inl (by decide)))
      · exact le_of_lt (pearson_cross_lt_one 6 (by decide) false true (Or.inl (by decide)))
      · exact le_of_lt (pearson_cross_lt_one 6 (by decide) false false (Or.inl (by decide)))
      · exact le_of_lt (pearson_cross_lt_one 7 (by decide) false true (Or.inl (by decide)))
      · exact le_of_lt (pearson_cross_lt_one 7 (by decide) false false (Or.inl (by decide)))
      · exact le_of_lt (pearson_cross_lt_one 8 (by decide) false true (Or.inl (by decide)))
      · exact le_of_lt (pearson_cross_lt_one 8 (by decide) false false (Or.inl (by decide)))
      · exact le_of_lt (pearson_cross_lt_one 9 (by decide) false true (Or.inl (by decide)))
      · exact le_of_lt (pearson_cross_lt_one 9 (by decide) false false (Or.inl (by decide)))
      · exact le_of_lt (pearson_cross_lt_one 10 (by decide) false true (Or.inl (by decide)))
      · exact le_of_lt (pearson_cross_lt_one 10 (by decide) false false (Or.inl (by decide)))
      · exact le_of_lt (pearson_cross_lt_one 11 (by decide) false true (Or.inl (by decide)))
      · exact le_of_lt (pearson_cross_lt_one 11 (by decide) false false (Or.inl (by decide)))
    have hbef : ∀ j, j < 1 →
        ((ScaleDetector.keyCandidates (ScaleDetector.rotateHist (ScaleDetector.profileOf false) ((12 - 0) % 12))).getD j ScaleDetector.cdflt).2 < 1 := by
      intro j hj
      interval_cases j
      · exact pearson_cross_lt_one 0 (by decide) false true (Or.inr (by decide))
    have e := find_best_key_of_uniqueMax (ScaleDetector.rotateHist (ScaleDetector.profileOf false) ((12 - 0) % 12)) 1 (by decide)
      (by exact pearson_minor_self) hall hbef
    exact ⟨by rw [e]; rfl, by rw [e]; show (1 : ℝ) ≥ 0.9; norm_num⟩
  · -- root 0, major
    have hall : ∀ j, j < 24 →
        ((ScaleDetector.keyCandidates (ScaleDetector.rotateHist (ScaleDetector.profileOf true) ((12 - 0) % 12))).getD j ScaleDetector.cdflt).2 ≤ 1 := by
      intro j hj
      interval_cases j
      · exact le_of_eq (by exact pearson_major_self)
      · exact le_of_lt (pearson_cross_lt_one 0 (by decide) true false (Or.inr (by decide)))
      · exact le_of_lt (pearson_cross_lt_one 1 (by decide) true true (Or.inl (by decide)))
      · exact le_of_lt (pearson_cross_lt_one 1 (by decide) true false (Or.inl (by decide)))
      · exact le_of_lt (pearson_cross_lt_one 2 (by decide) true true (Or.inl (by decide)))
      · exact le_of_lt (pearson_cross_lt_one 2 (by decide) true false (Or.inl (by decide)))
      · exact le_of_lt (pearson_cross_lt_one 3 (by decide) true true (Or.inl (by decide)))
      · exact le_of_lt (pearson_cross_lt_one 3 (by decide) true false (Or.inl (by decide)))
      · exact le_of_lt (pearson_cross_lt_one 4 (by decide) true true (Or.inl (by decide)))
      · exact le_of_lt (pearson_cross_lt_one 4 (by decide) true false (Or.inl (by decide)))
      · exact le_of_lt (pearson_cross_lt_one 5 (by decide) true true (Or.inl (by decide)))
      · exact le_of_lt (pearson_cross_lt_one 5 (by decide) true false (Or.inl (by decide)))
      · exact le_of_lt (pearson_cross_lt_one 6 (by decide) true true (Or.inl (by decide)))
      · exact le_of_lt (pearson_cross_lt_one 6 (by decide) true false (Or.inl (by decide)))
      · exact le_of_lt (pearson_cross_lt_one 7 (by decide) true true (Or.inl (by decide)))
      · exact le_of_lt (pearson_cross_lt_one 7 (by decide) true false (Or.inl (by decide)))
      · exact le_of_lt (pearson_cross_lt_one 8 (by decide) true true (Or.inl (by decide)))
      · exact le_of_lt (pearson_cross_lt_one 8 (by decide) true false (Or.inl (by decide)))
      · exact le_of_lt (pearson_cross_lt_one 9 (by decide) true true (Or.inl (by decide)))
      · exact le_of_lt (pearson_cross_lt_one 9 (by decide) true false (Or.inl (by decide)))
      · exact le_of_lt (pearson_cross_lt_one 10 (by decide) true true (Or.inl (by decide)))
      · exact le_of_lt (pearson_cross_lt_one 10 (by decide) true false (Or.inl (by decide)))
      · exact le_of_lt (pearson_cross_lt_one 11 (by decide) true true (Or.inl (by decide)))
      · exact le_of_lt (pearson_cross_lt_one 11 (by decide) true false (Or.inl (by decide)))
    have hbef : ∀ j, j < 0 →
        ((ScaleDetector.keyCandidates (ScaleDetector.rotateHist (ScaleDetector.profileOf true) ((12 - 0) % 12))).getD j ScaleDetector.cdflt).2 < 1 :=
      fun j hj => absurd hj (by omega)
    have e := find_best_key_of_uniqueMax (ScaleDetector.rotateHist (ScaleDetector.profileOf true) ((12 - 0) % 12)) 0 (by decide)
      (by exact pearson_major_self) hall hbef
    exact ⟨by rw [e]; rfl, by rw [e]; show (1 : ℝ) ≥ 0.9; norm_num⟩
  · -- root 1, minor
    have hall : ∀ j, j < 24 →
        ((ScaleDetector.keyCandidates (ScaleDetector.rotateHist (ScaleDetector.profileOf false) ((12 - 1) % 12))).getD j ScaleDetector.cdflt).2 ≤ 1 := by
      intro j hj
      interval_cases j
      · exact le_of_lt (pearson_cross_lt_one 11 (by decide) false true (Or.inl (by decide)))
      · exact le_of_lt (pearson_cross_lt_one 11 (by decide) false false (Or.inl (by decide)))
      · exact le_of_lt (pearson_cross_lt_one 0 (by decide) false true (Or.inr (by decide)))
      · exact le_of_eq (by exact pearson_minor_self)
      · exact le_of_lt (pearson_cross_lt_one 1 (by decide) false true (Or.inl (by decide)))
      · exact le_of_lt (pearson_cross_lt_one 1 (by decide) false false (Or.inl (by decide)))
      · exact le_of_lt (pearson_cross_lt_one 2 (by decide) false true (Or.inl (by decide)))
      · exact le_of_lt (pearson_cross_lt_one 2 (by decide) false false (Or.inl (by decide)))
      · exact le_of_lt (pearson_cross_lt_one 3 (by decide) false true (Or.inl (by decide)))
      · exact le_of_lt (pearson_cross_lt_one 3 (by decide) false false (Or.inl (by decide)))
      · exact le_of_lt (pearson_cross_lt_one 4 (by decide) false true (Or.inl (by decide)))
      · exact le_of_lt (pearson_cross_lt_one 4 (by decide) false false (Or.inl (by decide)))
      · exact le_of_lt (pearson_cross_lt_one 5 (by decide) false true (Or.inl (by decide)))
      · exact le_of_lt (pearson_cross_lt_one 5 (by decide) false false (Or.inl (by decide)))
      · exact le_of_lt (pearson_cross_lt_one 6 (by decide) false true (Or.inl (by decide)))
      · exact le_of_lt (pearson_cross_lt_one 6 (by decide) false false (Or.inl (by decide)))
      · exact le_of_lt (pearson_cross_lt_one 7 (by decide) false true (Or.inl (by decide)))
      · exact le_of_lt (pearson_cross_lt_one 7 (by decide) false false (Or.inl (by decide)))
      · exact le_of_lt (pearson_cross_lt_one 8 (by decide) false true (Or.inl (by decide)))
      · exact le_of_lt (pearson_cross_lt_one 8 (by decide) false false (Or.inl (by decide)))
      · exact le_of_lt (pearson_cross_lt_one 9 (by decide) false true (Or.inl (by decide)))
      · exact le_of_lt (pearson_cross_lt_one 9 (by decide) false false (Or.inl (by decide)))
      · exact le_of_lt (pearson_cross_lt_one 10 (by decide) false true (Or.inl (by decide)))
      · exact le_of_lt (pearson_cross_lt_one 10 (by decide) false false (Or.inl (by decide)))
    have hbef : ∀ j, j < 3 →
        ((ScaleDetector.keyCandidates (ScaleDetector.rotateHist (ScaleDetector.profileOf false) ((12 - 1) % 12))).getD j ScaleDetector.cdflt).2 < 1 := by
      intro j hj
      interval_cases j
      · exact pearson_cross_lt_one 11 (by decide) false true (Or.inl (by decide))
      · exact pearson_cross_lt_one 11 (by decide) false false (Or.inl (by decide))
      · exact pearson_cross_lt_one 0 (by decide) false true (Or.inr (by decide))
    have e := find_best_key_of_uniqueMax (ScaleDetector.rotateHist (ScaleDetector.profileOf false) ((12 - 1) % 12)) 3 (by decide)
      (by exact pearson_minor_self) hall hbef
    exact ⟨by rw [e]; rfl, by rw [e]; show (1 : ℝ) ≥ 0.9; norm_num⟩
  · -- root 1, major
    have hall : ∀ j, j < 24 →
        ((ScaleDetector.keyCandidates (ScaleDetector.rotateHist (ScaleDetector.profileOf true) ((12 - 1) % 12))).getD j ScaleDetector.cdflt).2 ≤ 1 := by
      intro j hj
      interval_cases j
      · exact le_of_lt (pearson_cross_lt_one 11 (by decide) true true (Or.inl (by decide)))
      · exact le_of_lt (pearson_cross_lt_one 11 (by decide) true false (Or.inl (by decide)))
      · exact le_of_eq (by exact pearson_major_self)
      · exact le_of_lt (pearson_cross_lt_one 0 (by decide) true false (Or.inr (by decide)))
      · exact le_of_lt (pearson_cross_lt_one 1 (by decide) true true (Or.inl (by decide)))
      · exact le_of_lt (pearson_cross_lt_one 1 (by decide) true false (Or.inl (by decide)))
      · exact le_of_lt (pearson_cross_lt_one 2 (by decide) true true (Or.inl (by decide)))
      · exact le_of_lt (pearson_cross_lt_one 2 (by decide) true false (Or.inl (by decide)))
      · exact le_of_lt (pearson_cross_lt_one 3 (by decide) true true (Or.inl (by decide)))
      · exact le_of_lt (pearson_cross_lt_one 3 (by decide) true false (Or.inl (by decide)))
      · exact le_of_lt (pearson_cross_lt_one 4 (by decide) true true (Or.inl (by decide)))
      · exact le_of_lt (pearson_cross_lt_one 4 (by decide) true false (Or.inl (by decide)))
      · exact le_of_lt (pearson_cross_lt_one 5 (by decide) true true (Or.inl (by decide)))
      · exact le_of_lt (pearson_cross_lt_one 5 (by decide) true false (Or.inl (by decide)))
      · exact le_of_lt (pearson_cross_lt_one 6 (by decide) true true (Or.inl (by decide)))
      · exact le_of_lt (pearson_cross_lt_one 6 (by decide) true false (Or.inl (by decide)))
      · exact le_of_lt (pearson_cross_lt_one 7 (by decide) true true (Or.inl (by decide)))
      · exact le_of_lt (pearson_cross_lt_one 7 (by decide) true false (Or.inl (by decide)))
      · exact le_of_lt (pearson_cross_lt_one 8 (by decide) true true (Or.inl (by decide)))
      · exact le_of_lt (pearson_cross_lt_one 8 (by decide) true false (Or.inl (by decide)))
      · exact le_of_lt (pearson_cross_lt_one 9 (by decide) true true (Or.inl (by decide)))
      · exact le_of_lt (pearson_cross_lt_one 9 (by decide) true false (Or.inl (by decide)))
      · exact le_of_lt (pearson_cross_lt_one 10 (by decide) true true (Or.inl (by decide)))
      · exact le_of_lt (pearson_cross_lt_one 10 (by decide) true false (Or.inl (by decide)))
    have hbef : ∀ j, j < 2 →
        ((ScaleDetector.keyCandidates (ScaleDetector.rotateHist (ScaleDetector.profileOf true) ((12 - 1) % 12))).getD j ScaleDetector.cdflt).2 < 1 := by
      intro j hj
      interval_cases j
      · exact pearson_cross_lt_one 11 (by decide) true true (Or.inl (by decide))
      · exact pearson_cross_lt_one 11 (by decide) true false (Or.inl (by decide))
    have e := find_best_key_of_uniqueMax (ScaleDetector.rotateHist (ScaleDetector.profileOf true) ((12 - 1) % 12)) 2 (by decide)
      (by exact pearson_major_self) hall hbef
    exact ⟨by rw [e]; rfl, by rw [e]; show (1 : ℝ) ≥ 0.9; norm_num⟩
  · -- root 2, minor
    have hall : ∀ j, j < 24 →
        ((ScaleDetector.keyCandidates (ScaleDetector.rotateHist (ScaleDetector.profileOf false) ((12 - 2) % 12))).getD j ScaleDetector.cdflt).2 ≤ 1 := by
      intro j hj
      interval_cases j
      · exact le_of_lt (pearson_cross_lt_one 10 (by decide) false true (Or.inl (by decide)))
      · exact le_of_lt (pearson_cross_lt_one 10 (by decide) false false (Or.inl (by decide)))
      · exact le_of_lt (pearson_cross_lt_one 11 (by decide) false true (Or.inl (by decide)))
      · exact le_of_lt (pearson_cross_lt_one 11 (by decide) false false (Or.inl (by decide)))
      · exact le_of_lt (pearson_cross_lt_one 0 (by decide) false true (Or.inr (by decide)))
      · exact le_of_eq (by exact pearson_minor_self)
      · exact le_of_lt (pearson_cross_lt_one 1 (by decide) false true (Or.inl (by decide)))
      · exact le_of_lt (pearson_cross_lt_one 1 (by decide) false false (Or.inl (by decide)))
      · exact le_of_lt (pearson_cross_lt_one 2 (by decide) false true (Or.inl (by decide)))
      · exact le_of_lt (pearson_cross_lt_one 2 (by decide) false false (Or.inl (by decide)))
      · exact le_of_lt (pearson_cross_lt_one 3 (by decide) false true (Or.inl (by decide)))
      · exact le_of_lt (pearson_cross_lt_one 3 (by decide) false false (Or.inl (by decide)))
      · exact le_of_lt (pearson_cross_lt_one 4 (by decide) false true (Or.inl (by decide)))
      · exact le_of_lt (pearson_cross_lt_one 4 (by decide) false false (Or.inl (by decide)))
      · exact le_of_lt (pearson_cross_lt_one 5 (by decide) false true (Or.inl (by decide)))
      · exact le_of_lt (pearson_cross_lt_one 5 (by decide) false false (Or.inl (by decide)))
      · exact le_of_lt (pearson_cross_lt_one 6 (by decide) false true (Or.inl (by decide)))
      · exact le_of_lt (pearson_cross_lt_one 6 (by decide) false false (Or.inl (by decide)))
      · exact le_of_lt (pearson_cross_lt_one 7 (by decide) false true (Or.inl (by decide)))
      · exact le_of_lt (pearson_cross_lt_one 7 (by decide) false false (Or.inl (by decide)))
      · exact le_of_lt (pearson_cross_lt_one 8 (by decide) false true (Or.inl (by decide)))
      · exact le_of_lt (pearson_cross_lt_one 8 (by decide) false false (Or.inl (by decide)))
      · exact le_of_lt (pearson_cross_lt_one 9 (by decide) false true (Or.inl (by decide)))
      · exact le_of_lt (pearson_cross_lt_one 9 (by decide) false false (Or.inl (by decide)))
    have hbef : ∀ j, j < 5 →
        ((ScaleDetector.keyCandidates (ScaleDetector.rotateHist (ScaleDetector.profileOf false) ((12 - 2) % 12))).getD j ScaleDetector.cdflt).2 < 1 := by
      intro j hj
      interval_cases j
      · exact pearson_cross_lt_one 10 (by decide) false true (Or.inl (by decide))
      · exact pearson_cross_lt_one 10 (by decide) false false (Or.inl (by decide))
      · exact pearson_cross_lt_one 11 (by decide) false true (Or.inl (by decide))
      · exact pearson_cross_lt_one 11 (by decide) false false (Or.inl (by decide))
      · exact pearson_cross_lt_one 0 (by decide) false true (Or.inr (by decide))
    have e := find_best_key_of_uniqueMax (ScaleDetector.rotateHist (ScaleDetector.profileOf false) ((12 - 2) % 12)) 5 (by decide)
      (by exact pearson_minor_self) hall hbef
    exact ⟨by rw [e]; rfl, by rw [e]; show (1 : ℝ) ≥ 0.9; norm_num⟩
  · -- root 2, major
    have hall : ∀ j, j < 24 →
        ((ScaleDetector.keyCandidates (ScaleDetector.rotateHist (ScaleDetector.profileOf true) ((12 - 2) % 12))).getD j ScaleDetector.cdflt).2 ≤ 1 := by
      intro j hj
      interval_cases j
      · exact le_of_lt (pearson_cross_lt_one 10 (by decide) true true (Or.inl (by decide)))
      · exact le_of_lt (pearson_cross_lt_one 10 (by decide) true false (Or.inl (by decide)))
      · exact le_of_lt (pearson_cross_lt_one 11 (by decide) true true (Or.inl (by decide)))
      · exact le_of_lt (pearson_cross_lt_one 11 (by decide) true false (Or.inl (by decide)))
      · exact le_of_eq (by exact pearson_major_self)
      · exact le_of_lt (pearson_cross_lt_one 0 (by decide) true false (Or.inr (by decide)))
      · exact le_of_lt (pearson_cross_lt_one 1 (by decide) true true (Or.inl (by decide)))
      · exact le_of_lt (pearson_cross_lt_one 1 (by decide) true false (Or.inl (by decide)))
      · exact le_of_lt (pearson_cross_lt_one 2 (by decide) true true (Or.inl (by decide)))
      · exact le_of_lt (pearson_cross_lt_one 2 (by decide) true false (Or.inl (by decide)))
      · exact le_of_lt (pearson_cross_lt_one 3 (by decide) true true (Or.inl (by decide)))
      · exact le_of_lt (pearson_cross_lt_one 3 (by decide) true false (Or.inl (by decide)))
      · exact le_of_lt (pearson_cross_lt_one 4 (by decide) true true (Or.inl (by decide)))
      · exact le_of_lt (pearson_cross_lt_one 4 (by decide) true false (Or.inl (by decide)))
      · exact le_of_lt (pearson_cross_lt_one 5 (by decide) true true (Or.inl (by decide)))
      · exact le_of_lt (pearson_cross_lt_one 5 (by decide) true false (Or.inl (by decide)))
      · exact le_of_lt (pearson_cross_lt_one 6 (by decide) true true (Or.inl (by decide)))
      · exact le_of_lt (pearson_cross_lt_one 6 (by decide) true false (Or.inl (by decide)))
      · exact le_of_lt (pearson_cross_lt_one 7 (by decide) true true (Or.inl (by decide)))
      · exact le_of_lt (pearson_cross_lt_one 7 (by decide) true false (Or.inl (by decide)))
      · exact le_of_lt (pearson_cross_lt_one 8 (by decide) true true (Or.inl (by decide)))
      · exact le_of_lt (pearson_cross_lt_one 8 (by decide) true false (Or.inl (by decide)))
      · exact le_of_lt (pearson_cross_lt_one 9 (by decide) true true (Or.inl (by decide)))
      · exact le_of_lt (pearson_cross_lt_one 9 (by decide) true false (Or.inl (by decide)))
    have hbef : ∀ j, j < 4 →
        ((ScaleDetector.keyCandidates (ScaleDetector.rotateHist (ScaleDetector.profileOf true) ((12 - 2) % 12))).getD j ScaleDetector.cdflt).2 < 1 := by
      intro j hj
      interval_cases j
      · exact pearson_cross_lt_one 10 (by decide) true true (Or.inl (by decide))
      · exact pearson_cross_lt_one 10 (by decide) true false (Or.inl (by decide))
      · exact pearson_cross_lt_one 11 (by decide) true true (Or.inl (by decide))
      · exact pearson_cross_lt_one 11 (by decide) true false (Or.inl (by decide))
    have e := find_best_key_of_uniqueMax (ScaleDetector.rotateHist (ScaleDetector.profileOf true) ((12 - 2) % 12)) 4 (by decide)
      (by exact pearson_major_self) hall hbef
    exact ⟨by rw [e]; rfl, by rw [e]; show (1 : ℝ) ≥ 0.9; norm_num⟩
  · -- root 3, minor
    have hall : ∀ j, j < 24 →
        ((ScaleDetector.keyCandidates (ScaleDetector.rotateHist (ScaleDetector.profileOf false) ((12 - 3) % 12))).getD j ScaleDetector.cdflt).2 ≤ 1 := by
      intro j hj
      interval_cases j
      · exact le_of_lt (pearson_cross_lt_one 9 (by decide) false true (Or.inl (by decide)))
      · exact le_of_lt (pearson_cross_lt_one 9 (by decide) false false (Or.inl (by decide)))
      · exact le_of_lt (pearson_cross_lt_one 10 (by decide) false true (Or.inl (by decide)))
      · exact le_of_lt (pearson_cross_lt_one 10 (by decide) false false (Or.inl (by decide)))
      · exact le_of_lt (pearson_cross_lt_one 11 (by decide) false true (Or.inl (by decide)))
      · exact le_of_lt (pearson_cross_lt_one 11 (by decide) false false (Or.inl (by decide)))
      · exact le_of_lt (pearson_cross_lt_one 0 (by decide) false true (Or.inr (by decide)))
      · exact le_of_eq (by exact pearson_minor_self)
      · exact le_of_lt (pearson_cross_lt_one 1 (by decide) false true (Or.inl (by decide)))
      · exact le_of_lt (pearson_cross_lt_one 1 (by decide) false false (Or.inl (by decide)))
      · exact le_of_lt (pearson_cross_lt_one 2 (by decide) false true (Or.inl (by decide)))
      · exact le_of_lt (pearson_cross_lt_one 2 (by decide) false false (Or.inl (by decide)))
      · exact le_of_lt (pearson_cross_lt_one 3 (by decide) false true (Or.inl (by decide)))
      · exact le_of_lt (pearson_cross_lt_one 3 (by decide) false false (Or.inl (by decide)))
      · exact le_of_lt (pearson_cross_lt_one 4 (by decide) false true (Or.inl (by decide)))
      · exact le_of_lt (pearson_cross_lt_one 4 (by decide) false false (Or.inl (by decide)))
      · exact le_of_lt (pearson_cross_lt_one 5 (by decide) false true (Or.inl (by decide)))
      · exact le_of_lt (pearson_cross_lt_one 5 (by decide) false false (Or.inl (by decide)))
      · exact le_of_lt (pearson_cross_lt_one 6 (by decide) false true (Or.inl (by decide)))
      · exact le_of_lt (pearson_cross_lt_one 6 (by decide) false false (Or.inl (by decide)))
      · exact le_of_lt (pearson_cross_lt_one 7 (by decide) false true (Or.inl (by decide)))
      · exact le_of_lt (pearson_cross_lt_one 7 (by decide) false false (Or.inl (by decide)))
      · exact le_of_lt (pearson_cross_lt_one 8 (by decide) false true (Or.inl (by decide)))
      · exact le_of_lt (pearson_cross_lt_one 8 (by decide) false false (Or.inl (by decide)))
    have hbef : ∀ j, j < 7 →
        ((ScaleDetector.keyCandidates (ScaleDetector.rotateHist (ScaleDetector.profileOf false) ((12 - 3) % 12))).getD j ScaleDetector.cdflt).2 < 1 := by
      intro j hj
      interval_cases j
      · exact pearson_cross_lt_one 9 (by decide) false true (Or.inl (by decide))
      · exact pearson_cross_lt_one 9 (by decide) false false (Or.inl (by decide))
      · exact pearson_cross_lt_one 10 (by decide) false true (Or.inl (by decide))
      · exact pearson_cross_lt_one 10 (by decide) false false (Or.inl (by decide))
      · exact pearson_cross_lt_one 11 (by decide) false true (Or.inl (by decide))
      · exact pearson_cross_lt_one 11 (by decide) false false (Or.inl (by decide))
      · exact pearson_cross_lt_one 0 (by decide) false true (Or.inr (by decide))
    have e := find_best_key_of_uniqueMax (ScaleDetector.rotateHist (ScaleDetector.profileOf false) ((12 - 3) % 12)) 7 (by decide)
      (by exact pearson_minor_self) hall hbef
    exact ⟨by rw [e]; rfl, by rw [e]; show (1 : ℝ) ≥ 0.9; norm_num⟩
  · -- root 3, major
    have hall : ∀ j, j < 24 →
        ((ScaleDetector.keyCandidates (ScaleDetector.rotateHist (ScaleDetector.profileOf true) ((12 - 3) % 12))).getD j ScaleDetector.cdflt).2 ≤ 1 := by
      intro j hj
      interval_cases j
      · exact le_of_lt (pearson_cross_lt_one 9 (by decide) true true (Or.inl (by decide)))
      · exact le_of_lt (pearson_cross_lt_one 9 (by decide) true false (Or.inl (by decide)))
      · exact le_of_lt (pearson_cross_lt_one 10 (by decide) true true (Or.inl (by decide)))
      · exact le_of_lt (pearson_cross_lt_one 10 (by decide) true false (Or.inl (by decide)))
      · exact le_of_lt (pearson_cross_lt_one 11 (by decide) true true (Or.inl (by decide)))
      · exact le_of_lt (pearson_cross_lt_one 11 (by decide) true false (Or.inl (by decide)))
      · exact le_of_eq (by exact pearson_major_self)
      · exact le_of_lt (pearson_cross_lt_one 0 (by decide) true false (Or.inr (by decide)))
      · exact le_of_lt (pearson_cross_lt_one 1 (by decide) true true (Or.inl (by decide)))
      · exact le_of_lt (pearson_cross_lt_one 1 (by decide) true false (Or.inl (by decide)))
      · exact le_of_lt (pearson_cross_lt_one 2 (by decide) true true (Or.inl (by decide)))
      · exact le_of_lt (pearson_cross_lt_one 2 (by decide) true false (Or.inl (by decide)))
      · exact le_of_lt (pearson_cross_lt_one 3 (by decide) true true (Or.inl (by decide)))
      · exact le_of_lt (pearson_cross_lt_one 3 (by decide) true false (Or.inl (by decide)))
      · exact le_of_lt (pearson_cross_lt_one 4 (by decide) true true (Or.inl (by decide)))
      · exact le_of_lt (pearson_cross_lt_one 4 (by decide) true false (Or.inl (by decide)))
      · exact le_of_lt (pearson_cross_lt_one 5 (by decide) true true (Or.inl (by decide)))
      · exact le_of_lt (pearson_cross_lt_one 5 (by decide) true false (Or.inl (by decide)))
      · exact le_of_lt (pearson_cross_lt_one 6 (by decide) true true (Or.inl (by decide)))
      · exact le_of_lt (pearson_cross_lt_one 6 (by decide) true false (Or.inl (by decide)))
      · exact le_of_lt (pearson_cross_lt_one 7 (by decide) true true (Or.inl (by decide)))
      · exact le_of_lt (pearson_cross_lt_one 7 (by decide) true false (Or.inl (by decide)))
      · exact le_of_lt (pearson_cross_lt_one 8 (by decide) true true (Or.inl (by decide)))
      · exact le_of_lt (pearson_cross_lt_one 8 (by decide) true false (Or.inl (by decide)))
    have hbef : ∀ j, j < 6 →
        ((ScaleDetector.keyCandidates (ScaleDetector.rotateHist (ScaleDetector.profileOf true) ((12 - 3) % 12))).getD j ScaleDetector.cdflt).2 < 1 := by
      intro j hj
      interval_cases j
      · exact pearson_cross_lt_one 9 (by decide) true true (Or.inl (by decide))
      · exact pearson_cross_lt_one 9 (by decide) true false (Or.inl (by decide))
      · exact pearson_cross_lt_one 10 (by decide) true true (Or.inl (by decide))
      · exact pearson_cross_lt_one 10 (by decide) true false (Or.inl (by decide))
      · exact pearson_cross_lt_one 11 (by decide) true true (Or.inl (by decide))
      · exact pearson_cross_lt_one 11 (by decide) true false (Or.inl (by decide))
    have e := find_best_key_of_uniqueMax (ScaleDetector.rotateHist (ScaleDetector.profileOf true) ((12 - 3) % 12)) 6 (by decide)
      (by exact pearson_major_self) hall hbef
    exact ⟨by rw [e]; rfl, by rw [e]; show (1 : ℝ) ≥ 0.9; norm_num⟩
  · -- root 4, minor
    have hall : ∀ j, j < 24 →
        ((ScaleDetector.keyCandidates (ScaleDetector.rotateHist (ScaleDetector.profileOf false) ((12 - 4) % 12))).getD j ScaleDetector.cdflt).2 ≤ 1 := by
      intro j hj
      interval_cases j
      · exact le_of_lt (pearson_cross_lt_one 8 (by decide) false true (Or.inl (by decide)))
      · exact le_of_lt (pearson_cross_lt_one 8 (by decide) false false (Or.inl (by decide)))
      · exact le_of_lt (pearson_cross_lt_one 9 (by decide) false true (Or.inl (by decide)))
      · exact le_of_lt (pearson_cross_lt_one 9 (by decide) false false (Or.inl (by decide)))
      · exact le_of_lt (pearson_cross_lt_one 10 (by decide) false true (Or.inl (by decide)))
      · exact le_of_lt (pearson_cross_lt_one 10 (by decide) false false (Or.inl (by decide)))
      · exact le_of_lt (pearson_cross_lt_one 11 (by decide) false true (Or.inl (by decide)))
      · exact le_of_lt (pearson_cross_lt_one 11 (by decide) false false (Or.inl (by decide)))
      · exact le_of_lt (pearson_cross_lt_one 0 (by decide) false true (Or.inr (by decide)))
      · exact le_of_eq (by exact pearson_minor_self)
      · exact le_of_lt (pearson_cross_lt_one 1 (by decide) false true (Or.inl (by decide)))
      · exact le_of_lt (pearson_cross_lt_one 1 (by decide) false false (Or.inl (by decide)))
      · exact le_of_lt (pearson_cross_lt_one 2 (by decide) false true (Or.inl (by decide)))
      · exact le_of_lt (pearson_cross_lt_one 2 (by decide) false false (Or.inl (by decide)))
      · exact le_of_lt (pearson_cross_lt_one 3 (by decide) false true (Or.inl (by decide)))
      · exact le_of_lt (pearson_cross_lt_one 3 (by decide) false false (Or.inl (by decide)))
      · exact le_of_lt (pearson_cross_lt_one 4 (by decide) false true (Or.inl (by decide)))
      · exact le_of_lt (pearson_cross_lt_one 4 (by decide) false false (Or.inl (by decide)))
      · exact le_of_lt (pearson_cross_lt_one 5 (by decide) false true (Or.inl (by decide)))
      · exact le_of_lt (pearson_cross_lt_one 5 (by decide) false false (Or.inl (by decide)))
      · exact le_of_lt (pearson_cross_lt_one 6 (by decide) false true (Or.inl (by decide)))
      · exact le_of_lt (pearson_cross_lt_one 6 (by decide) false false (Or.inl (by decide)))
      · exact le_of_lt (pearson_cross_lt_one 7 (by decide) false true (Or.inl (by decide)))
      · exact le_of_lt (pearson_cross_lt_one 7 (by decide) false false (Or.inl (by decide)))
    have hbef : ∀ j, j < 9 →
        ((ScaleDetector.keyCandidates (ScaleDetector.rotateHist (ScaleDetector.profileOf false) ((12 - 4) % 12))).getD j ScaleDetector.cdflt).2 < 1 := by
      intro j hj
      interval_cases j
      · exact pearson_cross_lt_one 8 (by decide) false true (Or.inl (by decide))
      · exact pearson_cross_lt_one 8 (by decide) false false (Or.inl (by decide))
      · exact pearson_cross_lt_one 9 (by decide) false true (Or.inl (by decide))
      · exact pearson_cross_lt_one 9 (by decide) false false (Or.inl (by decide))
      · exact pearson_cross_lt_one 10 (by decide) false true (Or.inl (by decide))
      · exact pearson_cross_lt_one 10 (by decide) false false (Or.inl (by decide))
      · exact pearson_cross_lt_one 11 (by decide) false true (Or.inl (by decide))
      · exact pearson_cross_lt_one 11 (by decide) false false (Or.inl (by decide))
      · exact pearson_cross_lt_one 0 (by decide) false true (Or.inr (by decide))
    have e := find_best_key_of_uniqueMax (ScaleDetector.rotateHist (ScaleDetector.profileOf false) ((12 - 4) % 12)) 9 (by decide)
      (by exact pearson_minor_self) hall hbef
    exact ⟨by rw [e]; rfl, by rw [e]; show (1 : ℝ) ≥ 0.9; norm_num⟩
  · -- root 4, major
    have hall : ∀ j, j < 24 →
        ((ScaleDetector.keyCandidates (ScaleDetector.rotateHist (ScaleDetector.profileOf true) ((12 - 4) % 12))).getD j ScaleDetector.cdflt).2 ≤ 1 := by
      intro j hj
      interval_cases j
      · exact le_of_lt (pearson_cross_lt_one 8 (by decide) true true (Or.inl (by decide)))
      · exact le_of_lt (pearson_cross_lt_one 8 (by decide) true false (Or.inl (by decide)))
      · exact le_of_lt (pearson_cross_lt_one 9 (by decide) true true (Or.inl (by decide)))
      · exact le_of_lt (pearson_cross_lt_one 9 (by decide) true false (Or.inl (by decide)))
      · exact le_of_lt (pearson_cross_lt_one 10 (by decide) true true (Or.inl (by decide)))
      · exact le_of_lt (pearson_cross_lt_one 10 (by decide) true false (Or.inl (by decide)))
      · exact le_of_lt (pearson_cross_lt_one 11 (by decide) true true (Or.inl (by decide)))
      · exact le_of_lt (pearson_cross_lt_one 11 (by decide) true false (Or.inl (by decide)))
      · exact le_of_eq (by exact pearson_major_self)
      · exact le_of_lt (pearson_cross_lt_one 0 (by decide) true false (Or.inr (by decide)))
      · exact le_of_lt (pearson_cross_lt_one 1 (by decide) true true (Or.inl (by decide)))
      · exact le_of_lt (pearson_cross_lt_one 1 (by decide) true false (Or.inl (by decide)))
      · exact le_of_lt (pearson_cross_lt_one 2 (by decide) true true (Or.inl (by decide)))
      · exact le_of_lt (pearson_cross_lt_one 2 (by decide) true false (Or.inl (by decide)))
      · exact le_of_lt (pearson_cross_lt_one 3 (by decide) true true (Or.inl (by decide)))
      · exact le_of_lt (pearson_cross_lt_one 3 (by decide) true false (Or.inl (by decide)))
      · exact le_of_lt (pearson_cross_lt_one 4 (by decide) true true (Or.inl (by decide)))
      · exact le_of_lt (pearson_cross_lt_one 4 (by decide) true false (Or.inl (by decide)))
      · exact le_of_lt (pearson_cross_lt_one 5 (by decide) true true (Or.inl (by decide)))
      · exact le_of_lt (pearson_cross_lt_one 5 (by decide) true false (Or.inl (by decide)))
      · exact le_of_lt (pearson_cross_lt_one 6 (by decide) true true (Or.inl (by decide)))
      · exact le_of_lt (pearson_cross_lt_one 6 (by decide) true false (Or.inl (by decide)))
      · exact le_of_lt (pearson_cross_lt_one 7 (by decide) true true (Or.inl (by decide)))
      · exact le_of_lt (pearson_cross_lt_one 7 (by decide) true false (Or.inl (by decide)))
    have hbef : ∀ j, j < 8 →
        ((ScaleDetector.keyCandidates (ScaleDetector.rotateHist (ScaleDetector.profileOf true) ((12 - 4) % 12))).getD j ScaleDetector.cdflt).2 < 1 := by
      intro j hj
      interval_cases j
      · exact pearson_cross_lt_one 8 (by decide) true true (Or.inl (by decide))
      · exact pearson_cross_lt_one 8 (by decide) true false (Or.inl (by decide))
      · exact pearson_cross_lt_one 9 (by decide) true true (Or.inl (by decide))
      · exact pearson_cross_lt_one 9 (by decide) true false (Or.inl (by decide))
      · exact pearson_cross_lt_one 10 (by decide) true true (Or.inl (by decide))
      · exact pearson_cross_lt_one 10 (by decide) true false (Or.inl (by decide))
      · exact pearson_cross_lt_one 11 (by decide) true true (Or.inl (by decide))
      · exact pearson_cross_lt_one 11 (by decide) true false (Or.inl (by decide))
    have e := find_best_key_of_uniqueMax (ScaleDetector.rotateHist (ScaleDetector.profileOf true) ((12 - 4) % 12)) 8 (by decide)
      (by exact pearson_major_self) hall hbef
    exact ⟨by rw [e]; rfl, by rw [e]; show (1 : ℝ) ≥ 0.9; norm_num⟩
  · -- root 5, minor
    have hall : ∀ j, j < 24 →
        ((ScaleDetector.keyCandidates (ScaleDetector.rotateHist (ScaleDetector.profileOf false) ((12 - 5) % 12))).getD j ScaleDetector.cdflt).2 ≤ 1 := by
      intro j hj
      interval_cases j
      · exact le_of_lt (pearson_cross_lt_one 7 (by decide) false true (Or.inl (by decide)))
      · exact le_of_lt (pearson_cross_lt_one 7 (by decide) false false (Or.inl (by decide)))
      · exact le_of_lt (pearson_cross_lt_one 8 (by decide) false true (Or.inl (by decide)))
      · exact le_of_lt (pearson_cross_lt_one 8 (by decide) false false (Or.inl (by decide)))
      · exact le_of_lt (pearson_cross_lt_one 9 (by decide) false true (Or.inl (by decide)))
      · exact le_of_lt (pearson_cross_lt_one 9 (by decide) false false (Or.inl (by decide)))
      · exact le_of_lt (pearson_cross_lt_one 10 (by decide) false true (Or.inl (by decide)))
      · exact le_of_lt (pearson_cross_lt_one 10 (by decide) false false (Or.inl (by decide)))
      · exact le_of_lt (pearson_cross_lt_one 11 (by decide) false true (Or.inl (by decide)))
      · exact le_of_lt (pearson_cross_lt_one 11 (by decide) false false (Or.inl (by decide)))
      · exact le_of_lt (pearson_cross_lt_one 0 (by decide) false true (Or.inr (by decide)))
      · exact le_of_eq (by exact pearson_minor_self)
      · exact le_of_lt (pearson_cross_lt_one 1 (by decide) false true (Or.inl (by decide)))
      · exact le_of_lt (pearson_cross_lt_one 1 (by decide) false false (Or.inl (by decide)))
      · exact le_of_lt (pearson_cross_lt_one 2 (by decide) false true (Or.inl (by decide)))
      · exact le_of_lt (pearson_cross_lt_one 2 (by decide) false false (Or.inl (by decide)))
      · exact le_of_lt (pearson_cross_lt_one 3 (by decide) false true (Or.inl (by decide)))
      · exact le_of_lt (pearson_cross_lt_one 3 (by decide) false false (Or.inl (by decide)))
      · exact le_of_lt (pearson_cross_lt_one 4 (by decide) false true (Or.inl (by decide)))
      · exact le_of_lt (pearson_cross_lt_one 4 (by decide) false false (Or.inl (by decide)))
      · exact le_of_lt (pearson_cross_lt_one 5 (by decide) false true (Or.inl (by decide)))
      · exact le_of_lt (pearson_cross_lt_one 5 (by decide) false false (Or.inl (by decide)))
      · exact le_of_lt (pearson_cross_lt_one 6 (by decide) false true (Or.inl (by decide)))
      · exact le_of_lt (pearson_cross_lt_one 6 (by decide) false false (Or.inl (by decide)))
    have hbef : ∀ j, j < 11 →
        ((ScaleDetector.keyCandidates (ScaleDetector.rotateHist (ScaleDetector.profileOf false) ((12 - 5) % 12))).getD j ScaleDetector.cdflt).2 < 1 := by
      intro j hj
      interval_cases j
      · exact pearson_cross_lt_one 7 (by decide) false true (Or.inl (by decide))
      · exact pearson_cross_lt_one 7 (by decide) false false (Or.inl (by decide))
      · exact pearson_cross_lt_one 8 (by decide) false true (Or.inl (by decide))
      · exact pearson_cross_lt_one 8 (by decide) false false (Or.inl (by decide))
      · exact pearson_cross_lt_one 9 (by decide) false true (Or.inl (by decide))
      · exact pearson_cross_lt_one 9 (by decide) false false (Or.inl (by decide))
      · exact pearson_cross_lt_one 10 (by decide) false true (Or.inl (by decide))
      · exact pearson_cross_lt_one 10 (by decide) false false (Or.inl (by decide))
      · exact pearson_cross_lt_one 11 (by decide) false true (Or.inl (by decide))
      · exact pearson_cross_lt_one 11 (by decide) false false (Or.inl (by decide))
      · exact pearson_cross_lt_one 0 (by decide) false true (Or.inr (by decide))
    have e := find_best_key_of_uniqueMax (ScaleDetector.rotateHist (ScaleDetector.profileOf false) ((12 - 5) % 12)) 11 (by decide)
      (by exact pearson_minor_self) hall hbef
    exact ⟨by rw [e]; rfl, by rw [e]; show (1 : ℝ) ≥ 0.9; norm_num⟩
  · -- root 5, major
    have hall : ∀ j, j < 24 →
        ((ScaleDetector.keyCandidates (ScaleDetector.rotateHist (ScaleDetector.profileOf true) ((12 - 5) % 12))).getD j ScaleDetector.cdflt).2 ≤ 1 := by
      intro j hj
      interval_cases j
      · exact le_of_lt (pearson_cross_lt_one 7 (by decide) true true (Or.inl (by decide)))
      · exact le_of_lt (pearson_cross_lt_one 7 (by decide) true false (Or.inl (by decide)))
      · exact le_of_lt (pearson_cross_lt_one 8 (by decide) true true (Or.inl (by decide)))
      · exact le_of_lt (pearson_cross_lt_one 8 (by decide) true false (Or.inl (by decide)))
      · exact le_of_lt (pearson_cross_lt_one 9 (by decide) true true (Or.inl (by decide)))
      · exact le_of_lt (pearson_cross_lt_one 9 (by decide) true false (Or.inl (by decide)))
      · exact le_of_lt (pearson_cross_lt_one 10 (by decide) true true (Or.inl (by decide)))
      · exact le_of_lt (pearson_cross_lt_one 10 (by decide) true false (Or.inl (by decide)))
      · exact le_of_lt (pearson_cross_lt_one 11 (by decide) true true (Or.inl (by decide)))
      · exact le_of_lt (pearson_cross_lt_one 11 (by decide) true false (Or.inl (by decide)))
      · exact le_of_eq (by exact pearson_major_self)
      · exact le_of_lt (pearson_cross_lt_one 0 (by decide) true false (Or.inr (by decide)))
      · exact le_of_lt (pearson_cross_lt_one 1 (by decide) true true (Or.inl (by decide)))
      · exact le_of_lt (pearson_cross_lt_one 1 (by decide) true false (Or.inl (by decide)))
      · exact le_of_lt (pearson_cross_lt_one 2 (by decide) true true (Or.inl (by decide)))
      · exact le_of_lt (pearson_cross_lt_one 2 (by decide) true false (Or.inl (by decide)))
      · exact le_of_lt (pearson_cross_lt_one 3 (by decide) true true (Or.inl (by decide)))
      · exact le_of_lt (pearson_cross_lt_one 3 (by decide) true false (Or.inl (by decide)))
      · exact le_of_lt (pearson_cross_lt_one 4 (by decide) true true (Or.inl (by decide)))
      · exact le_of_lt (pearson_cross_lt_one 4 (by decide) true false (Or.inl (by decide)))
      · exact le_of_lt (pearson_cross_lt_one 5 (by decide) true true (Or.inl (by decide)))
      · exact le_of_lt (pearson_cross_lt_one 5 (by decide) true false (Or.inl (by decide)))
      · exact le_of_lt (pearson_cross_lt_one 6 (by decide) true true (Or.inl (by decide)))
      · exact le_of_lt (pearson_cross_lt_one 6 (by decide) true false (Or.inl (by decide)))
    have hbef : ∀ j, j < 10 →
        ((ScaleDetector.keyCandidates (ScaleDetector.rotateHist (ScaleDetector.profileOf true) ((12 - 5) % 12))).getD j ScaleDetector.cdflt).2 < 1 := by
      intro j hj
      interval_cases j
      · exact pearson_cross_lt_one 7 (by decide) true true (Or.inl (by decide))
      · exact pearson_cross_lt_one 7 (by decide) true false (Or.inl (by decide))
      · exact pearson_cross_lt_one 8 (by decide) true true (Or.inl (by decide))
      · exact pearson_cross_lt_one 8 (by decide) true false (Or.inl (by decide))
      · exact pearson_cross_lt_one 9 (by decide) true true (Or.inl (by decide))
      · exact pearson_cross_lt_one 9 (by decide) true false (Or.inl (by decide))
      · exact pearson_cross_lt_one 10 (by decide) true true (Or.inl (by decide))
      · exact pearson_cross_lt_one 10 (by decide) true false (Or.inl (by decide))
      · exact pearson_cross_lt_one 11 (by decide) true true (Or.inl (by decide))
      · exact pearson_cross_lt_one 11 (by decide) true false (Or.inl (by decide))
    have e := find_best_key_of_uniqueMax (ScaleDetector.rotateHist (ScaleDetector.profileOf true) ((12 - 5) % 12)) 10 (by decide)
      (by exact pearson_major_self) hall hbef
    exact ⟨by rw [e]; rfl, by rw [e]; show (1 : ℝ) ≥ 0.9; norm_num⟩
  · -- root 6, minor
    have hall : ∀ j, j < 24 →
        ((ScaleDetector.keyCandidates (ScaleDetector.rotateHist (ScaleDetector.profileOf false) ((12 - 6) % 12))).getD j ScaleDetector.cdflt).2 ≤ 1 := by
      intro j hj
      interval_cases j
      · exact le_of_lt (pearson_cross_lt_one 6 (by decide) false true (Or.inl (by decide)))
      · exact le_of_lt (pearson_cross_lt_one 6 (by decide) false false (Or.inl (by decide)))
      · exact le_of_lt (pearson_cross_lt_one 7 (by decide) false true (Or.inl (by decide)))
      · exact le_of_lt (pearson_cross_lt_one 7 (by decide) false false (Or.inl (by decide)))
      · exact le_of_lt (pearson_cross_lt_one 8 (by decide) false true (Or.inl (by decide)))
      · exact le_of_lt (pearson_cross_lt_one 8 (by decide) false false (Or.inl (by decide)))
      · exact le_of_lt (pearson_cross_lt_one 9 (by decide) false true (Or.inl (by decide)))
      · exact le_of_lt (pearson_cross_lt_one 9 (by decide) false false (Or.inl (by decide)))
      · exact le_of_lt (pearson_cross_lt_one 10 (by decide) false true (Or.inl (by decide)))
      · exact le_of_lt (pearson_cross_lt_one 10 (by decide) false false (Or.inl (by decide)))
      · exact le_of_lt (pearson_cross_lt_one 11 (by decide) false true (Or.inl (by decide)))
      · exact le_of_lt (pearson_cross_lt_one 11 (by decide) false false (Or.inl (by decide)))
      · exact le_of_lt (pearson_cross_lt_one 0 (by decide) false true (Or.inr (by decide)))
      · exact le_of_eq (by exact pearson_minor_self)
      · exact le_of_lt (pearson_cross_lt_one 1 (by decide) false true (Or.inl (by decide)))
      · exact le_of_lt (pearson_cross_lt_one 1 (by decide) false false (Or.inl (by decide)))
      · exact le_of_lt (pearson_cross_lt_one 2 (by decide) false true (Or.inl (by decide)))
      · exact le_of_lt (pearson_cross_lt_one 2 (by decide) false false (Or.inl (by decide)))
      · exact le_of_lt (pearson_cross_lt_one 3 (by decide) false true (Or.inl (by decide)))
      · exact le_of_lt (pearson_cross_lt_one 3 (by decide) false false (Or.inl (by decide)))
      · exact le_of_lt (pearson_cross_lt_one 4 (by decide) false true (Or.inl (by decide)))
      · exact le_of_lt (pearson_cross_lt_one 4 (by decide) false false (Or.inl (by decide)))
      · exact le_of_lt (pearson_cross_lt_one 5 (by decide) false true (Or.inl (by decide)))
      · exact le_of_lt (pearson_cross_lt_one 5 (by decide) false false (Or.inl (by decide)))
    have hbef : ∀ j, j < 13 →
        ((ScaleDetector.keyCandidates (ScaleDetector.rotateHist (ScaleDetector.profileOf false) ((12 - 6) % 12))).getD j ScaleDetector.cdflt).2 < 1 := by
      intro j hj
      interval_cases j
      · exact pearson_cross_lt_one 6 (by decide) false true (Or.inl (by decide))
      · exact pearson_cross_lt_one 6 (by decide) false false (Or.inl (by decide))
      · exact pearson_cross_lt_one 7 (by decide) false true (Or.inl (by decide))
      · exact pearson_cross_lt_one 7 (by decide) false false (Or.inl (by decide))
      · exact pearson_cross_lt_one 8 (by decide) false true (Or.inl (by decide))
      · exact pearson_cross_lt_one 8 (by decide) false false (Or.inl (by decide))
      · exact pearson_cross_lt_one 9 (by decide) false true (Or.inl (by decide))
      · exact pearson_cross_lt_one 9 (by decide) false false (Or.inl (by decide))
      · exact pearson_cross_lt_one 10 (by decide) false true (Or.inl (by decide))
      · exact pearson_cross_lt_one 10 (by decide) false false (Or.inl (by decide))
      · exact pearson_cross_lt_one 11 (by decide) false true (Or.inl (by decide))
      · exact pearson_cross_lt_one 11 (by decide) false false (Or.inl (by decide))
      · exact pearson_cross_lt_one 0 (by decide) false true (Or.inr (by decide))
    have e := find_best_key_of_uniqueMax (ScaleDetector.rotateHist (ScaleDetector.profileOf false) ((12 - 6) % 12)) 13 (by decide)
      (by exact pearson_minor_self) hall hbef
    exact ⟨by rw [e]; rfl, by rw [e]; show (1 : ℝ) ≥ 0.9; norm_num⟩
  · -- root 6, major
    have hall : ∀ j, j < 24 →
        ((ScaleDetector.keyCandidates (ScaleDetector.rotateHist (ScaleDetector.profileOf true) ((12 - 6) % 12))).getD j ScaleDetector.cdflt).2 ≤ 1 := by
      intro j hj
      interval_cases j
      · exact le_of_lt (pearson_cross_lt_one 6 (by decide) true true (Or.inl (by decide)))
      · exact le_of_lt (pearson_cross_lt_one 6 (by decide) true false (Or.inl (by decide)))
      · exact le_of_lt (pearson_cross_lt_one 7 (by decide) true true (Or.inl (by decide)))
      · exact le_of_lt (pearson_cross_lt_one 7 (by decide) true false (Or.inl (by decide)))
      · exact le_of_lt (pearson_cross_lt_one 8 (by decide) true true (Or.inl (by decide)))
      · exact le_of_lt (pearson_cross_lt_one 8 (by decide) true false (Or.inl (by decide)))
      · exact le_of_lt (pearson_cross_lt_one 9 (by decide) true true (Or.inl (by decide)))
      · exact le_of_lt (pearson_cross_lt_one 9 (by decide) true false (Or.inl (by decide)))
      · exact le_of_lt (pearson_cross_lt_one 10 (by decide) true true (Or.inl (by decide)))
      · exact le_of_lt (pearson_cross_lt_one 10 (by decide) true false (Or.inl (by decide)))
      · exact le_of_lt (pearson_cross_lt_one 11 (by decide) true true (Or.inl (by decide)))
      · exact le_of_lt (pearson_cross_lt_one 11 (by decide) true false (Or.inl (by decide)))
      · exact le_of_eq (by exact pearson_major_self)
      · exact le_of_lt (pearson_cross_lt_one 0 (by decide) true false (Or.inr (by decide)))
      · exact le_of_lt (pearson_cross_lt_one 1 (by decide) true true (Or.inl (by decide)))
      · exact le_of_lt (pearson_cross_lt_one 1 (by decide) true false (Or.inl (by decide)))
      · exact le_of_lt (pearson_cross_lt_one 2 (by decide) true true (Or.inl (by decide)))
      · exact le_of_lt (pearson_cross_lt_one 2 (by decide) true false (Or.inl (by decide)))
      · exact le_of_lt (pearson_cross_lt_one 3 (by decide) true true (Or.inl (by decide)))
      · exact le_of_lt (pearson_cross_lt_one 3 (by decide) true false (Or.inl (by decide)))
      · exact le_of_lt (pearson_cross_lt_one 4 (by decide) true true (Or.inl (by decide)))
      · exact le_of_lt (pearson_cross_lt_one 4 (by decide) true false (Or.inl (by decide)))
      · exact le_of_lt (pearson_cross_lt_one 5 (by decide) true true (Or.inl (by decide)))
      · exact le_of_lt (pearson_cross_lt_one 5 (by decide) true false (Or.inl (by decide)))
    have hbef : ∀ j, j < 12 →
        ((ScaleDetector.keyCandidates (ScaleDetector.rotateHist (ScaleDetector.profileOf true) ((12 - 6) % 12))).getD j ScaleDetector.cdflt).2 < 1 := by
      intro j hj
      interval_cases j
      · exact pearson_cross_lt_one 6 (by decide) true true (Or.inl (by decide))
      · exact pearson_cross_lt_one 6 (by decide) true false (Or.inl (by decide))
      · exact pearson_cross_lt_one 7 (by decide) true true (Or.inl (by decide))
      · exact pearson_cross_lt_one 7 (by decide) true false (Or.inl (by decide))
      · exact pearson_cross_lt_one 8 (by decide) true true (Or.inl (by decide))
      · exact pearson_cross_lt_one 8 (by decide) true false (Or.inl (by decide))
      · exact pearson_cross_lt_one 9 (by decide) true true (Or.inl (by decide))
      · exact pearson_cross_lt_one 9 (by decide) true false (Or.inl (by decide))
      · exact pearson_cross_lt_one 10 (by decide) true true (Or.inl (by decide))
      · exact pearson_cross_lt_one 10 (by decide) true false (Or.inl (by decide))
      · exact pearson_cross_lt_one 11 (by decide) true true (Or.inl (by decide))
      · exact pearson_cross_lt_one 11 (by decide) true false (Or.inl (by decide))
    have e := find_best_key_of_uniqueMax (ScaleDetector.rotateHist (ScaleDetector.profileOf true) ((12 - 6) % 12)) 12 (by decide)
      (by exact pearson_major_self) hall hbef
    exact ⟨by rw [e]; rfl, by rw [e]; show (1 : ℝ) ≥ 0.9; norm_num⟩
  · -- root 7, minor
    have hall : ∀ j, j < 24 →
        ((ScaleDetector.keyCandidates (ScaleDetector.rotateHist (ScaleDetector.profileOf false) ((12 - 7) % 12))).getD j ScaleDetector.cdflt).2 ≤ 1 := by
      intro j hj
      interval_cases j
      · exact le_of_lt (pearson_cross_lt_one 5 (by decide) false true (Or.inl (by decide)))
      · exact le_of_lt (pearson_cross_lt_one 5 (by decide) false false (Or.inl (by decide)))
      · exact le_of_lt (pearson_cross_lt_one 6 (by decide) false true (Or.inl (by decide)))
      · exact le_of_lt (pearson_cross_lt_one 6 (by decide) false false (Or.inl (by decide)))
      · exact le_of_lt (pearson_cross_lt_one 7 (by decide) false true (Or.inl (by decide)))
      · exact le_of_lt (pearson_cross_lt_one 7 (by decide) false false (Or.inl (by decide)))
      · exact le_of_lt (pearson_cross_lt_one 8 (by decide) false true (Or.inl (by decide)))
      · exact le_of_lt (pearson_cross_lt_one 8 (by decide) false false (Or.inl (by decide)))
      · exact le_of_lt (pearson_cross_lt_one 9 (by decide) false true (Or.inl (by decide)))
      · exact le_of_lt (pearson_cross_lt_one 9 (by decide) false false (Or.inl (by decide)))
      · exact le_of_lt (pearson_cross_lt_one 10 (by decide) false true (Or.inl (by decide)))
      · exact le_of_lt (pearson_cross_lt_one 10 (by decide) false false (Or.inl (by decide)))
      · exact le_of_lt (pearson_cross_lt_one 11 (by decide) false true (Or.inl (by decide)))
      · exact le_of_lt (pearson_cross_lt_one 11 (by decide) false false (Or.inl (by decide)))
      · exact le_of_lt (pearson_cross_lt_one 0 (by decide) false true (Or.inr (by decide)))
      · exact le_of_eq (by exact pearson_minor_self)
      · exact le_of_lt (pearson_cross_lt_one 1 (by decide) false true (Or.inl (by decide)))
      · exact le_of_lt (pearson_cross_lt_one 1 (by decide) false false (Or.inl (by decide)))
      · exact le_of_lt (pearson_cross_lt_one 2 (by decide) false true (Or.inl (by decide)))
      · exact le_of_lt (pearson_cross_lt_one 2 (by decide) false false (Or.inl (by decide)))
      · exact le_of_lt (pearson_cross_lt_one 3 (by decide) false true (Or.inl (by decide)))
      · exact le_of_lt (pearson_cross_lt_one 3 (by decide) false false (Or.inl (by decide)))
      · exact le_of_lt (pearson_cross_lt_one 4 (by decide) false true (Or.inl (by decide)))
      · exact le_of_lt (pearson_cross_lt_one 4 (by decide) false false (Or.inl (by decide)))
    have hbef : ∀ j, j < 15 →
        ((ScaleDetector.keyCandidates (ScaleDetector.rotateHist (ScaleDetector.profileOf false) ((12 - 7) % 12))).getD j ScaleDetector.cdflt).2 < 1 := by
      intro j hj
      interval_cases j
      · exact pearson_cross_lt_one 5 (by decide) false true (Or.inl (by decide))
      · exact pearson_cross_lt_one 5 (by decide) false false (Or.inl (by decide))
      · exact pearson_cross_lt_one 6 (by decide) false true (Or.inl (by decide))
      · exact pearson_cross_lt_one 6 (by decide) false false (Or.inl (by decide))
      · exact pearson_cross_lt_one 7 (by decide) false true (Or.inl (by decide))
      · exact pearson_cross_lt_one 7 (by decide) false false (Or.inl (by decide))
      · exact pearson_cross_lt_one 8 (by decide) false true (Or.inl (by decide))
      · exact pearson_cross_lt_one 8 (by decide) false false (Or.inl (by decide))
      · exact pearson_cross_lt_one 9 (by decide) false true (Or.inl (by decide))
      · exact pearson_cross_lt_one 9 (by decide) false false (Or.inl (by decide))
      · exact pearson_cross_lt_one 10 (by decide) false true (Or.inl (by decide))
      · exact pearson_cross_lt_one 10 (by decide) false false (Or.inl (by decide))
      · exact pearson_cross_lt_one 11 (by decide) false true (Or.inl (by decide))
      · exact pearson_cross_lt_one 11 (by decide) false false (Or.inl (by decide))
      · exact pearson_cross_lt_one 0 (by decide) false true (Or.inr (by decide))
    have e := find_best_key_of_uniqueMax (ScaleDetector.rotateHist (ScaleDetector.profileOf false) ((12 - 7) % 12)) 15 (by decide)
      (by exact pearson_minor_self) hall hbef
    exact ⟨by rw [e]; rfl, by rw [e]; show (1 : ℝ) ≥ 0.9; norm_num⟩
  · -- root 7, major
    have hall : ∀ j, j < 24 →
        ((ScaleDetector.keyCandidates (ScaleDetector.rotateHist (ScaleDetector.profileOf true) ((12 - 7) % 12))).getD j ScaleDetector.cdflt).2 ≤ 1 := by
      intro j hj
      interval_cases j
      · exact le_of_lt (pearson_cross_lt_one 5 (by decide) true true (Or.inl (by decide)))
      · exact le_of_lt (pearson_cross_lt_one 5 (by decide) true false (Or.inl (by decide)))
      · exact le_of_lt (pearson_cross_lt_one 6 (by decide) true true (Or.inl (by decide)))
      · exact le_of_lt (pearson_cross_lt_one 6 (by decide) true false (Or.inl (by decide)))
      · exact le_of_lt (pearson_cross_lt_one 7 (by decide) true true (Or.inl (by decide)))
      · exact le_of_lt (pearson_cross_lt_one 7 (by decide) true false (Or.inl (by decide)))
      · exact le_of_lt (pearson_cross_lt_one 8 (by decide) true true (Or.inl (by decide)))
      · exact le_of_lt (pearson_cross_lt_one 8 (by decide) true false (Or.inl (by decide)))
      · exact le_of_lt (pearson_cross_lt_one 9 (by decide) true true (Or.inl (by decide)))
      · exact le_of_lt (pearson_cross_lt_one 9 (by decide) true false (Or.inl (by decide)))
      · exact le_of_lt (pearson_cross_lt_one 10 (by decide) true true (Or.inl (by decide)))
      · exact le_of_lt (pearson_cross_lt_one 10 (by decide) true false (Or.inl (by decide)))
      · exact le_of_lt (pearson_cross_lt_one 11 (by decide) true true (Or.inl (by decide)))
      · exact le_of_lt (pearson_cross_lt_one 11 (by decide) true false (Or.inl (by decide)))
      · exact le_of_eq (by exact pearson_major_self)
      · exact le_of_lt (pearson_cross_lt_one 0 (by decide) true false (Or.inr (by decide)))
      · exact le_of_lt (pearson_cross_lt_one 1 (by decide) true true (Or.inl (by decide)))
      · exact le_of_lt (pearson_cross_lt_one 1 (by decide) true false (Or.inl (by decide)))
      · exact le_of_lt (pearson_cross_lt_one 2 (by decide) true true (Or.inl (by decide)))
      · exact le_of_lt (pearson_cross_lt_one 2 (by decide) true false (Or.inl (by decide)))
      · exact le_of_lt (pearson_cross_lt_one 3 (by decide) true true (Or.inl (by decide)))
      · exact le_of_lt (pearson_cross_lt_one 3 (by decide) true false (Or.inl (by decide)))
      · exact le_of_lt (pearson_cross_lt_one 4 (by decide) true true (Or.inl (by decide)))
      · exact le_of_lt (pearson_cross_lt_one 4 (by decide) true false (Or.inl (by decide)))
    have hbef : ∀ j, j < 14 →
        ((ScaleDetector.keyCandidates (ScaleDetector.rotateHist (ScaleDetector.profileOf true) ((12 - 7) % 12))).getD j ScaleDetector.cdflt).2 < 1 := by
      intro j hj
      interval_cases j
      · exact pearson_cross_lt_one 5 (by decide) true true (Or.inl (by decide))
      · exact pearson_cross_lt_one 5 (by decide) true false (Or.inl (by decide))
      · exact pearson_cross_lt_one 6 (by decide) true true (Or.inl (by decide))
      · exact pearson_cross_lt_one 6 (by decide) true false (Or.inl (by decide))
      · exact pearson_cross_lt_one 7 (by decide) true true (Or.inl (by decide))
      · exact pearson_cross_lt_one 7 (by decide) true false (Or.inl (by decide))
      · exact pearson_cross_lt_one 8 (by decide) true true (Or.inl (by decide))
      · exact pearson_cross_lt_one 8 (by decide) true false (Or.inl (by decide))
      · exact pearson_cross_lt_one 9 (by decide) true true (Or.inl (by decide))
      · exact pearson_cross_lt_one 9 (by decide) true false (Or.inl (by decide))
      · exact pearson_cross_lt_one 10 (by decide) true true (Or.inl (by decide))
      · exact pearson_cross_lt_one 10 (by decide) true false (Or.inl (by decide))
      · exact pearson_cross_lt_one 11 (by decide) true true (Or.inl (by decide))
      · exact pearson_cross_lt_one 11 (by decide) true false (Or.inl (by decide))
    have e := find_best_key_of_uniqueMax (ScaleDetector.rotateHist (ScaleDetector.profileOf true) ((12 - 7) % 12)) 14 (by decide)
      (by exact pearson_major_self) hall hbef
    exact ⟨by rw [e]; rfl, by rw [e]; show (1 : ℝ) ≥ 0.9; norm_num⟩
  · -- root 8, minor
    have hall : ∀ j, j < 24 →
        ((ScaleDetector.keyCandidates (ScaleDetector.rotateHist (ScaleDetector.profileOf false) ((12 - 8) % 12))).getD j ScaleDetector.cdflt).2 ≤ 1 := by
      intro j hj
      interval_cases j
      · exact le_of_lt (pearson_cross_lt_one 4 (by decide) false true (Or.inl (by decide)))
      · exact le_of_lt (pearson_cross_lt_one 4 (by decide) false false (Or.inl (by decide)))
      · exact le_of_lt (pearson_cross_lt_one 5 (by decide) false true (Or.inl (by decide)))
      · exact le_of_lt (pearson_cross_lt_one 5 (by decide) false false (Or.inl (by decide)))
      · exact le_of_lt (pearson_cross_lt_one 6 (by decide) false true (Or.inl (by decide)))
      · exact le_of_lt (pearson_cross_lt_one 6 (by decide) false false (Or.inl (by decide)))
      · exact le_of_lt (pearson_cross_lt_one 7 (by decide) false true (Or.inl (by decide)))
      · exact le_of_lt (pearson_cross_lt_one 7 (by decide) false false (Or.inl (by decide)))
      · exact le_of_lt (pearson_cross_lt_one 8 (by decide) false true (Or.inl (by decide)))
      · exact le_of_lt (pearson_cross_lt_one 8 (by decide) false false (Or.inl (by decide)))
      · exact le_of_lt (pearson_cross_lt_one 9 (by decide) false true (Or.inl (by decide)))
      · exact le_of_lt (pearson_cross_lt_one 9 (by decide) false false (Or.inl (by decide)))
      · exact le_of_lt (pearson_cross_lt_one 10 (by decide) false true (Or.inl (by decide)))
      · exact le_of_lt (pearson_cross_lt_one 10 (by decide) false false (Or.inl (by decide)))
      · exact le_of_lt (pearson_cross_lt_one 11 (by decide) false true (Or.inl (by decide)))
      · exact le_of_lt (pearson_cross_lt_one 11 (by decide) false false (Or.inl (by decide)))
      · exact le_of_lt (pearson_cross_lt_one 0 (by decide) false true (Or.inr (by decide)))
      · exact le_of_eq (by exact pearson_minor_self)
      · exact le_of_lt (pearson_cross_lt_one 1 (by decide) false true (Or.inl (by decide)))
      · exact le_of_lt (pearson_cross_lt_one 1 (by decide) false false (Or.inl (by decide)))
      · exact le_of_lt (pearson_cross_lt_one 2 (by decide) false true (Or.inl (by decide)))
      · exact le_of_lt (pearson_cross_lt_one 2 (by decide) false false (Or.inl (by decide)))
      · exact le_of_lt (pearson_cross_lt_one 3 (by decide) false true (Or.inl (by decide)))
      · exact le_of_lt (pearson_cross_lt_one 3 (by decide) false false (Or.inl (by decide)))
    have hbef : ∀ j, j < 17 →
        ((ScaleDetector.keyCandidates (ScaleDetector.rotateHist (ScaleDetector.profileOf false) ((12 - 8) % 12))).getD j ScaleDetector.cdflt).2 < 1 := by
      intro j hj
      interval_cases j
      · exact pearson_cross_lt_one 4 (by decide) false true (Or.inl (by decide))
      · exact pearson_cross_lt_one 4 (by decide) false false (Or.inl (by decide))
      · exact pearson_cross_lt_one 5 (by decide) false true (Or.inl (by decide))
      · exact pearson_cross_lt_one 5 (by decide) false false (Or.inl (by decide))
      · exact pearson_cross_lt_one 6 (by decide) false true (Or.inl (by decide))
      · exact pearson_cross_lt_one 6 (by decide) false false (Or.inl (by decide))
      · exact pearson_cross_lt_one 7 (by decide) false true (Or.inl (by decide))
      · exact pearson_cross_lt_one 7 (by decide) false false (Or.inl (by decide))
      · exact pearson_cross_lt_one 8 (by decide) false true (Or.inl (by decide))
      · exact pearson_cross_lt_one 8 (by decide) false false (Or.inl (by decide))
      · exact pearson_cross_lt_one 9 (by decide) false true (Or.inl (by decide))
      · exact pearson_cross_lt_one 9 (by decide) false false (Or.inl (by decide))
      · exact pearson_cross_lt_one 10 (by decide) false true (Or.inl (by decide))
      · exact pearson_cross_lt_one 10 (by decide) false false (Or.inl (by decide))
      · exact pearson_cross_lt_one 11 (by decide) false true (Or.inl (by decide))
      · exact pearson_cross_lt_one 11 (by decide) false false (Or.inl (by decide))
      · exact pearson_cross_lt_one 0 (by decide) false true (Or.inr (by decide))
    have e := find_best_key_of_uniqueMax (ScaleDetector.rotateHist (ScaleDetector.profileOf false) ((12 - 8) % 12)) 17 (by decide)
      (by exact pearson_minor_self) hall hbef
    exact ⟨by rw [e]; rfl, by rw [e]; show (1 : ℝ) ≥ 0.9; norm_num⟩
  · -- root 8, major
    have hall : ∀ j, j < 24 →
        ((ScaleDetector.keyCandidates (ScaleDetector.rotateHist (ScaleDetector.profileOf true) ((12 - 8) % 12))).getD j ScaleDetector.cdflt).2 ≤ 1 := by
      intro j hj
      interval_cases j
      · exact le_of_lt (pearson_cross_lt_one 4 (by decide) true true (Or.inl (by decide)))
      · exact le_of_lt (pearson_cross_lt_one 4 (by decide) true false (Or.inl (by decide)))
      · exact le_of_lt (pearson_cross_lt_one 5 (by decide) true true (Or.inl (by decide)))
      · exact le_of_lt (pearson_cross_lt_one 5 (by decide) true false (Or.inl (by decide)))
      · exact le_of_lt (pearson_cross_lt_one 6 (by decide) true true (Or.inl (by decide)))
      · exact le_of_lt (pearson_cross_lt_one 6 (by decide) true false (Or.inl (by decide)))
      · exact le_of_lt (pearson_cross_lt_one 7 (by decide) true true (Or.inl (by decide)))
      · exact le_of_lt (pearson_cross_lt_one 7 (by decide) true false (Or.inl (by decide)))
      · exact le_of_lt (pearson_cross_lt_one 8 (by decide) true true (Or.inl (by decide)))
      · exact le_of_lt (pearson_cross_lt_one 8 (by decide) true false (Or.inl (by decide)))
      · exact le_of_lt (pearson_cross_lt_one 9 (by decide) true true (Or.inl (by decide)))
      · exact le_of_lt (pearson_cross_lt_one 9 (by decide) true false (Or.inl (by decide)))
      · exact le_of_lt (pearson_cross_lt_one 10 (by decide) true true (Or.inl (by decide)))
      · exact le_of_lt (pearson_cross_lt_one 10 (by decide) true false (Or.inl (by decide)))
      · exact le_of_lt (pearson_cross_lt_one 11 (by decide) true true (Or.inl (by decide)))
      · exact le_of_lt (pearson_cross_lt_one 11 (by decide) true false (Or.inl (by decide)))
      · exact le_of_eq (by exact pearson_major_self)
      · exact le_of_lt (pearson_cross_lt_one 0 (by decide) true false (Or.inr (by decide)))
      · exact le_of_lt (pearson_cross_lt_one 1 (by decide) true true (Or.inl (by decide)))
      · exact le_of_lt (pearson_cross_lt_one 1 (by decide) true false (Or.inl (by decide)))
      · exact le_of_lt (pearson_cross_lt_one 2 (by decide) true true (Or.inl (by decide)))
      · exact le_of_lt (pearson_cross_lt_one 2 (by decide) true false (Or.inl (by decide)))
      · exact le_of_lt (pearson_cross_lt_one 3 (by decide) true true (Or.inl (by decide)))
      · exact le_of_lt (pearson_cross_lt_one 3 (by decide) true false (Or.inl (by decide)))
    have hbef : ∀ j, j < 16 →
        ((ScaleDetector.keyCandidates (ScaleDetector.rotateHist (ScaleDetector.profileOf true) ((12 - 8) % 12))).getD j ScaleDetector.cdflt).2 < 1 := by
      intro j hj
      interval_cases j
      · exact pearson_cross_lt_one 4 (by decide) true true (Or.inl (by decide))
      · exact pearson_cross_lt_one 4 (by decide) true false (Or.inl (by decide))
      · exact pearson_cross_lt_one 5 (by decide) true true (Or.inl (by decide))
      · exact pearson_cross_lt_one 5 (by decide) true false (Or.inl (by decide))
      · exact pearson_cross_lt_one 6 (by decide) true true (Or.inl (by decide))
      · exact pearson_cross_lt_one 6 (by decide) true false (Or.inl (by decide))
      · exact pearson_cross_lt_one 7 (by decide) true true (Or.inl (by decide))
      · exact pearson_cross_lt_one 7 (by decide) true false (Or.inl (by decide))
      · exact pearson_cross_lt_one 8 (by decide) true true (Or.inl (by decide))
      · exact pearson_cross_lt_one 8 (by decide) true false (Or.inl (by decide))
      · exact pearson_cross_lt_one 9 (by decide) true true (Or.inl (by decide))
      · exact pearson_cross_lt_one 9 (by decide) true false (Or.inl (by decide))
      · exact pearson_cross_lt_one 10 (by decide) true true (Or.inl (by decide))
      · exact pearson_cross_lt_one 10 (by decide) true false (Or.inl (by decide))
      · exact pearson_cross_lt_one 11 (by decide) true true (Or.inl (by decide))
      · exact pearson_cross_lt_one 11 (by decide) true false (Or.inl (by decide))
    have e := find_best_key_of_uniqueMax (ScaleDetector.rotateHist (ScaleDetector.profileOf true) ((12 - 8) % 12)) 16 (by decide)
      (by exact pearson_major_self) hall hbef
    exact ⟨by rw [e]; rfl, by rw [e]; show (1 : ℝ) ≥ 0.9; norm_num⟩
  · -- root 9, minor
    have hall : ∀ j, j < 24 →
        ((ScaleDetector.keyCandidates (ScaleDetector.rotateHist (ScaleDetector.profileOf false) ((12 - 9) % 12))).getD j ScaleDetector.cdflt).2 ≤ 1 := by
      intro j hj
      interval_cases j
      · exact le_of_lt (pearson_cross_lt_one 3 (by decide) false true (Or.inl (by decide)))
      · exact le_of_lt (pearson_cross_lt_one 3 (by decide) false false (Or.inl (by decide)))
      · exact le_of_lt (pearson_cross_lt_one 4 (by decide) false true (Or.inl (by decide)))
      · exact le_of_lt (pearson_cross_lt_one 4 (by decide) false false (Or.inl (by decide)))
      · exact le_of_lt (pearson_cross_lt_one 5 (by decide) false true (Or.inl (by decide)))
      · exact le_of_lt (pearson_cross_lt_one 5 (by decide) false false (Or.inl (by decide)))
      · exact le_of_lt (pearson_cross_lt_one 6 (by decide) false true (Or.inl (by decide)))
      · exact le_of_lt (pearson_cross_lt_one 6 (by decide) false false (Or.inl (by decide)))
      · exact le_of_lt (pearson_cross_lt_one 7 (by decide) false true (Or.inl (by decide)))
      · exact le_of_lt (pearson_cross_lt_one 7 (by decide) false false (Or.inl (by decide)))
      · exact le_of_lt (pearson_cross_lt_one 8 (by decide) false true (Or.inl (by decide)))
      · exact le_of_lt (pearson_cross_lt_one 8 (by decide) false false (Or.inl (by decide)))
      · exact le_of_lt (pearson_cross_lt_one 9 (by decide) false true (Or.inl (by decide)))
      · exact le_of_lt (pearson_cross_lt_one 9 (by decide) false false (Or.inl (by decide)))
      · exact le_of_lt (pearson_cross_lt_one 10 (by decide) false true (Or.inl (by decide)))
      · exact le_of_lt (pearson_cross_lt_one 10 (by decide) false false (Or.inl (by decide)))
      · exact le_of_lt (pearson_cross_lt_one 11 (by decide) false true (Or.inl (by decide)))
      · exact le_of_lt (pearson_cross_lt_one 11 (by decide) false false (Or.inl (by decide)))
      · exact le_of_lt (pearson_cross_lt_one 0 (by decide) false true (Or.inr (by decide)))
      · exact le_of_eq (by exact pearson_minor_self)
      · exact le_of_lt (pearson_cross_lt_one 1 (by decide) false true (Or.inl (by decide)))
      · exact le_of_lt (pearson_cross_lt_one 1 (by decide) false false (Or.inl (by decide)))
      · exact le_of_lt (pearson_cross_lt_one 2 (by decide) false true (Or.inl (by decide)))
      · exact le_of_lt (pearson_cross_lt_one 2 (by decide) false false (Or.inl (by decide)))
    have hbef : ∀ j, j < 19 →
        ((ScaleDetector.keyCandidates (ScaleDetector.rotateHist (ScaleDetector.profileOf false) ((12 - 9) % 12))).getD j ScaleDetector.cdflt).2 < 1 := by
      intro j hj
      interval_cases j
      · exact pearson_cross_lt_one 3 (by decide) false true (Or.inl (by decide))
      · exact pearson_cross_lt_one 3 (by decide) false false (Or.inl (by decide))
      · exact pearson_cross_lt_one 4 (by decide) false true (Or.inl (by decide))
      · exact pearson_cross_lt_one 4 (by decide) false false (Or.inl (by decide))
      · exact pearson_cross_lt_one 5 (by decide) false true (Or.inl (by decide))
      · exact pearson_cross_lt_one 5 (by decide) false false (Or.inl (by decide))
      · exact pearson_cross_lt_one 6 (by decide) false true (Or.inl (by decide))
      · exact pearson_cross_lt_one 6 (by decide) false false (Or.inl (by decide))
      · exact pearson_cross_lt_one 7 (by decide) false true (Or.inl (by decide))
      · exact pearson_cross_lt_one 7 (by decide) false false (Or.inl (by decide))
      · exact pearson_cross_lt_one 8 (by decide) false true (Or.inl (by decide))
      · exact pearson_cross_lt_one 8 (by decide) false false (Or.inl (by decide))
      · exact pearson_cross_lt_one 9 (by decide) false true (Or.inl (by decide))
      · exact pearson_cross_lt_one 9 (by decide) false false (Or.inl (by decide))
      · exact pearson_cross_lt_one 10 (by decide) false true (Or.inl (by decide))
      · exact pearson_cross_lt_one 10 (by decide) false false (Or.inl (by decide))
      · exact pearson_cross_lt_one 11 (by decide) false true (Or.inl (by decide))
      · exact pearson_cross_lt_one 11 (by decide) false false (Or.inl (by decide))
      · exact pearson_cross_lt_one 0 (by decide) false true (Or.inr (by decide))
    have e := find_best_key_of_uniqueMax (ScaleDetector.rotateHist (ScaleDetector.profileOf false) ((12 - 9) % 12)) 19 (by decide)
      (by exact pearson_minor_self) hall hbef
    exact ⟨by rw [e]; rfl, by rw [e]; show (1 : ℝ) ≥ 0.9; norm_num⟩
  · -- root 9, major
    have hall : ∀ j, j < 24 →
        ((ScaleDetector.keyCandidates (ScaleDetector.rotateHist (ScaleDetector.profileOf true) ((12 - 9) % 12))).getD j ScaleDetector.cdflt).2 ≤ 1 := by
      intro j hj
      interval_cases j
      · exact le_of_lt (pearson_cross_lt_one 3 (by decide) true true (Or.inl (by decide)))
      · exact le_of_lt (pearson_cross_lt_one 3 (by decide) true false (Or.inl (by decide)))
      · exact le_of_lt (pearson_cross_lt_one 4 (by decide) true true (Or.inl (by decide)))
      · exact le_of_lt (pearson_cross_lt_one 4 (by decide) true false (Or.inl (by decide)))
      · exact le_of_lt (pearson_cross_lt_one 5 (by decide) true true (Or.inl (by decide)))
      · exact le_of_lt (pearson_cross_lt_one 5 (by decide) true false (Or.inl (by decide)))
      · exact le_of_lt (pearson_cross_lt_one 6 (by decide) true true (Or.inl (by decide)))
      · exact le_of_lt (pearson_cross_lt_one 6 (by decide) true false (Or.inl (by decide)))
      · exact le_of_lt (pearson_cross_lt_one 7 (by decide) true true (Or.inl (by decide)))
      · exact le_of_lt (pearson_cross_lt_one 7 (by decide) true false (Or.inl (by decide)))
      · exact le_of_lt (pearson_cross_lt_one 8 (by decide) true true (Or.inl (by decide)))
      · exact le_of_lt (pearson_cross_lt_one 8 (by decide) true false (Or.inl (by decide)))
      · exact le_of_lt (pearson_cross_lt_one 9 (by decide) true true (Or.inl (by decide)))
      · exact le_of_lt (pearson_cross_lt_one 9 (by decide) true false (Or.inl (by decide)))
      · exact le_of_lt (pearson_cross_lt_one 10 (by decide) true true (Or.inl (by decide)))
      · exact le_of_lt (pearson_cross_lt_one 10 (by decide) true false (Or.inl (by decide)))
      · exact le_of_lt (pearson_cross_lt_one 11 (by decide) true true (Or.inl (by decide)))
      · exact le_of_lt (pearson_cross_lt_one 11 (by decide) true false (Or.inl (by decide)))
      · exact le_of_eq (by exact pearson_major_self)
      · exact le_of_lt (pearson_cross_lt_one 0 (by decide) true false (Or.inr (by decide)))
      · exact le_of_lt (pearson_cross_lt_one 1 (by decide) true true (Or.inl (by decide)))
      · exact le_of_lt (pearson_cross_lt_one 1 (by decide) true false (Or.inl (by decide)))
      · exact le_of_lt (pearson_cross_lt_one 2 (by decide) true true (Or.inl (by decide)))
      · exact le_of_lt (pearson_cross_lt_one 2 (by decide) true false (Or.inl (by decide)))
    have hbef : ∀ j, j < 18 →
        ((ScaleDetector.keyCandidates (ScaleDetector.rotateHist (ScaleDetector.profileOf true) ((12 - 9) % 12))).getD j ScaleDetector.cdflt).2 < 1 := by
      intro j hj
      interval_cases j
      · exact pearson_cross_lt_one 3 (by decide) true true (Or.inl (by decide))
      · exact pearson_cross_lt_one 3 (by decide) true false (Or.inl (by decide))
      · exact pearson_cross_lt_one 4 (by decide) true true (Or.inl (by decide))
      · exact pearson_cross_lt_one 4 (by decide) true false (Or.inl (by decide))
      · exact pearson_cross_lt_one 5 (by decide) true true (Or.inl (by decide))
      · exact pearson_cross_lt_one 5 (by decide) true false (Or.inl (by decide))
      · exact pearson_cross_lt_one 6 (by decide) true true (Or.inl (by decide))
      · exact pearson_cross_lt_one 6 (by decide) true false (Or.inl (by decide))
      · exact pearson_cross_lt_one 7 (by decide) true true (Or.inl (by decide))
      · exact pearson_cross_lt_one 7 (by decide) true false (Or.inl (by decide))
      · exact pearson_cross_lt_one 8 (by decide) true true (Or.inl (by decide))
      · exact pearson_cross_lt_one 8 (by decide) true false (Or.inl (by decide))
      · exact pearson_cross_lt_one 9 (by decide) true true (Or.inl (by decide))
      · exact pearson_cross_lt_one 9 (by decide) true false (Or.inl (by decide))
      · exact pearson_cross_lt_one 10 (by decide) true true (Or.inl (by decide))
      · exact pearson_cross_lt_one 10 (by decide) true false (Or.inl (by decide))
      · exact pearson_cross_lt_one 11 (by decide) true true (Or.inl (by decide))
      · exact pearson_cross_lt_one 11 (by decide) true false (Or.inl (by decide))
    have e := find_best_key_of_uniqueMax (ScaleDetector.rotateHist (ScaleDetector.profileOf true) ((12 - 9) % 12)) 18 (by decide)
      (by exact pearson_major_self) hall hbef
    exact ⟨by rw [e]; rfl, by rw [e]; show (1 : ℝ) ≥ 0.9; norm_num⟩
  · -- root 10, minor
    have hall : ∀ j, j < 24 →
        ((ScaleDetector.keyCandidates (ScaleDetector.rotateHist (ScaleDetector.profileOf false) ((12 - 10) % 12))).getD j ScaleDetector.cdflt).2 ≤ 1 := by
      intro j hj
      interval_cases j
      · exact le_of_lt (pearson_cross_lt_one 2 (by decide) false true (Or.inl (by decide)))
      · exact le_of_lt (pearson_cross_lt_one 2 (by decide) false false (Or.inl (by decide)))
      · exact le_of_lt (pearson_cross_lt_one 3 (by decide) false true (Or.inl (by decide)))
      · exact le_of_lt (pearson_cross_lt_one 3 (by decide) false false (Or.inl (by decide)))
      · exact le_of_lt (pearson_cross_lt_one 4 (by decide) false true (Or.inl (by decide)))
      · exact le_of_lt (pearson_cross_lt_one 4 (by decide) false false (Or.inl (by decide)))
      · exact le_of_lt (pearson_cross_lt_one 5 (by decide) false true (Or.inl (by decide)))
      · exact le_of_lt (pearson_cross_lt_one 5 (by decide) false false (Or.inl (by decide)))
      · exact le_of_lt (pearson_cross_lt_one 6 (by decide) false true (Or.inl (by decide)))
      · exact le_of_lt (pearson_cross_lt_one 6 (by decide) false false (Or.inl (by decide)))
      · exact le_of_lt (pearson_cross_lt_one 7 (by decide) false true (Or.inl (by decide)))
      · exact le_of_lt (pearson_cross_lt_one 7 (by decide) false false (Or.inl (by decide)))
      · exact le_of_lt (pearson_cross_lt_one 8 (by decide) false true (Or.inl (by decide)))
      · exact le_of_lt (pearson_cross_lt_one 8 (by decide) false false (Or.inl (by decide)))
      · exact le_of_lt (pearson_cross_lt_one 9 (by decide) false true (Or.inl (by decide)))
      · exact le_of_lt (pearson_cross_lt_one 9 (by decide) false false (Or.inl (by decide)))
      · exact le_of_lt (pearson_cross_lt_one 10 (by decide) false true (Or.inl (by decide)))
      · exact le_of_lt (pearson_cross_lt_one 10 (by decide) false false (Or.inl (by decide)))
      · exact le_of_lt (pearson_cross_lt_one 11 (by decide) false true (Or.inl (by decide)))
      · exact le_of_lt (pearson_cross_lt_one 11 (by decide) false false (Or.inl (by decide)))
      · exact le_of_lt (pearson_cross_lt_one 0 (by decide) false true (Or.inr (by decide)))
      · exact le_of_eq (by exact pearson_minor_self)
      · exact le_of_lt (pearson_cross_lt_one 1 (by decide) false true (Or.inl (by decide)))
      · exact le_of_lt (pearson_cross_lt_one 1 (by decide) false false (Or.inl (by decide)))
    have hbef : ∀ j, j < 21 →
        ((ScaleDetector.keyCandidates (ScaleDetector.rotateHist (ScaleDetector.profileOf false) ((12 - 10) % 12))).getD j ScaleDetector.cdflt).2 < 1 := by
      intro j hj
      interval_cases j
      · exact pearson_cross_lt_one 2 (by decide) false true (Or.inl (by decide))
      · exact pearson_cross_lt_one 2 (by decide) false false (Or.inl (by decide))
      · exact pearson_cross_lt_one 3 (by decide) false true (Or.inl (by decide))
      · exact pearson_cross_lt_one 3 (by decide) false false (Or.inl (by decide))
      · exact pearson_cross_lt_one 4 (by decide) false true (Or.inl (by decide))
      · exact pearson_cross_lt_one 4 (by decide) false false (Or.inl (by decide))
      · exact pearson_cross_lt_one 5 (by decide) false true (Or.inl (by decide))
      · exact pearson_cross_lt_one 5 (by decide) false false (Or.inl (by decide))
      · exact pearson_cross_lt_one 6 (by decide) false true (Or.inl (by decide))
      · exact pearson_cross_lt_one 6 (by decide) false false (Or.inl (by decide))
      · exact pearson_cross_lt_one 7 (by decide) false true (Or.inl (by decide))
      · exact pearson_cross_lt_one 7 (by decide) false false (Or.inl (by decide))
      · exact pearson_cross_lt_one 8 (by decide) false true (Or.inl (by decide))
      · exact pearson_cross_lt_one 8 (by decide) false false (Or.inl (by decide))
      · exact pearson_cross_lt_one 9 (by decide) false true (Or.inl (by decide))
      · exact pearson_cross_lt_one 9 (by decide) false false (Or.inl (by decide))
      · exact pearson_cross_lt_one 10 (by decide) false true (Or.inl (by decide))
      · exact pearson_cross_lt_one 10 (by decide) false false (Or.inl (by decide))
      · exact pearson_cross_lt_one 11 (by decide) false true (Or.inl (by decide))
      · exact pearson_cross_lt_one 11 (by decide) false false (Or.inl (by decide))
      · exact pearson_cross_lt_one 0 (by decide) false true (Or.inr (by decide))
    have e := find_best_key_of_uniqueMax (ScaleDetector.rotateHist (ScaleDetector.profileOf false) ((12 - 10) % 12)) 21 (by decide)
      (by exact pearson_minor_self) hall hbef
    exact ⟨by rw [e]; rfl, by rw [e]; show (1 : ℝ) ≥ 0.9; norm_num⟩
  · -- root 10, major
    have hall : ∀ j, j < 24 →
        ((ScaleDetector.keyCandidates (ScaleDetector.rotateHist (ScaleDetector.profileOf true) ((12 - 10) % 12))).getD j ScaleDetector.cdflt).2 ≤ 1 := by
      intro j hj
      interval_cases j
      · exact le_of_lt (pearson_cross_lt_one 2 (by decide) true true (Or.inl (by decide)))
      · exact le_of_lt (pearson_cross_lt_one 2 (by decide) true false (Or.inl (by decide)))
      · exact le_of_lt (pearson_cross_lt_one 3 (by decide) true true (Or.inl (by decide)))
      · exact le_of_lt (pearson_cross_lt_one 3 (by decide) true false (Or.inl (by decide)))
      · exact le_of_lt (pearson_cross_lt_one 4 (by decide) true true (Or.inl (by decide)))
      · exact le_of_lt (pearson_cross_lt_one 4 (by decide) true false (Or.inl (by decide)))
      · exact le_of_lt (pearson_cross_lt_one 5 (by decide) true true (Or.inl (by decide)))
      · exact le_of_lt (pearson_cross_lt_one 5 (by decide) true false (Or.inl (by decide)))
      · exact le_of_lt (pearson_cross_lt_one 6 (by decide) true true (Or.inl (by decide)))
      · exact le_of_lt (pearson_cross_lt_one 6 (by decide) true false (Or.inl (by decide)))
      · exact le_of_lt (pearson_cross_lt_one 7 (by decide) true true (Or.inl (by decide)))
      · exact le_of_lt (pearson_cross_lt_one 7 (by decide) true false (Or.inl (by decide)))
      · exact le_of_lt (pearson_cross_lt_one 8 (by decide) true true (Or.inl (by decide)))
      · exact le_of_lt (pearson_cross_lt_one 8 (by decide) true false (Or.inl (by decide)))
      · exact le_of_lt (pearson_cross_lt_one 9 (by decide) true true (Or.inl (by decide)))
      · exact le_of_lt (pearson_cross_lt_one 9 (by decide) true false (Or.inl (by decide)))
      · exact le_of_lt (pearson_cross_lt_one 10 (by decide) true true (Or.inl (by decide)))
      · exact le_of_lt (pearson_cross_lt_one 10 (by decide) true false (Or.inl (by decide)))
      · exact le_of_lt (pearson_cross_lt_one 11 (by decide) true true (Or.inl (by decide)))
      · exact le_of_lt (pearson_cross_lt_one 11 (by decide) true false (Or.inl (by decide)))
      · exact le_of_eq (by exact pearson_major_self)
      · exact le_of_lt (pearson_cross_lt_one 0 (by decide) true false (Or.inr (by decide)))
      · exact le_of_lt (pearson_cross_lt_one 1 (by decide) true true (Or.inl (by decide)))
      · exact le_of_lt (pearson_cross_lt_one 1 (by decide) true false (Or.inl (by decide)))
    have hbef : ∀ j, j < 20 →
        ((ScaleDetector.keyCandidates (ScaleDetector.rotateHist (ScaleDetector.profileOf true) ((12 - 10) % 12))).getD j ScaleDetector.cdflt).2 < 1 := by
      intro j hj
      interval_cases j
      · exact pearson_cross_lt_one 2 (by decide) true true (Or.inl (by decide))
      · exact pearson_cross_lt_one 2 (by decide) true false (Or.inl (by decide))
      · exact pearson_cross_lt_one 3 (by decide) true true (Or.inl (by decide))
      · exact pearson_cross_lt_one 3 (by decide) true false (Or.inl (by decide))
      · exact pearson_cross_lt_one 4 (by decide) true true (Or.inl (by decide))
      · exact pearson_cross_lt_one 4 (by decide) true false (Or.inl (by decide))
      · exact pearson_cross_lt_one 5 (by decide) true true (Or.inl (by decide))
      · exact pearson_cross_lt_one 5 (by decide) true false (Or.inl (by decide))
      · exact pearson_cross_lt_one 6 (by decide) true true (Or.inl (by decide))
      · exact pearson_cross_lt_one 6 (by decide) true false (Or.inl (by decide))
      · exact pearson_cross_lt_one 7 (by decide) true true (Or.inl (by decide))
      · exact pearson_cross_lt_one 7 (by decide) true false (Or.inl (by decide))
      · exact pearson_cross_lt_one 8 (by decide) true true (Or.inl (by decide))
      · exact pearson_cross_lt_one 8 (by decide) true false (Or.inl (by decide))
      · exact pearson_cross_lt_one 9 (by decide) true true (Or.inl (by decide))
      · exact pearson_cross_lt_one 9 (by decide) true false (Or.inl (by decide))
      · exact pearson_cross_lt_one 10 (by decide) true true (Or.inl (by decide))
      · exact pearson_cross_lt_one 10 (by decide) true false (Or.inl (by decide))
      · exact pearson_cross_lt_one 11 (by decide) true true (Or.inl (by decide))
      · exact pearson_cross_lt_one 11 (by decide) true false (Or.inl (by decide))
    have e := find_best_key_of_uniqueMax (ScaleDetector.rotateHist (ScaleDetector.profileOf true) ((12 - 10) % 12)) 20 (by decide)
      (by exact pearson_major_self) hall hbef
    exact ⟨by rw [e]; rfl, by rw [e]; show (1 : ℝ) ≥ 0.9; norm_num⟩
  · -- root 11, minor
    have hall : ∀ j, j < 24 →
        ((ScaleDetector.keyCandidates (ScaleDetector.rotateHist (ScaleDetector.profileOf false) ((12 - 11) % 12))).getD j ScaleDetector.cdflt).2 ≤ 1 := by
      intro j hj
      interval_cases j
      · exact le_of_lt (pearson_cross_lt_one 1 (by decide) false true (Or.inl (by decide)))
      · exact le_of_lt (pearson_cross_lt_one 1 (by decide) false false (Or.inl (by decide)))
      · exact le_of_lt (pearson_cross_lt_one 2 (by decide) false true (Or.inl (by decide)))
      · exact le_of_lt (pearson_cross_lt_one 2 (by decide) false false (Or.inl (by decide)))
      · exact le_of_lt (pearson_cross_lt_one 3 (by decide) false true (Or.inl (by decide)))
      · exact le_of_lt (pearson_cross_lt_one 3 (by decide) false false (Or.inl (by decide)))
      · exact le_of_lt (pearson_cross_lt_one 4 (by decide) false true (Or.inl (by decide)))
      · exact le_of_lt (pearson_cross_lt_one 4 (by decide) false false (Or.inl (by decide)))
      · exact le_of_lt (pearson_cross_lt_one 5 (by decide) false true (Or.inl (by decide)))
      · exact le_of_lt (pearson_cross_lt_one 5 (by decide) false false (Or.inl (by decide)))
      · exact le_of_lt (pearson_cross_lt_one 6 (by decide) false true (Or.inl (by decide)))
      · exact le_of_lt (pearson_cross_lt_one 6 (by decide) false false (Or.inl (by decide)))
      · exact le_of_lt (pearson_cross_lt_one 7 (by decide) false true (Or.inl (by decide)))
      · exact le_of_lt (pearson_cross_lt_one 7 (by decide) false false (Or.inl (by decide)))
      · exact le_of_lt (pearson_cross_lt_one 8 (by decide) false true (Or.inl (by decide)))
      · exact le_of_lt (pearson_cross_lt_one 8 (by decide) false false (Or.inl (by decide)))
      · exact le_of_lt (pearson_cross_lt_one 9 (by decide) false true (Or.inl (by decide)))
      · exact le_of_lt (pearson_cross_lt_one 9 (by decide) false false (Or.inl (by decide)))
      · exact le_of_lt (pearson_cross_lt_one 10 (by decide) false true (Or.inl (by decide)))
      · exact le_of_lt (pearson_cross_lt_one 10 (by decide) false false (Or.inl (by decide)))
      · exact le_of_lt (pearson_cross_lt_one 11 (by decide) false true (Or.inl (by decide)))
      · exact le_of_lt (pearson_cross_lt_one 11 (by decide) false false (Or.inl (by decide)))
      · exact le_of_lt (pearson_cross_lt_one 0 (by decide) false true (Or.inr (by decide)))
      · exact le_of_eq (by exact pearson_minor_self)
    have hbef : ∀ j, j < 23 →
        ((ScaleDetector.keyCandidates (ScaleDetector.rotateHist (ScaleDetector.profileOf false) ((12 - 11) % 12))).getD j ScaleDetector.cdflt).2 < 1 := by
      intro j hj
      interval_cases j
      · exact pearson_cross_lt_one 1 (by decide) false true (Or.inl (by decide))
      · exact pearson_cross_lt_one 1 (by decide) false false (Or.inl (by decide))
      · exact pearson_cross_lt_one 2 (by decide) false true (Or.inl (by decide))
      · exact pearson_cross_lt_one 2 (by decide) false false (Or.inl (by decide))
      · exact pearson_cross_lt_one 3 (by decide) false true (Or.inl (by decide))
      · exact pearson_cross_lt_one 3 (by decide) false false (Or.inl (by decide))
      · exact pearson_cross_lt_one 4 (by decide) false true (Or.inl (by decide))
      · exact pearson_cross_lt_one 4 (by decide) false false (Or.inl (by decide))
      · exact pearson_cross_lt_one 5 (by decide) false true (Or.inl (by decide))
      · exact pearson_cross_lt_one 5 (by decide) false false (Or.inl (by decide))
      · exact pearson_cross_lt_one 6 (by decide) false true (Or.inl (by decide))
      · exact pearson_cross_lt_one 6 (by decide) false false (Or.inl (by decide))
      · exact pearson_cross_lt_one 7 (by decide) false true (Or.inl (by decide))
      · exact pearson_cross_lt_one 7 (by decide) false false (Or.inl (by decide))
      · exact pearson_cross_lt_one 8 (by decide) false true (Or.inl (by decide))
      · exact pearson_cross_lt_one 8 (by decide) false false (Or.inl (by decide))
      · exact pearson_cross_lt_one 9 (by decide) false true (Or.inl (by decide))
      · exact pearson_cross_lt_one 9 (by decide) false false (Or.inl (by decide))
      · exact pearson_cross_lt_one 10 (by decide) false true (Or.inl (by decide))
      · exact pearson_cross_lt_one 10 (by decide) false false (Or.inl (by decide))
      · exact pearson_cross_lt_one 11 (by decide) false true (Or.inl (by decide))
      · exact pearson_cross_lt_one 11 (by decide) false false (Or.inl (by decide))
      · exact pearson_cross_lt_one 0 (by decide) false true (Or.inr (by decide))
    have e := find_best_key_of_uniqueMax (ScaleDetector.rotateHist (ScaleDetector.profileOf false) ((12 - 11) % 12)) 23 (by decide)
      (by exact pearson_minor_self) hall hbef
    exact ⟨by rw [e]; rfl, by rw [e]; show (1 : ℝ) ≥ 0.9; norm_num⟩
  · -- root 11, major
    have hall : ∀ j, j < 24 →
        ((ScaleDetector.keyCandidates (ScaleDetector.rotateHist (ScaleDetector.profileOf true) ((12 - 11) % 12))).getD j ScaleDetector.cdflt).2 ≤ 1 := by
      intro j hj
      interval_cases j
      · exact le_of_lt (pearson_cross_lt_one 1 (by decide) true true (Or.inl (by decide)))
      · exact le_of_lt (pearson_cross_lt_one 1 (by decide) true false (Or.inl (by decide)))
      · exact le_of_lt (pearson_cross_lt_one 2 (by decide) true true (Or.inl (by decide)))
      · exact le_of_lt (pearson_cross_lt_one 2 (by decide) true false (Or.inl (by decide)))
      · exact le_of_lt (pearson_cross_lt_one 3 (by decide) true true (Or.inl (by decide)))
      · exact le_of_lt (pearson_cross_lt_one 3 (by decide) true false (Or.inl (by decide)))
      · exact le_of_lt (pearson_cross_lt_one 4 (by decide) true true (Or.inl (by decide)))
      · exact le_of_lt (pearson_cross_lt_one 4 (by decide) true false (Or.inl (by decide)))
      · exact le_of_lt (pearson_cross_lt_one 5 (by decide) true true (Or.inl (by decide)))
      · exact le_of_lt (pearson_cross_lt_one 5 (by decide) true false (Or.inl (by decide)))
      · exact le_of_lt (pearson_cross_lt_one 6 (by decide) true true (Or.inl (by decide)))
      · exact le_of_lt (pearson_cross_lt_one 6 (by decide) true false (Or.inl (by decide)))
      · exact le_of_lt (pearson_cross_lt_one 7 (by decide) true true (Or.inl (by decide)))
      · exact le_of_lt (pearson_cross_lt_one 7 (by decide) true false (Or.inl (by decide)))
      · exact le_of_lt (pearson_cross_lt_one 8 (by decide) true true (Or.inl (by decide)))
      · exact le_of_lt (pearson_cross_lt_one 8 (by decide) true false (Or.inl (by decide)))
      · exact le_of_lt (pearson_cross_lt_one 9 (by decide) true true (Or.inl (by decide)))
      · exact le_of_lt (pearson_cross_lt_one 9 (by decide) true false (Or.inl (by decide)))
      · exact le_of_lt (pearson_cross_lt_one 10 (by decide) true true (Or.inl (by decide)))
      · exact le_of_lt (pearson_cross_lt_one 10 (by decide) true false (Or.inl (by decide)))
      · exact le_of_lt (pearson_cross_lt_one 11 (by decide) true true (Or.inl (by decide)))
      · exact le_of_lt (pearson_cross_lt_one 11 (by decide) true false (Or.inl (by decide)))
      · exact le_of_eq (by exact pearson_major_self)
      · exact le_of_lt (pearson_cross_lt_one 0 (by decide) true false (Or.inr (by decide)))
    have hbef : ∀ j, j < 22 →
        ((ScaleDetector.keyCandidates (ScaleDetector.rotateHist (ScaleDetector.profileOf true) ((12 - 11) % 12))).getD j ScaleDetector.cdflt).2 < 1 := by
      intro j hj
      interval_cases j
      · exact pearson_cross_lt_one 1 (by decide) true true (Or.inl (by decide))
      · exact pearson_cross_lt_one 1 (by decide) true false (Or.inl (by decide))
      · exact pearson_cross_lt_one 2 (by decide) true true (Or.inl (by decide))
      · exact pearson_cross_lt_one 2 (by decide) true false (Or.inl (by decide))
      · exact pearson_cross_lt_one 3 (by decide) true true (Or.inl (by decide))
      · exact pearson_cross_lt_one 3 (by decide) true false (Or.inl (by decide))
      · exact pearson_cross_lt_one 4 (by decide) true true (Or.inl (by decide))
      · exact pearson_cross_lt_one 4 (by decide) true false (Or.inl (by decide))
      · exact pearson_cross_lt_one 5 (by decide) true true (Or.inl (by decide))
      · exact pearson_cross_lt_one 5 (by decide) true false (Or.inl (by decide))
      · exact pearson_cross_lt_one 6 (by decide) true true (Or.inl (by decide))
      · exact pearson_cross_lt_one 6 (by decide) true false (Or.inl (by decide))
      · exact pearson_cross_lt_one 7 (by decide) true true (Or.inl (by decide))
      · exact pearson_cross_lt_one 7 (by decide) true false (Or.inl (by decide))
      · exact pearson_cross_lt_one 8 (by decide) true true (Or.inl (by decide))
      · exact pearson_cross_lt_one 8 (by decide) true false (Or.inl (by decide))
      · exact pearson_cross_lt_one 9 (by decide) true true (Or.inl (by decide))
      · exact pearson_cross_lt_one 9 (by decide) true false (Or.inl (by decide))
      · exact pearson_cross_lt_one 10 (by decide) true true (Or.inl (by decide))
      · exact pearson_cross_lt_one 10 (by decide) true false (Or.inl (by decide))
      · exact pearson_cross_lt_one 11 (by decide) true true (Or.inl (by decide))
      · exact pearson_cross_lt_one 11 (by decide) true false (Or.inl (by decide))
    have e := find_best_key_of_uniqueMax (ScaleDetector.rotateHist (ScaleDetector.profileOf true) ((12 - 11) % 12)) 22 (by decide)
      (by exact pearson_major_self) hall hbef
    exact ⟨by rw [e]; rfl, by rw [e]; show (1 : ℝ) ≥ 0.9; norm_num⟩

/-- Witness for C5 at root C major. -/
theorem find_best_key_on_profiles_witness :
    (0 : Nat) < 12 ∧
    ((ScaleDetector.find_best_key
        (ScaleDetector.rotateHist (ScaleDetector.profileOf true) ((12 - 0) % 12))).1 =
      ScaleDetector.NOTE_NAMES.getD 0 "unknown" ++ " " ++ ScaleDetector.modeNameOf true ∧
     (ScaleDetector.find_best_key
        (ScaleDetector.rotateHist (ScaleDetector.profileOf true) ((12 - 0) % 12))).2 ≥ 0.9) :=
  ⟨by decide, find_best_key_on_profiles 0 (by decide) true⟩
